import Mathlib

/-! RedZone: zone lifecycle, notification dispatch and phone formatting.

A shallow embedding of the server side of the RedZone application:

* `server/models/RedZone.js`, `server/models/UserContact.js`, `server/models/User.js`
  (the documents and the schema rules applied when a document is saved),
* `server/middleware/auth.js` (the `auth` middleware),
* `server/routes/redzones.js` (the handlers registered on the router and the order in which
  they are registered),
* `server/utils/twilio.js` (the initialisation of the client, `sendSMS`,
  `sendRedZoneNotification`),
* `server/routes/admin.js` and `server/routes/userContacts.js` (the removal routes and
  `POST /notify`),
* `src/pages/Map.jsx` (`checkCurrentStatus`, `calculateDistance`, over the real numbers
  extended by `NaN`).

Conventions of the embedding.

* Object ids of users are natural numbers. The `_id` of a stored zone is its `ObjectId`
  written as 24 lower-case hexadecimal digits; the id of a request is the string that
  appears in the request path (`req.params.id`), which `RedZone.findById` casts to an
  `ObjectId` (a string of 24 hexadecimal digits, in either case) or refuses with a
  `CastError`.
* Dates are natural numbers (milliseconds). A request is handled at one instant `now`:
  every `new Date()` / `Date.now()` evaluated while handling it, and the time stamp that
  the `timestamps: true` option of the schemas writes on `save()`, read that instant.
* The database is a value of type `Db`; a handler maps the database before the request to
  an `Outcome`: the response sent (if any), the database afterwards and the notification
  calls it started. Notification calls are started without being awaited, so the handler
  does not observe their results; they are recorded as `Dispatch` values.
* Queries on the `RedZone` collection succeed, except that `RedZone.findById` rejects on
  an id that is not an `ObjectId`. Queries on the `UserContact` collection succeed when
  `Db.contactsUp` is true and reject otherwise.
* Documents read from the database are written back by `save()` without a validation
  failure (they were stored through the same schema); a new document is validated
  against the schema rules of `RedZone.js`.
* Contacts are stored through the schema of `UserContact.js`, whose `required` rule
  refuses an empty phone; the handlers are defined on every contact collection, and the
  properties of their answers are stated for collections that the schema admits.
* On the map page a coordinate of a zone is a number, `null` or `undefined` (`Coord`); a
  computed distance is a real number or `NaN`, written `none`.
-/

namespace RedZone

/-! ## Documents -/

abbrev UserId := Nat
abbrev ZoneId := String
abbrev Time := Nat

/-- The `role` enum of `User.js`. -/
inductive Role
  | user
  | admin
deriving DecidableEq, Repr

/-- The `severity` enum of `RedZone.js`. -/
inductive Severity
  | low
  | medium
  | high
deriving DecidableEq, Repr

/-- The `status` enum of `RedZone.js`. -/
inductive Status
  | pending
  | approved
  | rejected
  | safe
deriving DecidableEq, Repr

/-- The `coordinates` sub-document of `RedZone.js`; both parts default to `null`. -/
structure Coordinates where
  lat : Option Rat
  lng : Option Rat
deriving DecidableEq

/-- A user document (`User.js`), restricted to the fields the routes read. -/
structure User where
  _id : UserId
  name : String
  email : String
  role : Role
  isActive : Bool
deriving DecidableEq

/-- A zone document (`RedZone.js`). -/
structure Zone where
  _id : ZoneId
  title : String
  description : String
  location : String
  landmark : Option String
  coordinates : Coordinates
  imageUrl : Option String
  severity : Severity
  status : Status
  reportedBy : UserId
  createdAt : Time
  updatedAt : Option Time
  reviewedBy : Option UserId
  reviewedAt : Option Time
deriving DecidableEq

/-- The `status` enum of `UserContact.js`. -/
inductive ContactStatus
  | active
  | pending_removal
deriving DecidableEq, Repr

/-- A contact document (`UserContact.js`). -/
structure UserContact where
  _id : Nat
  name : String
  email : String
  phone : String
  userId : UserId
  status : ContactStatus
deriving DecidableEq

/-- The collections the routes work on. -/
structure Db where
  users : List User
  zones : List Zone
  contacts : List UserContact
  contactsUp : Bool
deriving DecidableEq

/-! ## Queries -/

/-- The query `User.findById(id)`. -/
def User.findById (db : Db) (id : UserId) : Option User :=
  db.users.find? (fun u => u._id == id)

/-- The method `toLowerCase` on the letters `A` to `Z` (the setter `lowercase: true` of a
schema; the reading of the hexadecimal digits of an `ObjectId`). -/
def toLowerCase (s : String) : String :=
  ⟨s.data.map Char.toLower⟩

/-- Whether a character is a hexadecimal digit (`[0-9a-fA-F]`). -/
def isHexDigit (c : Char) : Bool :=
  (0x30 ≤ c.val && c.val ≤ 0x39) || (0x61 ≤ c.val && c.val ≤ 0x66) ||
    (0x41 ≤ c.val && c.val ≤ 0x46)

/-- The cast of the string `id` to an `ObjectId` made by `RedZone.findById(id)`: a string
of 24 hexadecimal digits is read without regard to case, the result being the `ObjectId` in
its lower-case form; `none` stands for the `CastError` with which the query rejects on
every other string. -/
def castObjectId (id : String) : Option ZoneId :=
  if id.data.length = 24 ∧ id.data.all isHexDigit then some (toLowerCase id) else none

/-- The document stored under the `ObjectId` `oid` (`none` when there is none). -/
def Zone.stored (db : Db) (oid : ZoneId) : Option Zone :=
  db.zones.find? (fun z => z._id == oid)

/-- The value the query `RedZone.findById(id)` resolves to: the document stored under the
cast of `id` (`none` for `null`). On an `id` that cannot be cast the query rejects instead
of resolving; the handlers test `castObjectId id` before they read this value. -/
def Zone.findById (db : Db) (id : ZoneId) : Option Zone :=
  match castObjectId id with
  | none => none
  | some oid => Zone.stored db oid

/-- The call `redZone.save()` on a document that was read from the collection: the stored
document with the same `_id` is replaced. -/
def Zone.save (db : Db) (doc : Zone) : Db :=
  { db with zones := db.zones.map (fun z => if z._id == doc._id then doc else z) }

/-- The query `UserContact.find({}, 'phone')`; `none` stands for a rejected query. -/
def UserContact.find (db : Db) : Option (List UserContact) :=
  if db.contactsUp then some db.contacts else none

/-- The query `UserContact.findOne({ userId })`; the outer `none` stands for a rejected
query, the inner one for `null`. -/
def UserContact.findOne (db : Db) (userId : UserId) : Option (Option UserContact) :=
  if db.contactsUp then some (db.contacts.find? (fun c => c.userId == userId)) else none

/-! ## Responses and started notifications -/

/-- The JSON answer of a route: HTTP status, `success`, `message`, `redZone`. -/
structure Response where
  status : Nat
  success : Bool
  message : String
  redZone : Option Zone
deriving DecidableEq

/-- A notification call started by a handler (not awaited). -/
inductive Dispatch
  /-- The call `sendRedZoneNotification(phoneNumbers, redZone)`. -/
  | redZoneNotification (phoneNumbers : List String) (redZone : Zone)
  /-- The call `sendSMS(phoneNumber, message)`. -/
  | sms (phoneNumber : String) (message : String)
deriving DecidableEq

/-- What handling one request does: the response sent (`none` when the handler finishes
without sending one), the database afterwards, the notification calls started. -/
structure Outcome where
  response : Option Response
  db : Db
  dispatched : List Dispatch
deriving DecidableEq

/-- The answer `res.status(403).json(...)` shared by the moderation handlers. -/
def forbidden : Response :=
  ⟨403, false, "Access denied. Admin privileges required.", none⟩

/-- The answer `res.status(404).json(...)` with the given message. -/
def notFound (message : String) : Response :=
  ⟨404, false, message, none⟩

/-- The answer `res.json({ success: true, message, redZone })`. -/
def okZone (message : String) (redZone : Zone) : Response :=
  ⟨200, true, message, some redZone⟩

/-- The answer `res.status(500).json(...)` sent by the `catch` of a route. -/
def serverError (message : String) : Response :=
  ⟨500, false, message, none⟩

/-! ## Moderation handlers of `server/routes/redzones.js` -/

/-- The first handler registered for `PUT /:id/approve` (the one under the comment
`REMOVE THIS PLACEHOLDER IMPLEMENTATION`). -/
def approvePlaceholder (db : Db) (user : User) (id : ZoneId) (now : Time) : Outcome :=
  if user.role ≠ Role.admin then
    ⟨some forbidden, db, []⟩
  else if castObjectId id = none then
    -- `RedZone.findById` rejects with a `CastError`, caught by the `catch` of the route
    ⟨some (serverError "Failed to approve RedZone"), db, []⟩
  else
    match Zone.findById db id with
    | none => ⟨some (notFound "RedZone not found"), db, []⟩
    | some found =>
      let redZone : Zone :=
        { found with
          status := Status.approved
          reviewedBy := some user._id
          reviewedAt := some now
          updatedAt := some now }
      ⟨some (okZone "RedZone approved successfully" redZone), Zone.save db redZone, []⟩

/-- The first handler registered for `PUT /:id/reject`. -/
def rejectPlaceholder (db : Db) (user : User) (id : ZoneId) (now : Time) : Outcome :=
  if user.role ≠ Role.admin then
    ⟨some forbidden, db, []⟩
  else if castObjectId id = none then
    -- `RedZone.findById` rejects with a `CastError`, caught by the `catch` of the route
    ⟨some (serverError "Failed to reject RedZone"), db, []⟩
  else
    match Zone.findById db id with
    | none => ⟨some (notFound "RedZone not found"), db, []⟩
    | some found =>
      let redZone : Zone :=
        { found with
          status := Status.rejected
          reviewedBy := some user._id
          reviewedAt := some now
          updatedAt := some now }
      ⟨some (okZone "RedZone rejected successfully" redZone), Zone.save db redZone, []⟩

/-- The text built for the reporter in the second `PUT /:id/approve` handler. -/
def reporterMessage (redZone : Zone) : String :=
  "Good news! Your RedZone report \"" ++ redZone.title ++ "\" at " ++ redZone.location ++
    " has been approved by an admin. Thank you for helping keep our community safe."

/-- The inner `try` block of the second `PUT /:id/approve` handler that notifies the
reporter. The result is `(responds, calls)`: `responds = false` when the block leaves the
handler through a bare `return`, `calls` are the `sendSMS` calls started.
`reporter` is `redZone.reportedBy` after `populate('reportedBy')` (`none` for `null`). -/
def notifyReporter (db : Db) (redZone : Zone) (reporter : Option User) :
    Bool × List Dispatch :=
  match reporter with
  | none => (false, [])
  | some r =>
    match UserContact.findOne db r._id with
    | none => (true, [])
    | some none => (true, [])
    | some (some reporterContact) =>
      if reporterContact.phone ≠ "" then
        if redZone.title = "" ∨ redZone.location = "" then (false, [])
        else (true, [Dispatch.sms reporterContact.phone (reporterMessage redZone)])
      else (true, [])

/-- The second handler registered for `PUT /:id/approve` (the one under the comment
`KEEP THIS ACTUAL IMPLEMENTATION`). -/
def approveHandler (db : Db) (user : User) (id : ZoneId) (now : Time) : Outcome :=
  if user.role ≠ Role.admin then
    ⟨some forbidden, db, []⟩
  else if castObjectId id = none then
    -- `RedZone.findById` rejects with a `CastError`, caught by the `catch` of the route
    ⟨some (serverError "Failed to approve RedZone report"), db, []⟩
  else
    match Zone.findById db id with
    | none => ⟨some (notFound "RedZone report not found"), db, []⟩
    | some found =>
      let reporter := User.findById db found.reportedBy
      let redZone : Zone :=
        { found with
          status := Status.approved
          reviewedBy := some user._id
          reviewedAt := some now
          updatedAt := some now }
      let db' := Zone.save db redZone
      let answer := some (okZone "RedZone report approved successfully" redZone)
      if redZone.title = "" ∨ redZone.location = "" then
        -- `throw new Error(...)`, caught by the enclosing `catch`
        ⟨answer, db', []⟩
      else
        match UserContact.find db' with
        | none => ⟨answer, db', []⟩
        | some userContacts =>
          let phoneNumbers := (userContacts.map (fun contact => contact.phone)).filter
            (fun phone => phone ≠ "")
          if 0 < userContacts.length ∧ phoneNumbers.length = 0 then
            -- bare `return`
            ⟨none, db', []⟩
          else
            let fanout :=
              if 0 < userContacts.length then
                [Dispatch.redZoneNotification phoneNumbers redZone]
              else []
            let (responds, calls) := notifyReporter db' redZone reporter
            ⟨if responds then answer else none, db', fanout ++ calls⟩

/-- The second handler registered for `PUT /:id/reject`. -/
def rejectHandler (db : Db) (user : User) (id : ZoneId) (now : Time) : Outcome :=
  if user.role ≠ Role.admin then
    ⟨some forbidden, db, []⟩
  else if castObjectId id = none then
    -- `RedZone.findById` rejects with a `CastError`, caught by the `catch` of the route
    ⟨some (serverError "Failed to reject RedZone report"), db, []⟩
  else
    match Zone.findById db id with
    | none => ⟨some (notFound "RedZone report not found"), db, []⟩
    | some found =>
      let redZone : Zone :=
        { found with
          status := Status.rejected
          reviewedBy := some user._id
          reviewedAt := some now
          updatedAt := some now }
      ⟨some (okZone "RedZone report rejected successfully" redZone), Zone.save db redZone, []⟩

/-- The text built in the `PUT /:id/safe-now` handler. -/
def safeMessage (redZone : Zone) : String :=
  "SAFETY UPDATE: The area \"" ++ redZone.title ++ "\" at " ++ redZone.location ++
    " is now marked as SAFE by authorities. You can resume normal activities in this area."

/-- The handler registered for `PUT /:id/safe-now`. -/
def safeNowHandler (db : Db) (user : User) (id : ZoneId) (now : Time) : Outcome :=
  if user.role ≠ Role.admin then
    ⟨some forbidden, db, []⟩
  else if castObjectId id = none then
    -- `RedZone.findById` rejects with a `CastError`, caught by the `catch` of the route
    ⟨some (serverError "Failed to mark RedZone as safe"), db, []⟩
  else
    match Zone.findById db id with
    | none => ⟨some (notFound "RedZone report not found"), db, []⟩
    | some found =>
      let redZone : Zone := { found with status := Status.safe, updatedAt := some now }
      let db' := Zone.save db redZone
      let answer := some (okZone "RedZone marked as safe successfully" redZone)
      match UserContact.find db' with
      | none => ⟨answer, db', []⟩
      | some userContacts =>
        if 0 < userContacts.length then
          let phoneNumbers := (userContacts.map (fun contact => contact.phone)).filter
            (fun phone => phone ≠ "")
          if phoneNumbers.length = 0 then
            -- bare `return`
            ⟨none, db', []⟩
          else
            ⟨answer, db', phoneNumbers.map (fun phone => Dispatch.sms phone (safeMessage redZone))⟩
        else ⟨answer, db', []⟩

/-! ## Report creation (`POST /`) -/

/-- White space removed by `String.prototype.trim` (the `trim: true` setter of the schema). -/
def isTrimSpace (c : Char) : Bool :=
  c.val == 0x20 || (0x09 ≤ c.val && c.val ≤ 0x0D) || c.val == 0xA0 || c.val == 0x1680 ||
    (0x2000 ≤ c.val && c.val ≤ 0x200A) || c.val == 0x2028 || c.val == 0x2029 ||
    c.val == 0x202F || c.val == 0x205F || c.val == 0x3000 || c.val == 0xFEFF

/-- The setter `trim: true`. -/
def trim (s : String) : String :=
  ⟨((s.data.dropWhile isTrimSpace).reverse.dropWhile isTrimSpace).reverse⟩

/-- The `length` of a JavaScript string (UTF-16 code units). -/
def jsLength (s : String) : Nat :=
  (s.data.map (fun c => if c.val < 0x10000 then 1 else 2)).sum

/-- The fields of `req.body` and `req.file` read by `POST /`. A text field that is absent
is `none`. `coordinates` is the value obtained from `JSON.parse(req.body.coordinates)`,
`none` when the field is absent or does not parse. `file` is the image URL derived from
`req.file`, `none` when no image was uploaded (a request whose upload is refused by the
`multer` filter does not reach the handler). -/
structure CreateBody where
  title : Option String
  description : Option String
  location : Option String
  landmark : Option String
  severity : Option String
  status : Option String
  coordinates : Option Coordinates
  file : Option String
deriving DecidableEq

/-- The members of `validSeverities`, as values of the schema enum. -/
def Severity.ofString (s : String) : Option Severity :=
  if s = "low" then some Severity.low
  else if s = "medium" then some Severity.medium
  else if s = "high" then some Severity.high
  else none

/-- The answer `res.status(400).json(...)`. -/
def badRequest (message : String) : Response :=
  ⟨400, false, message, none⟩

/-- The validation run by `save()` on a new zone: `required` and `maxlength` of
`RedZone.js`, applied to the values after the `trim` setter. -/
def Zone.schemaValid (z : Zone) : Bool :=
  z.title ≠ "" && jsLength z.title ≤ 100 &&
    z.description ≠ "" && jsLength z.description ≤ 500 && z.location ≠ ""

/-- The document `newRedZone` of `POST /` when it is saved: the fields given to
`new RedZone(...)` after the `trim` setters, the schema defaults, the direct approval
when the user is an admin and the body has `status` equal to `'approved'`, the image
URL, and `updatedAt` as written by the `timestamps: true` option of the schema. -/
def buildRedZone (user : User) (body : CreateBody) (title description location : String)
    (sev : Severity) (newId : ZoneId) (now : Time) : Zone :=
  let direct : Bool := user.role = Role.admin ∧ body.status = some "approved"
  { _id := newId
    title := trim title
    description := trim description
    location := trim location
    landmark := body.landmark.map trim
    coordinates := body.coordinates.getD ⟨none, none⟩
    imageUrl := body.file
    severity := sev
    status := if direct then Status.approved else Status.pending
    reportedBy := user._id
    createdAt := now
    updatedAt := some now
    reviewedBy := if direct then some user._id else none
    reviewedAt := if direct then some now else none }

/-- The notification started by `POST /` after the save. -/
def createFanout (db : Db) (user : User) (newRedZone : Zone) : List Dispatch :=
  if user.role = Role.admin ∧ newRedZone.status = Status.approved then
    match UserContact.find db with
    | none => []
    | some userContacts =>
      if 0 < userContacts.length then
        [Dispatch.redZoneNotification (userContacts.map (fun contact => contact.phone))
          newRedZone]
      else []
  else []

/-- The handler registered for `POST /`. `newId` is the `ObjectId` given to the new
document; an insert under an `_id` that is already stored is refused by the collection.
The copy of the image written to the `RedZoneImage` collection is not part of `Db`. -/
def createHandler (db : Db) (user : User) (body : CreateBody) (newId : ZoneId) (now : Time) :
    Outcome :=
  match body.title, body.description, body.location, body.severity with
  | some title, some description, some location, some severity =>
    if title = "" ∨ description = "" ∨ location = "" ∨ severity = "" then
      ⟨some (badRequest "All fields are required"), db, []⟩
    else
      match Severity.ofString severity with
      | none => ⟨some (badRequest "Severity must be low, medium, or high"), db, []⟩
      | some sev =>
        let newRedZone := buildRedZone user body title description location sev newId now
        if !newRedZone.schemaValid || (Zone.stored db newId).isSome then
          ⟨some (serverError "Failed to create RedZone report"), db, []⟩
        else
          let db' : Db := { db with zones := db.zones ++ [newRedZone] }
          let message :=
            if newRedZone.status = Status.approved then
              "RedZone created and approved successfully."
            else "RedZone report submitted successfully. It will be reviewed by an admin."
          ⟨some ⟨201, true, message, some newRedZone⟩, db', createFanout db' user newRedZone⟩
  | _, _, _, _ => ⟨some (badRequest "All fields are required"), db, []⟩

/-! ## The `auth` middleware and the router -/

/-- The bearer token of a request as `jwt.verify` sees it: absent; rejected with a
`JsonWebTokenError` (malformed, wrong signature); rejected with an error of another name
(`TokenExpiredError` for an expired token, `NotBeforeError`); or decoding to a user id. -/
inductive Token
  | missing
  | invalid
  | expired
  | valid (userId : UserId)
deriving DecidableEq

/-- The middleware `auth` of `server/middleware/auth.js`: the user put in `req.user`, or
the 401 answer. -/
def auth (db : Db) (token : Token) : Except Response User :=
  match token with
  | Token.missing => Except.error ⟨401, false, "No token, authorization denied", none⟩
  | Token.invalid => Except.error ⟨401, false, "Token is not valid", none⟩
  | Token.expired => Except.error ⟨401, false, "Token is not valid", none⟩
  | Token.valid userId =>
    match User.findById db userId with
    | none => Except.error ⟨401, false, "Token is not valid", none⟩
    | some user => Except.ok user

/-- The HTTP methods of the routes that write. -/
inductive Method
  | POST
  | PUT
deriving DecidableEq, Repr

/-- One segment of a route path: a literal or a named parameter such as `:id`. -/
inductive Segment
  | lit (s : String)
  | param
deriving DecidableEq

/-- The handlers of the writing routes of `redzones.js`. -/
inductive HandlerName
  | create
  | approvePlaceholder
  | rejectPlaceholder
  | approve
  | reject
  | safeNow
deriving DecidableEq, Repr

/-- A registration `router.METHOD(path, auth, handler)`. -/
structure Route where
  method : Method
  path : List Segment
  handler : HandlerName
deriving DecidableEq

/-- The `POST` and `PUT` registrations of `redzones.js`, in the order of the file. The
`GET` registrations are left out: a request is only matched against routes of its own
method, and they do not write. -/
def routes : List Route :=
  [ ⟨Method.POST, [], HandlerName.create⟩,
    ⟨Method.PUT, [Segment.param, Segment.lit "approve"], HandlerName.approvePlaceholder⟩,
    ⟨Method.PUT, [Segment.param, Segment.lit "reject"], HandlerName.rejectPlaceholder⟩,
    ⟨Method.PUT, [Segment.param, Segment.lit "approve"], HandlerName.approve⟩,
    ⟨Method.PUT, [Segment.param, Segment.lit "reject"], HandlerName.reject⟩,
    ⟨Method.PUT, [Segment.param, Segment.lit "safe-now"], HandlerName.safeNow⟩ ]

/-- Whether a route path matches the segments of a request path (the non-empty pieces
between the slashes): a literal matches itself, a parameter matches any segment. -/
def matchPath : List Segment → List String → Bool
  | [], [] => true
  | Segment.lit l :: ps, s :: ss => l == s && matchPath ps ss
  | Segment.param :: ps, _ :: ss => matchPath ps ss
  | _, _ => false

/-- A request to the router mounted at `/api/redzones`: `path` holds the segments below
the mount point, `newId` the `_id` a created document would get. -/
structure Request where
  method : Method
  path : List String
  token : Token
  body : CreateBody
  newId : ZoneId
  now : Time
deriving DecidableEq

/-- The value of `req.params.id`. -/
def Request.id (req : Request) : ZoneId :=
  req.path.headD ""

/-- Runs the handler of a matched route. -/
def runHandler (h : HandlerName) (db : Db) (user : User) (req : Request) : Outcome :=
  match h with
  | HandlerName.create => createHandler db user req.body req.newId req.now
  | HandlerName.approvePlaceholder => approvePlaceholder db user req.id req.now
  | HandlerName.rejectPlaceholder => rejectPlaceholder db user req.id req.now
  | HandlerName.approve => approveHandler db user req.id req.now
  | HandlerName.reject => rejectHandler db user req.id req.now
  | HandlerName.safeNow => safeNowHandler db user req.id req.now

/-- The router: the first registration whose method and path match the request is run
(`auth`, then the handler; no handler of the file calls `next`, so later registrations
for the same path are not reached). `none` when no registration matches. -/
def handle (db : Db) (req : Request) : Option Outcome :=
  match routes.find? (fun r => r.method == req.method && matchPath r.path req.path) with
  | none => none
  | some r =>
    match auth db req.token with
    | Except.error resp => some ⟨some resp, db, []⟩
    | Except.ok user => some (runHandler r.handler db user req)

/-- The request `PUT /:id/<action>` sent with a token that decodes to `userId`. -/
def putRequest (id : ZoneId) (action : String) (userId : UserId) (now : Time) : Request :=
  { method := Method.PUT
    path := [id, action]
    token := Token.valid userId
    body := ⟨none, none, none, none, none, none, none, none⟩
    newId := ""
    now := now }

/-! ## `server/utils/twilio.js` -/

/-- The result object of a send: the fields of a Twilio message that the code reads, or
of the `mockResult` built in test mode (`dateCreated` is only set there). -/
structure SmsResult where
  sid : String
  status : String
  to_ : String
  body : String
  dateCreated : Option Time
deriving DecidableEq

/-- The module state of `twilio.js` after its initialisation: whether `client` was
created, the flag `isTestMode`, and the behaviour of `client.messages.create` on
`(to, body)` (`none` when the call rejects). -/
structure Twilio where
  client : Bool
  isTestMode : Bool
  create : String → String → Option SmsResult

/-- The first argument of `sendSMS` as a JavaScript value: a string, or a value of
another type. -/
inductive PhoneArg
  | str (s : String)
  | other
deriving DecidableEq

/-- What a call of `sendSMS` did besides returning. -/
inductive SendEffect
  /-- The call `client.messages.create` with `to` and `body`. -/
  | provider (to_ : String) (body : String)
  /-- A send simulated in test mode. -/
  | simulated (to_ : String) (body : String)
deriving DecidableEq

/-- The replacement `replace(/^0+/, '')` on the characters of a string. -/
def stripLeadingZeros : List Char → List Char
  | [] => []
  | c :: cs => if c = '0' then stripLeadingZeros cs else c :: cs

/-- The replacement `replace(/^\+\d+/, '')` on the characters of a string: a leading `+`
followed by at least one digit is removed together with all the digits after it. -/
def stripCountryCode : List Char → List Char
  | [] => []
  | [c] => [c]
  | c :: d :: cs =>
    if c = '+' ∧ d.isDigit then cs.dropWhile Char.isDigit else c :: d :: cs

/-- The computation of `formattedNumber` in `sendSMS`. -/
def formatNumber (phoneNumber : String) : String :=
  if phoneNumber.data.head? ≠ some '+' then
    ⟨['+', '9', '1'] ++ stripLeadingZeros phoneNumber.data⟩
  else if phoneNumber.data.take 3 ≠ ['+', '9', '1'] then
    ⟨['+', '9', '1'] ++ stripCountryCode phoneNumber.data⟩
  else phoneNumber

/-- The function `sendSMS`: the value the returned promise resolves to (`none` for `null`)
and what the call did. -/
def sendSMS (tw : Twilio) (phoneNumber : PhoneArg) (message : String) (now : Time) :
    Option SmsResult × List SendEffect :=
  match phoneNumber with
  | PhoneArg.other => (none, [])
  | PhoneArg.str p =>
    if p = "" then (none, [])
    else if !tw.client && !tw.isTestMode then (none, [])
    else
      let formattedNumber := formatNumber p
      if tw.isTestMode then
        (some ⟨"TEST" ++ toString now, "delivered", formattedNumber, message, some now⟩,
          [SendEffect.simulated formattedNumber message])
      else
        (tw.create formattedNumber message, [SendEffect.provider formattedNumber message])

/-- What the initialisation of `twilio.js` reads: the three environment variables
(`none` when unset), whether the constructor call `twilio(accountSid, authToken)` throws,
and the behaviour of `client.messages.create` of the constructed client. -/
structure TwilioEnv where
  accountSid : Option String
  authToken : Option String
  messagingServiceSid : Option String
  constructorThrows : Bool
  create : String → String → Option SmsResult

/-- The truth value of an environment variable in a condition: set and not empty. -/
def isSet (v : Option String) : Bool :=
  match v with
  | some s => s ≠ ""
  | none => false

/-- The initialisation of `client` and `isTestMode` at the top of `twilio.js`. -/
def initTwilio (env : TwilioEnv) : Twilio :=
  let testCredentials : Bool :=
    env.accountSid = some "AC00000000000000000000000000000000" ∧
      env.authToken = some "00000000000000000000000000000000"
  let complete : Bool :=
    isSet env.accountSid && isSet env.authToken && isSet env.messagingServiceSid
  { client := complete && !env.constructorThrows
    isTestMode := testCredentials || (complete && env.constructorThrows)
    create := env.create }

/-- The strings of the `severity` enum. -/
def Severity.toString : Severity → String
  | Severity.low => "low"
  | Severity.medium => "medium"
  | Severity.high => "high"

/-- The method `toUpperCase` on the letters `a` to `z` (the enum strings have no other
letters). -/
def toUpperCase (s : String) : String :=
  ⟨s.data.map Char.toUpper⟩

/-- The expression `redZone.severity ? redZone.severity.toUpperCase() : 'HIGH'`. -/
def severityLabel (severity : Option Severity) : String :=
  match severity with
  | some s => toUpperCase s.toString
  | none => "HIGH"

/-- The text `message` built by `sendRedZoneNotification`. -/
def notificationMessage (redZone : Zone) : String :=
  if redZone.status = Status.approved then
    "ALERT: RedZone \"" ++ redZone.title ++ "\" at " ++ redZone.location ++
      " has been verified and approved. Severity: " ++ severityLabel (some redZone.severity) ++
      ". Please exercise caution in this area."
  else
    "ALERT: New RedZone \"" ++ redZone.title ++ "\" has been reported at " ++
      redZone.location ++ ". Severity: " ++ severityLabel (some redZone.severity) ++
      ". Please exercise caution in this area."

/-- The function `sendRedZoneNotification` on an array of phone values and a zone
document: the array the returned promise resolves to and what the sends did. The sends run
concurrently; their effects are listed in the order of the array. -/
def sendRedZoneNotification (tw : Twilio) (phoneNumbers : List PhoneArg) (redZone : Zone)
    (now : Time) : List SmsResult × List SendEffect :=
  if !tw.client && !tw.isTestMode then ([], [])
  else if phoneNumbers.length = 0 then ([], [])
  else if redZone.title = "" ∨ redZone.location = "" then ([], [])
  else
    let message := notificationMessage redZone
    let results := phoneNumbers.map (fun phone => sendSMS tw phone message now)
    (results.filterMap (fun r => r.1), results.flatMap (fun r => r.2))

/-- What a notification call started by a handler does once it runs. -/
def Dispatch.effects (tw : Twilio) (now : Time) : Dispatch → List SendEffect
  | Dispatch.redZoneNotification phoneNumbers redZone =>
    (sendRedZoneNotification tw (phoneNumbers.map PhoneArg.str) redZone now).2
  | Dispatch.sms phoneNumber message => (sendSMS tw (PhoneArg.str phoneNumber) message now).2

/-! ## Contacts: `server/routes/admin.js` and `server/routes/userContacts.js` -/

/-- The JSON answer of a contact route: HTTP status, `message`, `contact`, and the
messages of the `errors` array of a failed validation. -/
structure ContactResponse where
  status : Nat
  message : String
  contact : Option UserContact
  errors : List String
deriving DecidableEq

/-- What handling one contact request does: the answer and the database afterwards. -/
structure ContactOutcome where
  response : ContactResponse
  db : Db
deriving DecidableEq

/-- The middleware `authenticateAdmin` of `admin.js`: the user put in `req.user`, or the
answer sent instead. -/
def authenticateAdmin (db : Db) (token : Token) : Except ContactResponse User :=
  match token with
  | Token.missing => Except.error ⟨401, "Access token required", none, []⟩
  | Token.invalid => Except.error ⟨401, "Invalid token", none, []⟩
  | Token.expired => Except.error ⟨500, "Token verification failed", none, []⟩
  | Token.valid userId =>
    match User.findById db userId with
    | none => Except.error ⟨401, "User not found", none, []⟩
    | some user =>
      if !user.isActive then Except.error ⟨401, "Account is deactivated", none, []⟩
      else if user.role ≠ Role.admin then
        Except.error ⟨403, "Admin access required", none, []⟩
      else Except.ok user

/-- The query `UserContact.findByIdAndUpdate(id, { status }, { new: true })`: the updated
contact (`none` for `null`) and the collection afterwards. -/
def UserContact.findByIdAndUpdate (contacts : List UserContact) (id : Nat)
    (status : ContactStatus) : Option UserContact × List UserContact :=
  match contacts.find? (fun c => c._id == id) with
  | none => (none, contacts)
  | some found =>
    (some { found with status := status },
      contacts.map (fun c => if c._id == id then { c with status := status } else c))

/-- The handler of `PUT /user-contacts/:id/approve-removal` in `admin.js`. -/
def approveRemoval (db : Db) (token : Token) (id : Nat) : ContactOutcome :=
  match authenticateAdmin db token with
  | Except.error resp => ⟨resp, db⟩
  | Except.ok _ =>
    if !db.contactsUp then ⟨⟨500, "Error approving contact removal", none, []⟩, db⟩
    else
      match UserContact.findByIdAndUpdate db.contacts id ContactStatus.active with
      | (none, _) => ⟨⟨404, "Contact not found", none, []⟩, db⟩
      | (some contact, contacts) =>
        ⟨⟨200, "Contact removal request approved, status set to active", some contact, []⟩,
          { db with contacts := contacts }⟩

/-- The handler of `PUT /user-contacts/:id/reject-removal` in `admin.js`. -/
def rejectRemoval (db : Db) (token : Token) (id : Nat) : ContactOutcome :=
  match authenticateAdmin db token with
  | Except.error resp => ⟨resp, db⟩
  | Except.ok _ =>
    if !db.contactsUp then ⟨⟨500, "Error rejecting contact removal", none, []⟩, db⟩
    else
      match UserContact.findByIdAndUpdate db.contacts id ContactStatus.active with
      | (none, _) => ⟨⟨404, "Contact not found", none, []⟩, db⟩
      | (some contact, contacts) =>
        ⟨⟨200, "Contact removal request rejected, status set back to active", some contact,
            []⟩,
          { db with contacts := contacts }⟩

/-- The handler of `DELETE /user-contacts/:id` in `admin.js`
(`UserContact.findByIdAndDelete`). -/
def deleteContact (db : Db) (token : Token) (id : Nat) : ContactOutcome :=
  match authenticateAdmin db token with
  | Except.error resp => ⟨resp, db⟩
  | Except.ok _ =>
    if !db.contactsUp then ⟨⟨500, "Error deleting contact", none, []⟩, db⟩
    else
      match db.contacts.find? (fun c => c._id == id) with
      | none => ⟨⟨404, "Contact not found", none, []⟩, db⟩
      | some found =>
        ⟨⟨200, "Contact deleted successfully", none, []⟩,
          { db with contacts := db.contacts.erase found }⟩

/-- The middleware `authenticateToken` of `userContacts.js`. -/
def authenticateToken (db : Db) (token : Token) : Except ContactResponse User :=
  match token with
  | Token.missing => Except.error ⟨401, "Access token required", none, []⟩
  | Token.invalid => Except.error ⟨401, "Invalid token", none, []⟩
  | Token.expired => Except.error ⟨500, "Token verification failed", none, []⟩
  | Token.valid userId =>
    match User.findById db userId with
    | none => Except.error ⟨401, "User not found", none, []⟩
    | some user =>
      if !user.isActive then Except.error ⟨401, "Account is deactivated", none, []⟩
      else Except.ok user

/-- The fields of `req.body` read by `POST /notify` (`none` when absent). -/
structure NotifyBody where
  phone : Option String
  email : Option String
deriving DecidableEq

/-- The two functions of the `express-validator` package used on the email: the check
`isEmail` and the sanitizer `normalizeEmail`. -/
structure EmailRules where
  isEmail : String → Bool
  normalizeEmail : String → String

/-- The messages collected by the validation chain of `POST /notify`: `notEmpty` on the
phone as sent, `isEmail` on the email when one is sent. -/
def notifyErrors (rules : EmailRules) (body : NotifyBody) : List String :=
  (if body.phone = none ∨ body.phone = some "" then ["Phone number is required"] else []) ++
    (match body.email with
      | none => []
      | some email => if rules.isEmail email then [] else ["Valid email is required"])

/-- The expression `email || req.user.email` after the sanitizer `normalizeEmail`. -/
def notifyEmail (rules : EmailRules) (body : NotifyBody) (user : User) : String :=
  match body.email with
  | none => user.email
  | some email => if rules.normalizeEmail email = "" then user.email else rules.normalizeEmail email

/-- The handler of `POST /notify` in `userContacts.js`, with its middlewares. `newId` is
the `_id` given to a new contact; an insert under an `_id` that is already stored is
refused by the collection. The setters of the schema (`trim`, `lowercase`) and its
`required` rules are applied when the contact is saved. -/
def notify (rules : EmailRules) (db : Db) (token : Token) (body : NotifyBody) (newId : Nat) :
    ContactOutcome :=
  match authenticateToken db token with
  | Except.error resp => ⟨resp, db⟩
  | Except.ok user =>
    if notifyErrors rules body ≠ [] then ⟨⟨400, "", none, notifyErrors rules body⟩, db⟩
    else
      let phone := trim (body.phone.getD "")
      let email := trim (toLowerCase (notifyEmail rules body user))
      match UserContact.findOne db user._id with
      | none => ⟨⟨500, "Error saving contact information", none, []⟩, db⟩
      | some (some existingContact) =>
        let updated : UserContact := { existingContact with phone := phone, email := email }
        if phone = "" ∨ email = "" then
          ⟨⟨500, "Error saving contact information", none, []⟩, db⟩
        else
          ⟨⟨200, "Contact information updated successfully", some updated, []⟩,
            { db with
              contacts :=
                db.contacts.map (fun c => if c._id == existingContact._id then updated else c) }⟩
      | some none =>
        let newContact : UserContact :=
          ⟨newId, trim user.name, email, phone, user._id, ContactStatus.active⟩
        if newContact.name = "" ∨ phone = "" ∨ email = "" ∨
            (db.contacts.find? (fun c => c._id == newId)).isSome then
          ⟨⟨500, "Error saving contact information", none, []⟩, db⟩
        else
          ⟨⟨201, "Contact information saved successfully", some newContact, []⟩,
            { db with contacts := db.contacts ++ [newContact] }⟩

/-! ## The two awaits of a review handler -/

/-- The two reviews. -/
inductive Review
  | approve
  | reject
deriving DecidableEq, Repr

/-- The status a review writes. -/
def Review.status : Review → Status
  | Review.approve => Status.approved
  | Review.reject => Status.rejected

/-- The message of the answer of the first handler registered for a review. -/
def Review.message : Review → String
  | Review.approve => "RedZone approved successfully"
  | Review.reject => "RedZone rejected successfully"

/-- The message of the answer sent by the `catch` of the first handler registered for a
review. -/
def Review.failure : Review → String
  | Review.approve => "Failed to approve RedZone"
  | Review.reject => "Failed to reject RedZone"

/-- The part of a review handler up to the end of `await RedZone.findById(id)`: the role
check and the read; the answer sent when the handler stops there, or the document read. -/
def reviewRead (kind : Review) (db : Db) (user : User) (id : ZoneId) : Except Response Zone :=
  if user.role ≠ Role.admin then Except.error forbidden
  else if castObjectId id = none then Except.error (serverError kind.failure)
  else
    match Zone.findById db id with
    | none => Except.error (notFound "RedZone not found")
    | some found => Except.ok found

/-- The part of a review handler after the read: the assignments on the document read,
`await redZone.save()` and the answer. -/
def reviewWrite (kind : Review) (db : Db) (user : User) (doc : Zone) (now : Time) : Outcome :=
  let redZone : Zone :=
    { doc with
      status := kind.status
      reviewedBy := some user._id
      reviewedAt := some now
      updatedAt := some now }
  ⟨some (okZone kind.message redZone), Zone.save db redZone, []⟩

/-- The moments at which the two requests of a race touch the database: request `A`
(approve) and request `B` (reject) each read, then write. -/
inductive Moment
  | readA
  | writeA
  | readB
  | writeB
deriving DecidableEq, Repr

/-- The state of a race of two requests: the database, what each request has read so far
and the answer each has sent so far. -/
structure Race where
  db : Db
  seenA : Option Zone
  seenB : Option Zone
  answerA : Option Response
  answerB : Option Response
deriving DecidableEq

/-- One moment of the race of an approve request of `userA` at time `nowA` and a reject
request of `userB` at time `nowB` on the zone `id`. -/
def Race.step (userA userB : User) (id : ZoneId) (nowA nowB : Time) (r : Race) :
    Moment → Race
  | Moment.readA =>
    match reviewRead Review.approve r.db userA id with
    | Except.error resp => { r with answerA := some resp }
    | Except.ok doc => { r with seenA := some doc }
  | Moment.readB =>
    match reviewRead Review.reject r.db userB id with
    | Except.error resp => { r with answerB := some resp }
    | Except.ok doc => { r with seenB := some doc }
  | Moment.writeA =>
    match r.seenA with
    | none => r
    | some doc =>
      { r with
        db := (reviewWrite Review.approve r.db userA doc nowA).db
        answerA := (reviewWrite Review.approve r.db userA doc nowA).response }
  | Moment.writeB =>
    match r.seenB with
    | none => r
    | some doc =>
      { r with
        db := (reviewWrite Review.reject r.db userB doc nowB).db
        answerB := (reviewWrite Review.reject r.db userB doc nowB).response }

/-- The race along a schedule of moments, from the database `db`. -/
def Race.run (userA userB : User) (id : ZoneId) (nowA nowB : Time) (db : Db)
    (schedule : List Moment) : Race :=
  schedule.foldl (Race.step userA userB id nowA nowB) ⟨db, none, none, none, none⟩

/-- The six orders in which the reads and writes of the two requests can happen (each
request reads before it writes). -/
def schedules : List (List Moment) :=
  [ [Moment.readA, Moment.writeA, Moment.readB, Moment.writeB],
    [Moment.readA, Moment.readB, Moment.writeA, Moment.writeB],
    [Moment.readA, Moment.readB, Moment.writeB, Moment.writeA],
    [Moment.readB, Moment.readA, Moment.writeA, Moment.writeB],
    [Moment.readB, Moment.readA, Moment.writeB, Moment.writeA],
    [Moment.readB, Moment.writeB, Moment.readA, Moment.writeA] ]

/-! ## The proximity check of `src/pages/Map.jsx` -/

/-- The values given to `currentStatus`. -/
inductive Tier
  | safe
  | warning
  | danger
deriving DecidableEq, Repr

/-- One round of the `forEach` loop of `checkCurrentStatus` on the pair
`(nearestDistance, nearestSeverity)`. The distance computed for a zone is `none` when it is
`NaN`, for which the comparison `distance < nearestDistance` is false. In the pair, `none`
stands for the initial `Infinity`, below which every number lies. -/
def nearestStep {Z D : Type} [LinearOrder D] (distance : Z → Option D)
    (severity : Z → String) (acc : Option D × String) (zone : Z) : Option D × String :=
  match distance zone with
  | none => acc
  | some d =>
    match acc.1 with
    | none => (some d, severity zone)
    | some nearestDistance => if d < nearestDistance then (some d, severity zone) else acc

/-- The loop of `checkCurrentStatus`, started at `(Infinity, 'safe')`. -/
def nearest {Z D : Type} [LinearOrder D] (distance : Z → Option D) (severity : Z → String)
    (zones : List Z) : Option D × String :=
  zones.foldl (nearestStep distance severity) (none, "safe")

/-- The final `if` of `checkCurrentStatus`: the status set from `nearestDistance` (in km)
and `nearestSeverity`. -/
def statusOf {D : Type} [LinearOrderedField D] (nearestDistance : Option D)
    (nearestSeverity : String) : Tier :=
  match nearestDistance with
  | none => Tier.safe
  | some d =>
    if d < 1 / 2 then
      (if nearestSeverity = "high" then Tier.danger else Tier.warning)
    else if d < 2 then Tier.warning
    else Tier.safe

/-- The function `checkCurrentStatus` for an arbitrary distance function on the zones
(`none` for a distance that is `NaN`). -/
def checkWith {Z D : Type} [LinearOrderedField D] (distance : Z → Option D)
    (severity : Z → String) (zones : List Z) : Tier :=
  statusOf (nearest distance severity zones).1 (nearest distance severity zones).2

/-- A coordinate of a `position` object as a JavaScript value: a number, `null`, or
`undefined` (the key is absent). -/
inductive Coord
  | number (x : ℝ)
  | null
  | undefined

/-- The member `position` of a zone of the map. -/
structure Position where
  lat : Coord
  lng : Coord

/-- A zone of the state `redZones` of the map page. -/
structure MapZone where
  id : Nat
  name : String
  position : Position
  severity : String
  description : String

/-- The number an arithmetic operator reads from a coordinate: `null` is read as `0` and
`undefined` as `NaN`, for which `none` stands. -/
def toNumber : Coord → Option ℝ
  | Coord.number x => some x
  | Coord.null => some 0
  | Coord.undefined => none

/-- The function `Math.atan2` on real numbers: the angle of the point `(x, y)`. -/
noncomputable def atan2 (y x : ℝ) : ℝ :=
  Complex.arg ⟨x, y⟩

/-- The function `calculateDistance` over the real numbers (haversine formula, in km). -/
noncomputable def calculateDistance (lat1 lng1 lat2 lng2 : ℝ) : ℝ :=
  let R : ℝ := 6371
  let dLat := (lat2 - lat1) * Real.pi / 180
  let dLng := (lng2 - lng1) * Real.pi / 180
  let a := Real.sin (dLat / 2) * Real.sin (dLat / 2) +
    Real.cos (lat1 * Real.pi / 180) * Real.cos (lat2 * Real.pi / 180) *
      Real.sin (dLng / 2) * Real.sin (dLng / 2)
  let c := 2 * atan2 (Real.sqrt a) (Real.sqrt (1 - a))
  R * c

/-- The distance `checkCurrentStatus` computes from the point to a zone, the call
`calculateDistance(lat, lng, zone.position.lat, zone.position.lng)`: every operation of
`calculateDistance` on a `NaN` gives `NaN`, so the result is `NaN` (`none`) as soon as one
coordinate of the zone is read as `NaN`. -/
noncomputable def zoneDistance (lat lng : ℝ) (zone : MapZone) : Option ℝ :=
  match toNumber zone.position.lat, toNumber zone.position.lng with
  | some lat2, some lng2 => some (calculateDistance lat lng lat2 lng2)
  | _, _ => none

/-- The function `checkCurrentStatus` over the real numbers: the status it sets for the
point `(lat, lng)` and the zones of the state `redZones`. -/
noncomputable def checkCurrentStatus (redZones : List MapZone) (lat lng : ℝ) : Tier :=
  checkWith (zoneDistance lat lng) (fun zone => zone.severity) redZones

/-! ## Vocabulary of the properties -/

/-- The fields of a zone that a moderation request does not write (all but `status`,
`reviewedBy`, `reviewedAt` and `updatedAt`) agree in `z` and `z'`. -/
def Zone.sameReport (z z' : Zone) : Prop :=
  z'._id = z._id ∧ z'.title = z.title ∧ z'.description = z.description ∧
    z'.location = z.location ∧ z'.landmark = z.landmark ∧ z'.coordinates = z.coordinates ∧
    z'.imageUrl = z.imageUrl ∧ z'.severity = z.severity ∧ z'.reportedBy = z.reportedBy ∧
    z'.createdAt = z.createdAt

/-- The zone `z` after a review: new status, reviewer stamp and update time. -/
def Zone.review (z : Zone) (status : Status) (actor : UserId) (now : Time) : Zone :=
  { z with
    status := status
    reviewedBy := some actor
    reviewedAt := some now
    updatedAt := some now }

/-- The zone `z` after it was marked safe. -/
def Zone.markSafe (z : Zone) (now : Time) : Zone :=
  { z with status := Status.safe, updatedAt := some now }

/-- A moderator of the sample data. -/
def exAdmin : User := ⟨1, "Admin User", "admin@redzone.com", Role.admin, true⟩

/-- A reporter of the sample data. -/
def exUser : User := ⟨2, "Regular User", "user@redzone.com", Role.user, true⟩

/-- The `ObjectId` of the sample report. -/
def exId : ZoneId := "64f1a2b3c4d5e6f708192a3b"

/-- An `ObjectId` under which the sample data store no zone. -/
def exUnknownId : ZoneId := "64f1a2b3c4d5e6f708192a3c"

/-- A sample report by `exUser`, not yet reviewed. -/
def exPending : Zone :=
  { _id := exId
    title := "Flooded Street"
    description := "Street completely flooded after heavy rainfall."
    location := "Riverside Avenue"
    landmark := none
    coordinates := ⟨none, none⟩
    imageUrl := none
    severity := Severity.medium
    status := Status.pending
    reportedBy := 2
    createdAt := 10
    updatedAt := some 10
    reviewedBy := none
    reviewedAt := none }

/-- The sample report after the moderator `7` reviewed it at time `20` with the given
status. -/
def exReviewed (status : Status) : Zone :=
  exPending.review status 7 20

/-- A sample database holding one zone and the given contacts. -/
def exDb (z : Zone) (contacts : List UserContact) : Db :=
  ⟨[exAdmin, exUser], [z], contacts, true⟩

/-- The outcome `o` of a request is an accepted review of the stored zone `z` of `db`:
the answer is 200 with `message` and a zone `z'`, `z'` is what the collection holds under
`id` afterwards, no notification call is started, and `z'` is `z` with the given status,
the reviewer stamp `actor` / `now`, the update time `now` and all other fields as before. -/
def AcceptedReview (db : Db) (id : ZoneId) (z : Zone) (status : Status) (actor : UserId)
    (now : Time) (message : String) (o : Option Outcome) : Prop :=
  ∃ z' : Zone,
    o = some ⟨some (okZone message z'), Zone.save db z', []⟩ ∧
    Zone.findById (Zone.save db z') id = some z' ∧
    z'.status = status ∧ z'.reviewedBy = some actor ∧ z'.reviewedAt = some now ∧
    z'.updatedAt = some now ∧ z.sameReport z'

/-- The outcome `o` of a request marks the stored zone `z` of `db` safe: the collection
afterwards holds under `id` a zone `z'` that is `z` with status `safe`, update time `now`
and every other field (the reviewer stamp included) as before; and when every stored
contact has a phone, the answer is 200 with `z'`. -/
def MarkedSafe (db : Db) (id : ZoneId) (z : Zone) (now : Time) (o : Option Outcome) : Prop :=
  ∃ (z' : Zone) (out : Outcome),
    o = some out ∧ out.db = Zone.save db z' ∧ Zone.findById out.db id = some z' ∧
    z'.status = Status.safe ∧ z'.updatedAt = some now ∧
    z'.reviewedBy = z.reviewedBy ∧ z'.reviewedAt = z.reviewedAt ∧ z.sameReport z' ∧
    ((∀ c ∈ db.contacts, c.phone ≠ "") →
      out.response = some (okZone "RedZone marked as safe successfully" z'))

/-- The request paths of the three moderation actions. -/
def moderationActions : List String := ["approve", "reject", "safe-now"]

/-- One event in the life of the system: a request to the router, or a change made to
the users and contacts by the rest of the application. -/
inductive Event
  | request (req : Request)
  | directory (users : List User) (contacts : List UserContact) (contactsUp : Bool)

/-- The database after one event. -/
def step (db : Db) : Event → Db
  | Event.request req =>
    match handle db req with
    | some o => o.db
    | none => db
  | Event.directory users contacts contactsUp =>
    { db with users := users, contacts := contacts, contactsUp := contactsUp }

/-- The database after a sequence of events. -/
def run (db : Db) (events : List Event) : Db :=
  events.foldl step db

/-- A database without zones. -/
def emptyDb (users : List User) (contacts : List UserContact) (contactsUp : Bool) : Db :=
  ⟨users, [], contacts, contactsUp⟩

/-- The reviewer stamp of `z` is set exactly when `z` is approved or rejected. -/
def Zone.stampIffReviewed (z : Zone) : Prop :=
  (z.reviewedBy.isSome ∧ z.reviewedAt.isSome) ↔
    (z.status = Status.approved ∨ z.status = Status.rejected)

/-- The reviewer stamp of `z` is set when `z` is approved or rejected, absent when `z` is
pending, and in every status `reviewedBy` and `reviewedAt` are set together. -/
def Zone.stampConsistent (z : Zone) : Prop :=
  ((z.status = Status.approved ∨ z.status = Status.rejected) →
      z.reviewedBy.isSome ∧ z.reviewedAt.isSome) ∧
    (z.status = Status.pending → z.reviewedBy = none ∧ z.reviewedAt = none) ∧
    (z.reviewedBy.isSome ↔ z.reviewedAt.isSome)

/-- The body of a sample report. -/
def exBody : CreateBody :=
  { title := some "Flooded Street"
    description := some "Street completely flooded after heavy rainfall."
    location := some "Riverside Avenue"
    landmark := none
    severity := some "medium"
    status := none
    coordinates := none
    file := none }

/-- A sample history: user 2 reports a zone at time 10, moderator 1 approves it at
time 20 and marks it safe at time 30. -/
def exHistory : List Event :=
  [ Event.request ⟨Method.POST, [], Token.valid 2, exBody, exId, 10⟩,
    Event.request (putRequest exId "approve" 1 20),
    Event.request (putRequest exId "safe-now" 1 30) ]

/-- A sample contact of user `userId` with the given phone. -/
def exContact (userId : UserId) (phone : String) : UserContact :=
  ⟨userId, "Contact", "contact@redzone.com", phone, userId, ContactStatus.active⟩

/-- The sample report, made by the moderator `exAdmin` instead of `exUser`. -/
def exOwnReport : Zone :=
  { exPending with reportedBy := 1 }

/-- The number a send was addressed to. -/
def SendEffect.recipient : SendEffect → String
  | SendEffect.provider to_ _ => to_
  | SendEffect.simulated to_ _ => to_

/-- The text of a send. -/
def SendEffect.text : SendEffect → String
  | SendEffect.provider _ body => body
  | SendEffect.simulated _ body => body

/-- The upper-case names of the severities. -/
def Severity.upper : Severity → String
  | Severity.low => "LOW"
  | Severity.medium => "MEDIUM"
  | Severity.high => "HIGH"

/-- The phones of all stored contacts that have a non-empty phone, in stored order. -/
def fanoutPhones (db : Db) : List String :=
  (db.contacts.filter (fun c => c.phone ≠ "")).map (fun c => c.phone)

/-- A module state in test mode. -/
def exTestMode : Twilio :=
  ⟨false, true, fun _ _ => none⟩

/-- A module state with a client whose sends to `+912` are rejected and whose other sends
are accepted. -/
def exProvider : Twilio :=
  ⟨true, false, fun to_ body =>
    if to_ = "+912" then none else some ⟨"SM" ++ to_, "queued", to_, body, none⟩⟩

/-- An environment without any Twilio credential. -/
def exNoCredentials : TwilioEnv :=
  ⟨none, none, none, false, fun to_ body => some ⟨"SM" ++ to_, "queued", to_, body, none⟩⟩

/-- The text of the safe notification for a zone with the given title and location. -/
def safeText (title location : String) : String :=
  "SAFETY UPDATE: The area \"" ++ title ++ "\" at " ++ location ++
    " is now marked as SAFE by authorities. You can resume normal activities in this area."

/-- The database `db` with the status of every contact replaced by `f`. -/
def withContactStatus (f : UserContact → ContactStatus) (db : Db) : Db :=
  { db with contacts := db.contacts.map (fun c => { c with status := f c }) }

/-- A sample contact whose removal was requested. -/
def exLeaving (userId : UserId) (phone : String) : UserContact :=
  { exContact userId phone with status := ContactStatus.pending_removal }

/-- The tier rule in the words of the specification: `danger` when the distance is below
0.5 km and the severity is high, `warning` when it is below 0.5 km and the severity is not
high, `warning` from 0.5 km up to (not including) 2 km, `safe` from 2 km on. -/
def referenceTier {D : Type} [LinearOrderedField D] (d : D) (severity : String) : Tier :=
  if d < 1 / 2 ∧ severity = "high" then Tier.danger
  else if d < 1 / 2 ∧ severity ≠ "high" then Tier.warning
  else if 1 / 2 ≤ d ∧ d < 2 then Tier.warning
  else Tier.safe

/-- The order `safe < warning < danger` as a number. -/
def Tier.rank : Tier → Nat
  | Tier.safe => 0
  | Tier.warning => 1
  | Tier.danger => 2

/-- Whether a coordinate is a number. -/
def Coord.isNumber : Coord → Bool
  | Coord.number _ => true
  | _ => false

/-- Whether a zone has coordinates: its latitude and its longitude are both numbers. -/
def MapZone.hasCoordinates (zone : MapZone) : Bool :=
  zone.position.lat.isNumber && zone.position.lng.isNumber

/-- The zones `mockRedZones` of the map page (without their time stamps). -/
def mockRedZones : List MapZone :=
  [ ⟨1, "Gunpur Market Area", ⟨Coord.number 19.0769, Coord.number 83.7603⟩, "high",
      "High crime area reported near market"⟩,
    ⟨2, "GIET Campus", ⟨Coord.number 19.0789, Coord.number 83.7623⟩, "medium",
      "Suspicious activity reported near campus"⟩,
    ⟨3, "Railway Station", ⟨Coord.number 19.0749, Coord.number 83.7583⟩, "low",
      "Minor incident reported near station"⟩ ]

/-- A high-severity zone without coordinates: its `position` has neither `lat` nor
`lng`. -/
def exUnplaced : MapZone :=
  ⟨9, "Unplaced", ⟨Coord.undefined, Coord.undefined⟩, "high", "No coordinates"⟩

/-- A zone of the given severity at the point `(19.0769, 83.7603)`. -/
def exZoneAt (id : Nat) (severity : String) : MapZone :=
  ⟨id, "Gunpur Market Area", ⟨Coord.number 19.0769, Coord.number 83.7603⟩, severity,
    "Sample zone"⟩

/-- A report submission that passes every check of `POST /`: title, description, location
and severity are present and not empty, the severity is one of the enum, the trimmed
title, description and location satisfy the schema, and the new `_id` is not in use. -/
def validSubmission (db : Db) (body : CreateBody) (newId : ZoneId) : Prop :=
  ∃ title description location severity sev,
    body.title = some title ∧ body.description = some description ∧
    body.location = some location ∧ body.severity = some severity ∧
    title ≠ "" ∧ description ≠ "" ∧ location ≠ "" ∧ severity ≠ "" ∧
    Severity.ofString severity = some sev ∧
    trim title ≠ "" ∧ jsLength (trim title) ≤ 100 ∧
    trim description ≠ "" ∧ jsLength (trim description) ≤ 500 ∧ trim location ≠ "" ∧
    Zone.stored db newId = none

/-- A second moderator of the sample data. -/
def exAdmin2 : User := ⟨7, "Second Admin", "admin2@redzone.com", Role.admin, true⟩

/-- The sample database with an active contact and a contact whose removal was
requested. -/
def exContactsDb : Db :=
  exDb exPending [exContact 2 "9876543210", exLeaving 3 "9123456780"]

/-- No two stored contacts have the same `_id` (the collection's unique index). -/
def uniqueContactIds (db : Db) : Prop :=
  (db.contacts.map (fun c => c._id)).Nodup

/-- At most one contact is stored per user. -/
def oneContactPerUser (db : Db) : Prop :=
  (db.contacts.map (fun c => c.userId)).Nodup

/-- A `POST /notify` request: the token, the body and the `_id` a new contact would
get. -/
structure NotifyRequest where
  token : Token
  body : NotifyBody
  newId : Nat

/-- The database after a sequence of `POST /notify` requests handled one after the
other. -/
def runNotify (rules : EmailRules) (db : Db) (requests : List NotifyRequest) : Db :=
  requests.foldl (fun d req => (notify rules d req.token req.body req.newId).db) db

/-- Sample email rules: every string with an `@` is accepted and left as it is. -/
def exRules : EmailRules :=
  ⟨fun e => e.data.contains '@', fun e => e⟩

end RedZone

/-! Properties of the embedded code. -/

namespace RedZone

/-! ## Queries and the router -/

theorem castObjectId_eq {id oid : ZoneId} (h : castObjectId id = some oid) :
    oid = toLowerCase id := by
  unfold castObjectId at h
  split at h
  · simpa using h.symm
  · simp at h

theorem Zone.findById_cast {db : Db} {id : ZoneId} {z : Zone}
    (h : Zone.findById db id = some z) : castObjectId id ≠ none := by
  intro hc
  simp [Zone.findById, hc] at h

theorem Zone.findById_stored {db : Db} {id : ZoneId} {z : Zone}
    (h : Zone.findById db id = some z) :
    castObjectId id = some z._id ∧ Zone.stored db z._id = some z := by
  unfold Zone.findById at h
  cases hc : castObjectId id with
  | none => rw [hc] at h; simp at h
  | some oid =>
    rw [hc] at h
    simp only at h
    have hz : z._id = oid := by simpa using List.find?_some h
    rw [hz]
    exact ⟨rfl, h⟩

theorem Zone.findById_id {db : Db} {id : ZoneId} {z : Zone}
    (h : Zone.findById db id = some z) : z._id = toLowerCase id :=
  castObjectId_eq (Zone.findById_stored h).1

theorem Zone.findById_mem {db : Db} {id : ZoneId} {z : Zone}
    (h : Zone.findById db id = some z) : z ∈ db.zones :=
  List.mem_of_find?_eq_some (Zone.findById_stored h).2

theorem Zone.findById_none {db : Db} {id : ZoneId} (hc : castObjectId id = none) :
    Zone.findById db id = none := by
  simp [Zone.findById, hc]

theorem find_replace (doc : Zone) (id : ZoneId) (hid : doc._id = id) :
    ∀ (l : List Zone) (z : Zone), l.find? (fun z => z._id == id) = some z →
      (l.map (fun z => if z._id == doc._id then doc else z)).find? (fun z => z._id == id)
        = some doc
  | [], _, h => by simp at h
  | a :: as, z, h => by
    by_cases ha : a._id = id
    · simp [List.find?_cons, ha, hid]
    · have hne : ¬ a._id = doc._id := by rw [hid]; exact ha
      have h' : as.find? (fun z => z._id == id) = some z := by
        simpa [List.find?_cons, ha] using h
      simpa [List.find?_cons, ha, hne] using find_replace doc id hid as z h'

theorem Zone.findById_save {db : Db} {id : ZoneId} {z : Zone} (doc : Zone)
    (h : Zone.findById db id = some z) (hid : doc._id = z._id) :
    Zone.findById (Zone.save db doc) id = some doc := by
  obtain ⟨hc, hs⟩ := Zone.findById_stored h
  unfold Zone.findById
  rw [hc]
  exact find_replace doc z._id hid db.zones z hs

/-- The lookup reads the hexadecimal digits of the id without regard to case. -/
theorem Zone.findById_upper_case :
    Zone.findById (exDb exPending []) "64F1A2B3C4D5E6F708192A3B" = some exPending ∧
      Zone.findById (exDb exPending []) exId = some exPending := by
  decide

theorem Zone.mem_save {db : Db} {doc z : Zone} (h : z ∈ (Zone.save db doc).zones) :
    z = doc ∨ z ∈ db.zones := by
  unfold Zone.save at h
  simp only [List.mem_map] at h
  obtain ⟨a, ha, rfl⟩ := h
  by_cases hid : a._id = doc._id
  · left; simp [hid]
  · right; simpa [hid] using ha

theorem handle_approve (db : Db) (id : ZoneId) (userId : UserId) (now : Time) :
    handle db (putRequest id "approve" userId now) =
      match auth db (Token.valid userId) with
      | Except.error resp => some ⟨some resp, db, []⟩
      | Except.ok user => some (approvePlaceholder db user id now) := rfl

theorem handle_reject (db : Db) (id : ZoneId) (userId : UserId) (now : Time) :
    handle db (putRequest id "reject" userId now) =
      match auth db (Token.valid userId) with
      | Except.error resp => some ⟨some resp, db, []⟩
      | Except.ok user => some (rejectPlaceholder db user id now) := rfl

theorem handle_safeNow (db : Db) (id : ZoneId) (userId : UserId) (now : Time) :
    handle db (putRequest id "safe-now" userId now) =
      match auth db (Token.valid userId) with
      | Except.error resp => some ⟨some resp, db, []⟩
      | Except.ok user => some (safeNowHandler db user id now) := rfl

theorem auth_valid {db : Db} {userId : UserId} {actor : User}
    (h : User.findById db userId = some actor) :
    auth db (Token.valid userId) = Except.ok actor := by
  simp [auth, h]

/-! ## The moderation handlers on an existing zone -/

theorem approvePlaceholder_admin {db : Db} {actor : User} {id : ZoneId} {z : Zone} (now : Time)
    (hmod : actor.role = Role.admin) (hz : Zone.findById db id = some z) :
    approvePlaceholder db actor id now =
      ⟨some (okZone "RedZone approved successfully" (z.review Status.approved actor._id now)),
        Zone.save db (z.review Status.approved actor._id now), []⟩ := by
  simp [approvePlaceholder, hmod, hz, Zone.findById_cast hz, Zone.review]

theorem rejectPlaceholder_admin {db : Db} {actor : User} {id : ZoneId} {z : Zone} (now : Time)
    (hmod : actor.role = Role.admin) (hz : Zone.findById db id = some z) :
    rejectPlaceholder db actor id now =
      ⟨some (okZone "RedZone rejected successfully" (z.review Status.rejected actor._id now)),
        Zone.save db (z.review Status.rejected actor._id now), []⟩ := by
  simp [rejectPlaceholder, hmod, hz, Zone.findById_cast hz, Zone.review]

theorem review_sameReport (z : Zone) (status : Status) (actor : UserId) (now : Time) :
    z.sameReport (z.review status actor now) := by
  simp [Zone.sameReport, Zone.review]

theorem markSafe_sameReport (z : Zone) (now : Time) : z.sameReport (z.markSafe now) := by
  simp [Zone.sameReport, Zone.markSafe]

/-- What a review request of a moderator does to an existing zone, whatever its status:
the router answers 200 with the zone carrying the new status and the stamp of the request,
and stores that zone. -/
theorem review_any_status {db : Db} {userId : UserId} {actor : User} {id : ZoneId} {z : Zone}
    (now : Time) (hactor : User.findById db userId = some actor)
    (hmod : actor.role = Role.admin) (hz : Zone.findById db id = some z) :
    (handle db (putRequest id "approve" userId now) =
        some ⟨some (okZone "RedZone approved successfully"
            (z.review Status.approved actor._id now)),
          Zone.save db (z.review Status.approved actor._id now), []⟩ ∧
      Zone.findById (Zone.save db (z.review Status.approved actor._id now)) id =
        some (z.review Status.approved actor._id now)) ∧
    (handle db (putRequest id "reject" userId now) =
        some ⟨some (okZone "RedZone rejected successfully"
            (z.review Status.rejected actor._id now)),
          Zone.save db (z.review Status.rejected actor._id now), []⟩ ∧
      Zone.findById (Zone.save db (z.review Status.rejected actor._id now)) id =
        some (z.review Status.rejected actor._id now)) := by
  refine ⟨⟨?_, Zone.findById_save _ hz rfl⟩, ⟨?_, Zone.findById_save _ hz rfl⟩⟩
  · rw [handle_approve, auth_valid hactor]
    simp [approvePlaceholder_admin now hmod hz]
  · rw [handle_reject, auth_valid hactor]
    simp [rejectPlaceholder_admin now hmod hz]

theorem safeNowHandler_db {db : Db} {actor : User} {id : ZoneId} {z : Zone} (now : Time)
    (hmod : actor.role = Role.admin) (hz : Zone.findById db id = some z) :
    (safeNowHandler db actor id now).db = Zone.save db (z.markSafe now) := by
  simp only [safeNowHandler, hmod, hz, Zone.markSafe, Zone.findById_cast hz]
  simp only [ne_eq, not_true_eq_false, if_false]
  split
  · rfl
  · split
    · split <;> rfl
    · rfl

theorem phones_filter (contacts : List UserContact) (h : ∀ c ∈ contacts, c.phone ≠ "") :
    (contacts.map (fun contact => contact.phone)).filter (fun phone => phone ≠ "") =
      contacts.map (fun contact => contact.phone) := by
  rw [List.filter_eq_self]
  intro p hp
  obtain ⟨c, hc, rfl⟩ := List.mem_map.mp hp
  simpa using h c hc

theorem safeNowHandler_admin {db : Db} {actor : User} {id : ZoneId} {z : Zone} (now : Time)
    (hmod : actor.role = Role.admin) (hz : Zone.findById db id = some z)
    (hphones : ∀ c ∈ db.contacts, c.phone ≠ "") :
    safeNowHandler db actor id now =
      ⟨some (okZone "RedZone marked as safe successfully" (z.markSafe now)),
        Zone.save db (z.markSafe now),
        if db.contactsUp then
          db.contacts.map (fun c => Dispatch.sms c.phone (safeMessage (z.markSafe now)))
        else []⟩ := by
  have hf := phones_filter db.contacts hphones
  simp only [safeNowHandler, hmod, hz, Zone.markSafe, UserContact.find, Zone.save,
    Zone.findById_cast hz]
  simp only [ne_eq, not_true_eq_false, if_false]
  cases hup : db.contactsUp
  · simp
  · cases hc : db.contacts with
    | nil => simp
    | cons c cs =>
      rw [hc] at hf
      simp only [if_true, hf]
      simp

theorem acceptedReview_intro {db : Db} {userId : UserId} {actor : User} {id : ZoneId} {z : Zone}
    (now : Time) (hactor : User.findById db userId = some actor)
    (hmod : actor.role = Role.admin) (hz : Zone.findById db id = some z) :
    AcceptedReview db id z Status.approved actor._id now "RedZone approved successfully"
        (handle db (putRequest id "approve" userId now)) ∧
      AcceptedReview db id z Status.rejected actor._id now "RedZone rejected successfully"
        (handle db (putRequest id "reject" userId now)) := by
  obtain ⟨⟨ha, hfa⟩, ⟨hr, hfr⟩⟩ := review_any_status now hactor hmod hz
  exact ⟨⟨_, ha, hfa, rfl, rfl, rfl, rfl, review_sameReport _ _ _ _⟩,
    ⟨_, hr, hfr, rfl, rfl, rfl, rfl, review_sameReport _ _ _ _⟩⟩

theorem markedSafe_intro {db : Db} {userId : UserId} {actor : User} {id : ZoneId} {z : Zone}
    (now : Time) (hactor : User.findById db userId = some actor)
    (hmod : actor.role = Role.admin) (hz : Zone.findById db id = some z) :
    MarkedSafe db id z now (handle db (putRequest id "safe-now" userId now)) := by
  have hdb := safeNowHandler_db now hmod hz
  refine ⟨z.markSafe now, safeNowHandler db actor id now, ?_, hdb, ?_, rfl, rfl, rfl, rfl,
    markSafe_sameReport _ _, ?_⟩
  · rw [handle_safeNow, auth_valid hactor]
  · rw [hdb]; exact Zone.findById_save _ hz rfl
  · intro hphones
    rw [safeNowHandler_admin now hmod hz hphones]

/-! ## C1: approve and reject on a zone that is not pending -/

/-- C1, as stated, fails: the sample zone has status `rejected` (reviewed by moderator 7
at time 20); the approve request of moderator 1 at time 50 is answered 200 with the zone
turned `approved` and restamped, and that zone is stored: the request is not refused and
the zone is not left unchanged. -/
theorem approve_of_rejected_zone_is_accepted :
    (exReviewed Status.rejected).status = Status.rejected ∧
    handle (exDb (exReviewed Status.rejected) []) (putRequest exId "approve" 1 50) =
      some ⟨some ⟨200, true, "RedZone approved successfully",
          some ((exReviewed Status.rejected).review Status.approved 1 50)⟩,
        exDb ((exReviewed Status.rejected).review Status.approved 1 50) [], []⟩ ∧
    ((exReviewed Status.rejected).review Status.approved 1 50).status = Status.approved ∧
    ((exReviewed Status.rejected).review Status.approved 1 50).reviewedBy = some 1 ∧
    exDb ((exReviewed Status.rejected).review Status.approved 1 50) [] ≠
      exDb (exReviewed Status.rejected) [] := by
  decide

/-- C1, amended: for every stored zone whose status is not `pending` (approved, rejected
or safe), an approve request and a reject request made by a moderator are both accepted:
the answer is 200 with the zone set to `approved` (respectively `rejected`), stamped with
the moderator and the time of the request, all other fields unchanged, and that zone is
stored. -/
theorem review_of_non_pending_zone_is_accepted (db : Db) (userId : UserId) (actor : User)
    (id : ZoneId) (z : Zone) (now : Time)
    (hactor : User.findById db userId = some actor) (hmod : actor.role = Role.admin)
    (hz : Zone.findById db id = some z) (_hs : z.status ≠ Status.pending) :
    AcceptedReview db id z Status.approved actor._id now "RedZone approved successfully"
        (handle db (putRequest id "approve" userId now)) ∧
      AcceptedReview db id z Status.rejected actor._id now "RedZone rejected successfully"
        (handle db (putRequest id "reject" userId now)) :=
  acceptedReview_intro now hactor hmod hz

/-- Witness of `review_of_non_pending_zone_is_accepted` on the sample zone in status
`safe`. -/
theorem review_of_non_pending_zone_is_accepted_witness :
    AcceptedReview (exDb (exReviewed Status.safe) []) exId (exReviewed Status.safe)
        Status.approved 1 50 "RedZone approved successfully"
        (handle (exDb (exReviewed Status.safe) []) (putRequest exId "approve" 1 50)) ∧
      AcceptedReview (exDb (exReviewed Status.safe) []) exId (exReviewed Status.safe)
        Status.rejected 1 50 "RedZone rejected successfully"
        (handle (exDb (exReviewed Status.safe) []) (putRequest exId "reject" 1 50)) :=
  review_of_non_pending_zone_is_accepted (exDb (exReviewed Status.safe) []) 1 exAdmin exId
    (exReviewed Status.safe) 50 (by decide) (by decide) (by decide) (by decide)

/-! ## C2: safe-now on a zone that is not approved -/

/-- C2, as stated, fails: the sample zone is `pending`; the safe-now request of
moderator 1 at time 50 is answered 200 and the zone is stored with status `safe`. -/
theorem safe_now_of_pending_zone_is_accepted :
    exPending.status = Status.pending ∧
    handle (exDb exPending []) (putRequest exId "safe-now" 1 50) =
      some ⟨some ⟨200, true, "RedZone marked as safe successfully",
          some (exPending.markSafe 50)⟩, exDb (exPending.markSafe 50) [], []⟩ ∧
    (exPending.markSafe 50).status = Status.safe ∧
    exDb (exPending.markSafe 50) [] ≠ exDb exPending [] := by
  decide

/-- C2, amended: the safe-now request of a moderator is accepted from every status. For
every stored zone whose status is `pending`, `rejected` or `safe`, it stores the zone with
status `safe` and the update time of the request, all other fields unchanged, and (when
every stored contact has a phone) answers 200 with that zone. -/
theorem safe_now_of_non_approved_zone_is_accepted (db : Db) (userId : UserId) (actor : User)
    (id : ZoneId) (z : Zone) (now : Time)
    (hactor : User.findById db userId = some actor) (hmod : actor.role = Role.admin)
    (hz : Zone.findById db id = some z) (_hs : z.status ≠ Status.approved) :
    MarkedSafe db id z now (handle db (putRequest id "safe-now" userId now)) :=
  markedSafe_intro now hactor hmod hz

/-- Witness of `safe_now_of_non_approved_zone_is_accepted` on the sample zone in status
`rejected`. -/
theorem safe_now_of_non_approved_zone_is_accepted_witness :
    MarkedSafe (exDb (exReviewed Status.rejected) []) exId (exReviewed Status.rejected) 50
      (handle (exDb (exReviewed Status.rejected) []) (putRequest exId "safe-now" 1 50)) :=
  safe_now_of_non_approved_zone_is_accepted (exDb (exReviewed Status.rejected) []) 1 exAdmin
    exId (exReviewed Status.rejected) 50 (by decide) (by decide) (by decide) (by decide)

/-! ## C3: the role check and the lookup -/

theorem runHandler_forbidden (h : HandlerName) (hh : h ≠ HandlerName.create) (db : Db)
    (actor : User) (req : Request) (hrole : actor.role ≠ Role.admin) :
    runHandler h db actor req = ⟨some forbidden, db, []⟩ := by
  cases h <;>
    first
    | exact absurd rfl hh
    | simp [runHandler, approvePlaceholder, rejectPlaceholder, approveHandler, rejectHandler,
        safeNowHandler, hrole]

theorem runHandler_notFound (h : HandlerName) (hh : h ≠ HandlerName.create) (db : Db)
    (actor : User) (req : Request) (hmod : actor.role = Role.admin)
    (hcast : castObjectId req.id ≠ none) (hz : Zone.findById db req.id = none) :
    ∃ message, runHandler h db actor req = ⟨some (notFound message), db, []⟩ := by
  cases h
  · exact absurd rfl hh
  · exact ⟨"RedZone not found", by simp [runHandler, approvePlaceholder, hmod, hcast, hz]⟩
  · exact ⟨"RedZone not found", by simp [runHandler, rejectPlaceholder, hmod, hcast, hz]⟩
  · exact ⟨"RedZone report not found", by simp [runHandler, approveHandler, hmod, hcast, hz]⟩
  · exact ⟨"RedZone report not found", by simp [runHandler, rejectHandler, hmod, hcast, hz]⟩
  · exact ⟨"RedZone report not found", by simp [runHandler, safeNowHandler, hmod, hcast, hz]⟩

theorem runHandler_castError (h : HandlerName) (hh : h ≠ HandlerName.create) (db : Db)
    (actor : User) (req : Request) (hmod : actor.role = Role.admin)
    (hcast : castObjectId req.id = none) :
    ∃ message, runHandler h db actor req = ⟨some (serverError message), db, []⟩ := by
  cases h
  · exact absurd rfl hh
  · exact ⟨"Failed to approve RedZone", by simp [runHandler, approvePlaceholder, hmod, hcast]⟩
  · exact ⟨"Failed to reject RedZone", by simp [runHandler, rejectPlaceholder, hmod, hcast]⟩
  · exact ⟨"Failed to approve RedZone report", by
      simp [runHandler, approveHandler, hmod, hcast]⟩
  · exact ⟨"Failed to reject RedZone report", by simp [runHandler, rejectHandler, hmod, hcast]⟩
  · exact ⟨"Failed to mark RedZone as safe", by simp [runHandler, safeNowHandler, hmod, hcast]⟩

theorem handle_moderation (db : Db) (id : ZoneId) (userId : UserId) (now : Time)
    (action : String) (ha : action ∈ moderationActions) {actor : User}
    (hactor : User.findById db userId = some actor) :
    ∃ h, h ≠ HandlerName.create ∧
      handle db (putRequest id action userId now) =
        some (runHandler h db actor (putRequest id action userId now)) := by
  simp only [moderationActions, List.mem_cons, List.mem_singleton, List.not_mem_nil,
    or_false] at ha
  rcases ha with rfl | rfl | rfl
  · exact ⟨HandlerName.approvePlaceholder, by decide, by
      rw [handle_approve, auth_valid hactor]; rfl⟩
  · exact ⟨HandlerName.rejectPlaceholder, by decide, by
      rw [handle_reject, auth_valid hactor]; rfl⟩
  · exact ⟨HandlerName.safeNow, by decide, by
      rw [handle_safeNow, auth_valid hactor]; rfl⟩

theorem castObjectId_ne_none (id : ZoneId) :
    castObjectId id ≠ none ↔ (id.data.length = 24 ∧ id.data.all isHexDigit = true) := by
  unfold castObjectId
  by_cases h : id.data.length = 24 ∧ id.data.all isHexDigit = true
  · rw [if_pos h]
    exact ⟨fun _ => h, fun _ => by simp⟩
  · rw [if_neg h]
    exact ⟨fun hc => absurd rfl hc, fun h' => absurd h' h⟩

theorem Zone.findById_eq_none_iff (db : Db) (id : ZoneId) (hcast : castObjectId id ≠ none) :
    Zone.findById db id = none ↔ ∀ z ∈ db.zones, z._id ≠ toLowerCase id := by
  cases hc : castObjectId id with
  | none => exact absurd hc hcast
  | some oid =>
    have hoid := castObjectId_eq hc
    subst hoid
    simp [Zone.findById, hc, Zone.stored, List.find?_eq_none]

/-- C3, as stated, fails: the sample database stores no zone under the id `z9`, and the
approve, reject and safe-now requests of moderator 1 on `z9` are each answered 500, not
404: `z9` is not an `ObjectId`, so `RedZone.findById` rejects and the `catch` of the route
answers. The database is unchanged and no notification call is started. -/
theorem malformed_id_is_answered_500 :
    exAdmin.role = Role.admin ∧ (∀ z ∈ (exDb exPending []).zones, z._id ≠ "z9") ∧
    handle (exDb exPending []) (putRequest "z9" "approve" 1 50) =
      some ⟨some ⟨500, false, "Failed to approve RedZone", none⟩, exDb exPending [], []⟩ ∧
    handle (exDb exPending []) (putRequest "z9" "reject" 1 50) =
      some ⟨some ⟨500, false, "Failed to reject RedZone", none⟩, exDb exPending [], []⟩ ∧
    handle (exDb exPending []) (putRequest "z9" "safe-now" 1 50) =
      some ⟨some ⟨500, false, "Failed to mark RedZone as safe", none⟩, exDb exPending [], []⟩ := by
  decide

/-- C3, amended: let `actor` be the authenticated user of a request. If `actor` is not a
moderator, each of `PUT /:id/approve`, `PUT /:id/reject` and `PUT /:id/safe-now` is
answered 403, whatever the id and whether or not a zone is stored under it. If `actor` is
a moderator and `id` is an `ObjectId` (24 hexadecimal digits) under which no zone is
stored, each is answered 404. If `actor` is a moderator and `id` is not an `ObjectId`, each
is answered 500. In all three cases the database is unchanged and no notification call is
started. The same holds for each of the five moderation handlers of the file taken alone
(the two registered second for approve and reject included). -/
theorem moderation_forbidden_not_found_or_failed (db : Db) (userId : UserId) (actor : User)
    (id : ZoneId) (now : Time) (hactor : User.findById db userId = some actor) :
    forbidden.status = 403 ∧ (∀ message, (notFound message).status = 404) ∧
    (∀ message, (serverError message).status = 500) ∧
    (castObjectId id ≠ none ↔ (id.data.length = 24 ∧ id.data.all isHexDigit = true)) ∧
    (castObjectId id ≠ none →
      (Zone.findById db id = none ↔ ∀ z ∈ db.zones, z._id ≠ toLowerCase id)) ∧
    (actor.role ≠ Role.admin →
      (∀ action ∈ moderationActions,
        handle db (putRequest id action userId now) = some ⟨some forbidden, db, []⟩) ∧
      (∀ h, h ≠ HandlerName.create → ∀ req : Request,
        runHandler h db actor req = ⟨some forbidden, db, []⟩)) ∧
    (actor.role = Role.admin → castObjectId id ≠ none → Zone.findById db id = none →
      (∀ action ∈ moderationActions, ∃ message,
        handle db (putRequest id action userId now) = some ⟨some (notFound message), db, []⟩) ∧
      (∀ h, h ≠ HandlerName.create → ∀ req : Request, req.id = id →
        ∃ message, runHandler h db actor req = ⟨some (notFound message), db, []⟩)) ∧
    (actor.role = Role.admin → castObjectId id = none →
      (∀ action ∈ moderationActions, ∃ message,
        handle db (putRequest id action userId now) =
          some ⟨some (serverError message), db, []⟩) ∧
      (∀ h, h ≠ HandlerName.create → ∀ req : Request, req.id = id →
        ∃ message, runHandler h db actor req = ⟨some (serverError message), db, []⟩)) := by
  refine ⟨rfl, fun _ => rfl, fun _ => rfl, castObjectId_ne_none id,
    Zone.findById_eq_none_iff db id,
    fun hrole => ⟨fun action ha => ?_, fun h hh req => ?_⟩,
    fun hmod hcast hz => ⟨fun action ha => ?_, fun h hh req hreq => ?_⟩,
    fun hmod hcast => ⟨fun action ha => ?_, fun h hh req hreq => ?_⟩⟩
  · obtain ⟨h, hh, hrun⟩ := handle_moderation db id userId now action ha hactor
    rw [hrun, runHandler_forbidden h hh db actor _ hrole]
  · exact runHandler_forbidden h hh db actor req hrole
  · obtain ⟨h, hh, hrun⟩ := handle_moderation db id userId now action ha hactor
    obtain ⟨m, hm⟩ :=
      runHandler_notFound h hh db actor (putRequest id action userId now) hmod hcast hz
    exact ⟨m, by rw [hrun, hm]⟩
  · exact runHandler_notFound h hh db actor req hmod (by rw [hreq]; exact hcast)
      (by rw [hreq]; exact hz)
  · obtain ⟨h, hh, hrun⟩ := handle_moderation db id userId now action ha hactor
    obtain ⟨m, hm⟩ :=
      runHandler_castError h hh db actor (putRequest id action userId now) hmod hcast
    exact ⟨m, by rw [hrun, hm]⟩
  · exact runHandler_castError h hh db actor req hmod (by rw [hreq]; exact hcast)

/-- Witness of `moderation_forbidden_not_found_or_failed`: the reporter of the sample data
(role `user`) asking to approve the stored sample zone gets 403; the moderator asking to
mark safe the zone of an `ObjectId` that is not stored gets 404; the moderator asking to
reject the zone of the id `not-an-object-id` gets 500; the database stays as it was. -/
theorem moderation_forbidden_not_found_or_failed_witness :
    handle (exDb exPending []) (putRequest exId "approve" 2 50) =
        some ⟨some forbidden, exDb exPending [], []⟩ ∧
      (∃ message, handle (exDb exPending []) (putRequest exUnknownId "safe-now" 1 50) =
        some ⟨some (notFound message), exDb exPending [], []⟩) ∧
      (∃ message, handle (exDb exPending []) (putRequest "not-an-object-id" "reject" 1 50) =
        some ⟨some (serverError message), exDb exPending [], []⟩) :=
  ⟨((moderation_forbidden_not_found_or_failed (exDb exPending []) 2 exUser exId 50
      (by decide)).2.2.2.2.2.1 (by decide)).1 "approve" (by decide),
    ((moderation_forbidden_not_found_or_failed (exDb exPending []) 1 exAdmin exUnknownId 50
      (by decide)).2.2.2.2.2.2.1 (by decide) (by decide) (by decide)).1 "safe-now" (by decide),
    ((moderation_forbidden_not_found_or_failed (exDb exPending []) 1 exAdmin
      "not-an-object-id" 50 (by decide)).2.2.2.2.2.2.2 (by decide) (by decide)).1 "reject"
      (by decide)⟩

/-! ## C4: approve and reject on a pending zone -/

/-- C4: for a moderator and a stored zone in status `pending`, `PUT /:id/approve`
(respectively `PUT /:id/reject`) answers 200 with the zone in status `approved`
(respectively `rejected`), `reviewedBy` the id of the moderator, `reviewedAt` and
`updatedAt` the time of the request, and `_id`, title, description, location, landmark,
coordinates, image, severity, reportedBy and createdAt unchanged; that zone is stored. -/
theorem review_of_pending_zone (db : Db) (userId : UserId) (actor : User)
    (id : ZoneId) (z : Zone) (now : Time)
    (hactor : User.findById db userId = some actor) (hmod : actor.role = Role.admin)
    (hz : Zone.findById db id = some z) (_hs : z.status = Status.pending) :
    AcceptedReview db id z Status.approved actor._id now "RedZone approved successfully"
        (handle db (putRequest id "approve" userId now)) ∧
      AcceptedReview db id z Status.rejected actor._id now "RedZone rejected successfully"
        (handle db (putRequest id "reject" userId now)) :=
  acceptedReview_intro now hactor hmod hz

/-- Witness of `review_of_pending_zone` on the sample pending zone. -/
theorem review_of_pending_zone_witness :
    AcceptedReview (exDb exPending []) exId exPending Status.approved 1 50
        "RedZone approved successfully"
        (handle (exDb exPending []) (putRequest exId "approve" 1 50)) ∧
      AcceptedReview (exDb exPending []) exId exPending Status.rejected 1 50
        "RedZone rejected successfully"
        (handle (exDb exPending []) (putRequest exId "reject" 1 50)) :=
  review_of_pending_zone (exDb exPending []) 1 exAdmin exId exPending 50
    (by decide) (by decide) (by decide) (by decide)

/-! ## C5: safe-now on an approved zone -/

/-- C5: for a moderator and a stored zone in status `approved`, `PUT /:id/safe-now`
stores the zone with status `safe` and `updatedAt` the time of the request, with
`reviewedBy`, `reviewedAt` and every other field unchanged, and answers 200 with that
zone (the answer is sent for every contact collection in which each contact has a phone,
as the contact schema requires). -/
theorem safe_now_of_approved_zone (db : Db) (userId : UserId) (actor : User)
    (id : ZoneId) (z : Zone) (now : Time)
    (hactor : User.findById db userId = some actor) (hmod : actor.role = Role.admin)
    (hz : Zone.findById db id = some z) (_hs : z.status = Status.approved) :
    MarkedSafe db id z now (handle db (putRequest id "safe-now" userId now)) :=
  markedSafe_intro now hactor hmod hz

/-- Witness of `safe_now_of_approved_zone` on the sample zone in status `approved`, with
one stored contact. -/
theorem safe_now_of_approved_zone_witness :
    MarkedSafe (exDb (exReviewed Status.approved) [exContact 2 "9876543210"]) exId
      (exReviewed Status.approved) 50
      (handle (exDb (exReviewed Status.approved) [exContact 2 "9876543210"])
        (putRequest exId "safe-now" 1 50)) :=
  safe_now_of_approved_zone _ 1 exAdmin exId (exReviewed Status.approved) 50
    (by decide) (by decide) (by decide) (by decide)

/-! ## C6: the reviewer stamp along every history -/

theorem approveHandler_db (db : Db) (user : User) (id : ZoneId) (now : Time) :
    (approveHandler db user id now).db = (approvePlaceholder db user id now).db := by
  unfold approveHandler approvePlaceholder
  split
  · rfl
  · split
    · rfl
    · split
      · rfl
      · simp only
        split
        · rfl
        · split
          · rfl
          · split <;> rfl

theorem rejectHandler_db (db : Db) (user : User) (id : ZoneId) (now : Time) :
    (rejectHandler db user id now).db = (rejectPlaceholder db user id now).db := by
  unfold rejectHandler rejectPlaceholder
  split
  · rfl
  · split
    · rfl
    · split <;> rfl

/-- Where the zones stored after a moderation handler come from: each was stored before,
or is a stored zone reviewed (approved or rejected) by the actor, or a stored zone marked
safe. -/
theorem moderation_zones (h : HandlerName) (hh : h ≠ HandlerName.create) (db : Db)
    (user : User) (req : Request) (z : Zone)
    (hz : z ∈ (runHandler h db user req).db.zones) :
    z ∈ db.zones ∨
      (∃ found ∈ db.zones, ∃ status, (status = Status.approved ∨ status = Status.rejected) ∧
        z = found.review status user._id req.now) ∨
      (∃ found ∈ db.zones, z = found.markSafe req.now) := by
  have approveCase : z ∈ (approvePlaceholder db user req.id req.now).db.zones →
      z ∈ db.zones ∨ (∃ found ∈ db.zones, ∃ status,
        (status = Status.approved ∨ status = Status.rejected) ∧
        z = found.review status user._id req.now) ∨
      (∃ found ∈ db.zones, z = found.markSafe req.now) := by
    intro hz
    unfold approvePlaceholder at hz
    split at hz
    · exact Or.inl hz
    · split at hz
      · exact Or.inl hz
      · split at hz
        · exact Or.inl hz
        · rename_i found hfound
          rcases Zone.mem_save hz with rfl | hmem
          · exact Or.inr (Or.inl ⟨found, Zone.findById_mem hfound, Status.approved,
              Or.inl rfl, rfl⟩)
          · exact Or.inl hmem
  have rejectCase : z ∈ (rejectPlaceholder db user req.id req.now).db.zones →
      z ∈ db.zones ∨ (∃ found ∈ db.zones, ∃ status,
        (status = Status.approved ∨ status = Status.rejected) ∧
        z = found.review status user._id req.now) ∨
      (∃ found ∈ db.zones, z = found.markSafe req.now) := by
    intro hz
    unfold rejectPlaceholder at hz
    split at hz
    · exact Or.inl hz
    · split at hz
      · exact Or.inl hz
      · split at hz
        · exact Or.inl hz
        · rename_i found hfound
          rcases Zone.mem_save hz with rfl | hmem
          · exact Or.inr (Or.inl ⟨found, Zone.findById_mem hfound, Status.rejected,
              Or.inr rfl, rfl⟩)
          · exact Or.inl hmem
  cases h
  · exact absurd rfl hh
  · exact approveCase hz
  · exact rejectCase hz
  · apply approveCase
    simpa [runHandler, approveHandler_db] using hz
  · apply rejectCase
    simpa [runHandler, rejectHandler_db] using hz
  · simp only [runHandler] at hz
    by_cases hrole : user.role = Role.admin
    · cases hfound : Zone.findById db req.id with
      | none =>
        left
        by_cases hcast : castObjectId req.id = none
        · simpa [safeNowHandler, hrole, hcast] using hz
        · simpa [safeNowHandler, hrole, hcast, hfound] using hz
      | some found =>
        rw [safeNowHandler_db req.now hrole hfound] at hz
        rcases Zone.mem_save hz with rfl | hmem
        · exact Or.inr (Or.inr ⟨found, Zone.findById_mem hfound, rfl⟩)
        · exact Or.inl hmem
    · left
      simpa [safeNowHandler, hrole] using hz

/-- Where the zones stored after `POST /` come from: each was stored before, or is the
new zone, which is pending without a reviewer stamp or approved with the stamp of the
creating moderator. -/
theorem buildRedZone_stamp (user : User) (body : CreateBody)
    (title description location : String) (sev : Severity) (newId : ZoneId) (now : Time) :
    ((buildRedZone user body title description location sev newId now).status = Status.pending ∧
      (buildRedZone user body title description location sev newId now).reviewedBy = none ∧
      (buildRedZone user body title description location sev newId now).reviewedAt = none) ∨
    ((buildRedZone user body title description location sev newId now).status = Status.approved ∧
      (buildRedZone user body title description location sev newId now).reviewedBy
        = some user._id ∧
      (buildRedZone user body title description location sev newId now).reviewedAt
        = some now) := by
  by_cases hd : user.role = Role.admin ∧ body.status = some "approved"
  · right; simp [buildRedZone, hd]
  · left; simp [buildRedZone, hd]

theorem create_zones (db : Db) (user : User) (body : CreateBody) (newId : ZoneId) (now : Time)
    (z : Zone) (hz : z ∈ (createHandler db user body newId now).db.zones) :
    z ∈ db.zones ∨
      (z.status = Status.pending ∧ z.reviewedBy = none ∧ z.reviewedAt = none) ∨
      (z.status = Status.approved ∧ z.reviewedBy = some user._id ∧ z.reviewedAt = some now) := by
  unfold createHandler at hz
  split at hz
  · split at hz
    · exact Or.inl hz
    · split at hz
      · exact Or.inl hz
      · rename_i title description location severity _ _ _ _ _ _ sev _
        dsimp only at hz
        by_cases hv : (!(buildRedZone user body title description location sev newId
            now).schemaValid || (Zone.stored db newId).isSome) = true
        · rw [if_pos hv] at hz
          exact Or.inl hz
        · rw [if_neg hv] at hz
          simp only [List.mem_append, List.mem_singleton] at hz
          rcases hz with hmem | rfl
          · exact Or.inl hmem
          · exact Or.inr (buildRedZone_stamp user body title description location sev newId now)
  · exact Or.inl hz

theorem stampConsistent_review (z : Zone) (status : Status) (actor : UserId) (now : Time)
    (hs : status = Status.approved ∨ status = Status.rejected) :
    (z.review status actor now).stampConsistent := by
  rcases hs with rfl | rfl <;> simp [Zone.stampConsistent, Zone.review]

theorem stampConsistent_markSafe (z : Zone) (now : Time) (h : z.stampConsistent) :
    (z.markSafe now).stampConsistent := by
  obtain ⟨_, _, h3⟩ := h
  simpa [Zone.stampConsistent, Zone.markSafe] using h3

theorem handle_cases {db : Db} {req : Request} {o : Outcome} (h : handle db req = some o) :
    o.db = db ∨ ∃ name user, o = runHandler name db user req := by
  unfold handle at h
  split at h
  · simp at h
  · rename_i r _
    split at h
    · left
      simp only [Option.some.injEq] at h
      rw [← h]
    · rename_i user _
      right
      simp only [Option.some.injEq] at h
      exact ⟨r.handler, user, h.symm⟩

theorem step_stampConsistent (db : Db) (e : Event)
    (h : ∀ z ∈ db.zones, z.stampConsistent) : ∀ z ∈ (step db e).zones, z.stampConsistent := by
  intro z hz
  cases e with
  | directory users contacts contactsUp => exact h z hz
  | request req =>
    simp only [step] at hz
    cases ho : handle db req with
    | none =>
      rw [ho] at hz
      exact h z hz
    | some o =>
      rw [ho] at hz
      simp only at hz
      rcases handle_cases ho with hdb | ⟨name, user, rfl⟩
      · rw [hdb] at hz
        exact h z hz
      · by_cases hh : name = HandlerName.create
        · rw [hh] at hz
          rcases create_zones db user req.body req.newId req.now z hz with hm | hp | ha
          · exact h z hm
          · obtain ⟨h1, h2, h3⟩ := hp
            simp [Zone.stampConsistent, h1, h2, h3]
          · obtain ⟨h1, h2, h3⟩ := ha
            simp [Zone.stampConsistent, h1, h2, h3]
        · rcases moderation_zones name hh db user req z hz with
            hm | ⟨found, _, status, hs, rfl⟩ | ⟨found, hfound, rfl⟩
          · exact h z hm
          · exact stampConsistent_review found status user._id req.now hs
          · exact stampConsistent_markSafe found req.now (h found hfound)

theorem run_stampConsistent (events : List Event) :
    ∀ db : Db, (∀ z ∈ db.zones, z.stampConsistent) →
      ∀ z ∈ (run db events).zones, z.stampConsistent := by
  induction events with
  | nil => intro db h; exact h
  | cons e es ih =>
    intro db h
    exact ih (step db e) (step_stampConsistent db e h)

/-- C6, as stated, fails: in the sample history (user 2 reports a zone, moderator 1
approves it, moderator 1 marks it safe) the stored zone ends with status `safe` while
`reviewedBy` and `reviewedAt` are still set, so its stamp is not "set if and only if the
status is approved or rejected". -/
theorem safe_zone_keeps_reviewer_stamp :
    (run (emptyDb [exAdmin, exUser] [] true) exHistory).zones =
        [(exPending.review Status.approved 1 20).markSafe 30] ∧
      ((exPending.review Status.approved 1 20).markSafe 30).status = Status.safe ∧
      ((exPending.review Status.approved 1 20).markSafe 30).reviewedBy = some 1 ∧
      ((exPending.review Status.approved 1 20).markSafe 30).reviewedAt = some 20 ∧
      ¬ ((exPending.review Status.approved 1 20).markSafe 30).stampIffReviewed := by
  refine ⟨by decide, by decide, by decide, by decide, ?_⟩
  simp [Zone.stampIffReviewed, Zone.markSafe, Zone.review]

/-- C6, amended: start from a database without zones and apply any sequence of requests
to the router (create, approve, reject, safe-now, by any users, with any changes to the
users and contacts in between). Every zone stored afterwards has `reviewedBy` and
`reviewedAt` both set when its status is `approved` or `rejected`, both unset when its
status is `pending`, and in status `safe` the two are set together or unset together. -/
theorem reviewer_stamp_along_histories (users : List User) (contacts : List UserContact)
    (contactsUp : Bool) (events : List Event) (z : Zone)
    (hz : z ∈ (run (emptyDb users contacts contactsUp) events).zones) :
    z.stampConsistent :=
  run_stampConsistent events (emptyDb users contacts contactsUp)
    (fun z hz => by simp [emptyDb] at hz) z hz

/-- Witness of `reviewer_stamp_along_histories`: the zone stored after the sample
history. -/
theorem reviewer_stamp_along_histories_witness :
    ((exPending.review Status.approved 1 20).markSafe 30).stampConsistent :=
  reviewer_stamp_along_histories [exAdmin, exUser] [] true exHistory
    ((exPending.review Status.approved 1 20).markSafe 30) (by decide)

/-! ## C7, C8: the two registrations of `PUT /:id/approve` -/

/-- The route `PUT /:id/approve` never starts a notification call. -/
theorem approve_route_dispatches_nothing (db : Db) (id : ZoneId) (userId : UserId) (now : Time)
    (o : Outcome) (h : handle db (putRequest id "approve" userId now) = some o) :
    o.dispatched = [] := by
  rw [handle_approve] at h
  split at h
  · simp only [Option.some.injEq] at h
    rw [← h]
  · rename_i user _
    simp only [Option.some.injEq] at h
    rw [← h]
    unfold approvePlaceholder
    split
    · rfl
    · split
      · rfl
      · split <;> rfl

theorem notifyReporter_calls (db : Db) (redZone : Zone) (reporter : Option User) :
    ∀ d ∈ (notifyReporter db redZone reporter).2, ∃ p m, d = Dispatch.sms p m := by
  intro d hd
  unfold notifyReporter at hd
  split at hd
  · simp at hd
  · split at hd
    · simp at hd
    · simp at hd
    · split at hd
      · split at hd
        · simp at hd
        · simp only [List.mem_singleton] at hd
          exact ⟨_, _, hd⟩
      · simp at hd

/-- The handler registered second for `PUT /:id/approve`, run by a moderator on a stored
zone with a title and a location while the contacts can be read and one of them has a
phone, starts `sendRedZoneNotification` on the non-empty phones of all contacts. -/
theorem approveHandler_fanout {db : Db} {actor : User} {id : ZoneId} {z : Zone} (now : Time)
    (hmod : actor.role = Role.admin) (hz : Zone.findById db id = some z)
    (ht : z.title ≠ "") (hl : z.location ≠ "") (hup : db.contactsUp = true)
    (hph : ∃ c ∈ db.contacts, c.phone ≠ "") :
    ∃ calls, (approveHandler db actor id now).dispatched =
      Dispatch.redZoneNotification
        ((db.contacts.map (fun contact => contact.phone)).filter (fun phone => phone ≠ ""))
        (z.review Status.approved actor._id now) :: calls ∧
      ∀ d ∈ calls, ∃ p m, d = Dispatch.sms p m := by
  obtain ⟨c, hc, hcp⟩ := hph
  have hmem : c.phone ∈ (db.contacts.map (fun contact => contact.phone)).filter
      (fun phone => phone ≠ "") := by
    simp only [List.mem_filter, List.mem_map]
    exact ⟨⟨c, hc, rfl⟩, by simpa using hcp⟩
  have hlen : 0 < ((db.contacts.map (fun contact => contact.phone)).filter
      (fun phone => decide (phone ≠ ""))).length := List.length_pos_of_mem hmem
  have hlen0 : 0 < db.contacts.length := List.length_pos_of_mem hc
  simp only [approveHandler, hmod, hz, UserContact.find, Zone.save, hup, Zone.review,
    Zone.findById_cast hz]
  simp only [ne_eq, not_true_eq_false, if_false, ht, hl, or_self, if_true, hlen0, true_and,
    Nat.ne_of_gt hlen, List.cons_append, List.nil_append]
  exact ⟨_, rfl, notifyReporter_calls _ _ _⟩

/-- C7, evaluated: the database holds the pending sample zone and one contact with the
phone `9876543210`. The request `PUT /:id/approve` of moderator 1 on that zone is served
by the first registration: it answers 200 with the approved zone and starts no
notification call. The handler registered second, run on the same input, starts
`sendRedZoneNotification(['9876543210'], redZone)`. -/
theorem approve_route_starts_no_fanout :
    handle (exDb exPending [exContact 3 "9876543210"]) (putRequest exId "approve" 1 50) =
        some ⟨some (okZone "RedZone approved successfully"
            (exPending.review Status.approved 1 50)),
          exDb (exPending.review Status.approved 1 50) [exContact 3 "9876543210"], []⟩ ∧
      (approveHandler (exDb exPending [exContact 3 "9876543210"]) exAdmin exId 50).dispatched =
        [Dispatch.redZoneNotification ["9876543210"]
          (exPending.review Status.approved 1 50)] := by
  decide

/-- C8, evaluated: the database holds a pending zone reported by moderator 1, the contact
of moderator 1 (phone `9876543210`) and the contact of user 3 (phone `9123456780`). The
request `PUT /:id/approve` of moderator 1 on that zone is served by the first
registration and starts no `sendSMS` call, so the reporter gets no personalized message.
The handler registered second, run on the same input, starts exactly one `sendSMS` call,
to the phone of the reporter with the personalized text. -/
theorem approve_route_sends_no_reporter_message :
    (handle (exDb exOwnReport [exContact 1 "9876543210", exContact 3 "9123456780"])
        (putRequest exId "approve" 1 50)).map (fun o => o.dispatched) = some [] ∧
      (approveHandler (exDb exOwnReport [exContact 1 "9876543210", exContact 3 "9123456780"])
          exAdmin exId 50).dispatched =
        [Dispatch.redZoneNotification ["9876543210", "9123456780"]
            (exOwnReport.review Status.approved 1 50),
          Dispatch.sms "9876543210"
            "Good news! Your RedZone report \"Flooded Street\" at Riverside Avenue has been approved by an admin. Thank you for helping keep our community safe."] := by
  decide

/-! ## C9: the answer of safe-now and of the notifying approve handler -/

theorem notifyReporter_responds (db : Db) (redZone : Zone) (reporter : User)
    (ht : redZone.title ≠ "") (hl : redZone.location ≠ "") :
    (notifyReporter db redZone (some reporter)).1 = true := by
  unfold notifyReporter
  simp only
  split
  · rfl
  · rfl
  · split
    · rw [if_neg (by simp [ht, hl])]
    · rfl

theorem filtered_phones_length {contacts : List UserContact}
    (h : ∃ c ∈ contacts, c.phone ≠ "") :
    ((contacts.map (fun contact => contact.phone)).filter
      (fun phone => decide (phone ≠ ""))).length ≠ 0 := by
  obtain ⟨c, hc, hcp⟩ := h
  have hmem : c.phone ∈ (contacts.map (fun contact => contact.phone)).filter
      (fun phone => decide (phone ≠ "")) := by
    simp only [List.mem_filter, List.mem_map]
    exact ⟨⟨c, hc, rfl⟩, by simpa using hcp⟩
  exact Nat.ne_of_gt (List.length_pos_of_mem hmem)

/-- The handler of `PUT /:id/safe-now`, run by a moderator on a stored zone, when the
contact query fails, or no contact is stored, or some stored contact has a phone: it
answers 200 with the zone marked safe and stores it. -/
theorem safeNowHandler_answer {db : Db} {actor : User} {id : ZoneId} {z : Zone} (now : Time)
    (hmod : actor.role = Role.admin) (hz : Zone.findById db id = some z)
    (hdir : db.contactsUp = false ∨ db.contacts = [] ∨ ∃ c ∈ db.contacts, c.phone ≠ "") :
    ∃ calls, safeNowHandler db actor id now =
      ⟨some (okZone "RedZone marked as safe successfully" (z.markSafe now)),
        Zone.save db (z.markSafe now), calls⟩ := by
  simp only [safeNowHandler, hmod, hz, Zone.findById_cast hz, Zone.markSafe,
    UserContact.find, Zone.save]
  simp only [ne_eq, not_true_eq_false, if_false]
  cases hup : db.contactsUp
  · exact ⟨_, rfl⟩
  · simp only [if_true]
    rcases hdir with hdown | hnil | hph
    · rw [hup] at hdown
      cases hdown
    · rw [hnil]
      exact ⟨_, rfl⟩
    · have hlen := filtered_phones_length hph
      obtain ⟨c, hc, _⟩ := hph
      rw [if_pos (List.length_pos_of_mem hc), if_neg hlen]
      exact ⟨_, rfl⟩

/-- The handler registered second for `PUT /:id/approve`, run by a moderator on a stored
zone whose reporter is a stored user, when the contact query fails, or no contact is
stored, or some stored contact has a phone: it answers 200 with the approved zone and
stores it. -/
theorem approveHandler_answer {db : Db} {actor : User} {id : ZoneId} {z : Zone} (now : Time)
    (hmod : actor.role = Role.admin) (hz : Zone.findById db id = some z)
    (hdir : db.contactsUp = false ∨ db.contacts = [] ∨ ∃ c ∈ db.contacts, c.phone ≠ "")
    (hreporter : (User.findById db z.reportedBy).isSome = true) :
    ∃ calls, approveHandler db actor id now =
      ⟨some (okZone "RedZone report approved successfully"
          (z.review Status.approved actor._id now)),
        Zone.save db (z.review Status.approved actor._id now), calls⟩ := by
  obtain ⟨reporter, hrep⟩ := Option.isSome_iff_exists.mp hreporter
  simp only [approveHandler, hmod, hz, Zone.findById_cast hz, UserContact.find, Zone.save,
    Zone.review, hrep]
  simp only [ne_eq, not_true_eq_false, if_false]
  by_cases hempty : z.title = "" ∨ z.location = ""
  · rw [if_pos hempty]
    exact ⟨_, rfl⟩
  · rw [if_neg hempty]
    have ht : z.title ≠ "" := fun h => hempty (Or.inl h)
    have hl : z.location ≠ "" := fun h => hempty (Or.inr h)
    have hr := fun d : Db =>
      notifyReporter_responds d (z.review Status.approved actor._id now) reporter ht hl
    simp only [Zone.review] at hr
    cases hup : db.contactsUp
    · exact ⟨_, rfl⟩
    · simp only [if_true]
      rcases hdir with hdown | hnil | hph
      · rw [hup] at hdown
        cases hdown
      · rw [hnil]
        simp only [List.length_nil, Nat.lt_irrefl, false_and, if_false, hr]
        exact ⟨_, rfl⟩
      · rw [if_neg (fun h => filtered_phones_length hph h.2), hr]
        exact ⟨_, rfl⟩

/-- C9: for every moderator and every stored zone, the request `PUT /:id/safe-now` is
answered 200 with the zone marked safe, which is stored, for every contact directory that
is empty, or whose query fails, or in which some contact has a non-empty phone; these are
all the directories the contact schema admits, in which every phone is non-empty. The
handler registered second for `PUT /:id/approve` likewise answers 200 with the approved
zone, which is stored, when the reporter of the zone is a stored user. The answer is the
same for every such directory: it is fixed by the zone and the request alone, before any
of the started sends has returned. -/
theorem moderation_answer_ignores_notification (db : Db) (userId : UserId) (actor : User)
    (id : ZoneId) (z : Zone) (now : Time)
    (hactor : User.findById db userId = some actor) (hmod : actor.role = Role.admin)
    (hz : Zone.findById db id = some z) :
    (∀ (contacts : List UserContact) (contactsUp : Bool),
      (contactsUp = false ∨ contacts = [] ∨ ∃ c ∈ contacts, c.phone ≠ "") →
      (∃ calls, handle { db with contacts := contacts, contactsUp := contactsUp }
          (putRequest id "safe-now" userId now) =
        some ⟨some (okZone "RedZone marked as safe successfully" (z.markSafe now)),
          Zone.save { db with contacts := contacts, contactsUp := contactsUp }
            (z.markSafe now), calls⟩) ∧
      ((User.findById db z.reportedBy).isSome = true →
        ∃ calls, approveHandler { db with contacts := contacts, contactsUp := contactsUp }
            actor id now =
          ⟨some (okZone "RedZone report approved successfully"
              (z.review Status.approved actor._id now)),
            Zone.save { db with contacts := contacts, contactsUp := contactsUp }
              (z.review Status.approved actor._id now), calls⟩)) ∧
    ((∀ c ∈ db.contacts, c.phone ≠ "") →
      (∃ calls, handle db (putRequest id "safe-now" userId now) =
        some ⟨some (okZone "RedZone marked as safe successfully" (z.markSafe now)),
          Zone.save db (z.markSafe now), calls⟩) ∧
      ((User.findById db z.reportedBy).isSome = true →
        ∃ calls, approveHandler db actor id now =
          ⟨some (okZone "RedZone report approved successfully"
              (z.review Status.approved actor._id now)),
            Zone.save db (z.review Status.approved actor._id now), calls⟩)) := by
  have hdir : ∀ contacts : List UserContact, (∀ c ∈ contacts, c.phone ≠ "") →
      contacts = [] ∨ ∃ c ∈ contacts, c.phone ≠ "" := by
    intro contacts h
    cases contacts with
    | nil => exact Or.inl rfl
    | cons c cs => exact Or.inr ⟨c, List.mem_cons_self _ _, h c (List.mem_cons_self _ _)⟩
  have main : ∀ d : Db, User.findById d userId = some actor → Zone.findById d id = some z →
      User.findById d z.reportedBy = User.findById db z.reportedBy →
      (d.contactsUp = false ∨ d.contacts = [] ∨ ∃ c ∈ d.contacts, c.phone ≠ "") →
      (∃ calls, handle d (putRequest id "safe-now" userId now) =
        some ⟨some (okZone "RedZone marked as safe successfully" (z.markSafe now)),
          Zone.save d (z.markSafe now), calls⟩) ∧
      ((User.findById db z.reportedBy).isSome = true →
        ∃ calls, approveHandler d actor id now =
          ⟨some (okZone "RedZone report approved successfully"
              (z.review Status.approved actor._id now)),
            Zone.save d (z.review Status.approved actor._id now), calls⟩) := by
    intro d hactor' hz' hrep hd
    constructor
    · rw [handle_safeNow, auth_valid hactor']
      obtain ⟨calls, hcalls⟩ := safeNowHandler_answer now hmod hz' hd
      exact ⟨calls, congrArg some hcalls⟩
    · intro hreporter
      exact approveHandler_answer now hmod hz' hd (by rw [hrep]; exact hreporter)
  exact ⟨fun contacts contactsUp hd =>
      main { db with contacts := contacts, contactsUp := contactsUp } hactor hz rfl hd,
    fun hphones => main db hactor hz rfl (Or.inr (hdir db.contacts hphones))⟩

/-- Witness of `moderation_answer_ignores_notification` on the approved sample zone: the
request to mark it safe is answered 200 with the zone marked safe when the directory is
empty, when it holds a contact, and when the contact query fails. -/
theorem moderation_answer_ignores_notification_witness :
    (∃ calls, handle (exDb (exReviewed Status.approved) []) (putRequest exId "safe-now" 1 50) =
      some ⟨some (okZone "RedZone marked as safe successfully"
          ((exReviewed Status.approved).markSafe 50)),
        Zone.save (exDb (exReviewed Status.approved) [])
          ((exReviewed Status.approved).markSafe 50), calls⟩) ∧
    (∃ calls, handle (exDb (exReviewed Status.approved) [exContact 2 "9876543210"])
        (putRequest exId "safe-now" 1 50) =
      some ⟨some (okZone "RedZone marked as safe successfully"
          ((exReviewed Status.approved).markSafe 50)),
        Zone.save (exDb (exReviewed Status.approved) [exContact 2 "9876543210"])
          ((exReviewed Status.approved).markSafe 50), calls⟩) ∧
    (∃ calls, handle ⟨[exAdmin, exUser], [exReviewed Status.approved],
          [exContact 2 "9876543210"], false⟩ (putRequest exId "safe-now" 1 50) =
      some ⟨some (okZone "RedZone marked as safe successfully"
          ((exReviewed Status.approved).markSafe 50)),
        Zone.save ⟨[exAdmin, exUser], [exReviewed Status.approved],
          [exContact 2 "9876543210"], false⟩
          ((exReviewed Status.approved).markSafe 50), calls⟩) ∧
    (∃ calls, approveHandler (exDb exPending [exContact 2 "9876543210"]) exAdmin exId 50 =
      ⟨some (okZone "RedZone report approved successfully"
          (exPending.review Status.approved 1 50)),
        Zone.save (exDb exPending [exContact 2 "9876543210"])
          (exPending.review Status.approved 1 50), calls⟩) :=
  ⟨((moderation_answer_ignores_notification (exDb (exReviewed Status.approved) []) 1 exAdmin
      exId (exReviewed Status.approved) 50 (by decide) (by decide) (by decide)).2
      (by decide)).1,
    ((moderation_answer_ignores_notification (exDb (exReviewed Status.approved) []) 1 exAdmin
      exId (exReviewed Status.approved) 50 (by decide) (by decide) (by decide)).1
      [exContact 2 "9876543210"] true
      (Or.inr (Or.inr ⟨exContact 2 "9876543210", by decide, by decide⟩))).1,
    ((moderation_answer_ignores_notification (exDb (exReviewed Status.approved) []) 1 exAdmin
      exId (exReviewed Status.approved) 50 (by decide) (by decide) (by decide)).1
      [exContact 2 "9876543210"] false (Or.inl rfl)).1,
    ((moderation_answer_ignores_notification (exDb exPending [exContact 2 "9876543210"]) 1
      exAdmin exId exPending 50 (by decide) (by decide) (by decide)).2
      (by decide)).2 (by decide)⟩

/-! ## C10: numbers written without a leading `+` -/

theorem stripLeadingZeros_spec :
    ∀ l : List Char, ∃ k : Nat, l = List.replicate k '0' ++ stripLeadingZeros l ∧
      (stripLeadingZeros l).head? ≠ some '0'
  | [] => ⟨0, by simp [stripLeadingZeros]⟩
  | c :: cs => by
    by_cases hc : c = '0'
    · obtain ⟨k, hk, hhead⟩ := stripLeadingZeros_spec cs
      refine ⟨k + 1, ?_, ?_⟩
      · simp only [stripLeadingZeros, hc, if_true, List.replicate_succ, List.cons_append]
        rw [← hk]
      · simpa [stripLeadingZeros, hc] using hhead
    · exact ⟨0, by simp [stripLeadingZeros, hc], by simp [stripLeadingZeros, hc]⟩

theorem stripLeadingZeros_replicate (rest : List Char) (hrest : rest.head? ≠ some '0') :
    ∀ k : Nat, stripLeadingZeros (List.replicate k '0' ++ rest) = rest
  | 0 => by
    cases rest with
    | nil => rfl
    | cons c cs =>
      have hc : c ≠ '0' := by simpa using hrest
      simp [stripLeadingZeros, hc]
  | k + 1 => by
    simpa [List.replicate_succ, stripLeadingZeros] using stripLeadingZeros_replicate rest hrest k

/-- C10: let `p` be a non-empty string that does not start with `+`. Then `p` is a run of
zeros followed by some `rest` that does not start with a zero, and for every such
splitting the number computed by `sendSMS` is `+91` followed by `rest`: it is the `to` of
the simulated send in test mode, and the `to` given to the Twilio client otherwise. In
particular `9876543210` gives `+919876543210`. -/
theorem format_number_without_plus (p : String) (hne : p ≠ "")
    (hplus : p.data.head? ≠ some '+') :
    (∃ (k : Nat) (rest : List Char),
      p.data = List.replicate k '0' ++ rest ∧ rest.head? ≠ some '0') ∧
    (∀ (k : Nat) (rest : List Char),
      p.data = List.replicate k '0' ++ rest → rest.head? ≠ some '0' →
      formatNumber p = ⟨['+', '9', '1'] ++ rest⟩ ∧
      (∀ (tw : Twilio) (message : String) (now : Time), tw.isTestMode = true →
        sendSMS tw (PhoneArg.str p) message now =
          (some ⟨"TEST" ++ toString now, "delivered", ⟨['+', '9', '1'] ++ rest⟩, message,
              some now⟩,
            [SendEffect.simulated ⟨['+', '9', '1'] ++ rest⟩ message])) ∧
      (∀ (tw : Twilio) (message : String) (now : Time),
        tw.isTestMode = false → tw.client = true →
        sendSMS tw (PhoneArg.str p) message now =
          (tw.create ⟨['+', '9', '1'] ++ rest⟩ message,
            [SendEffect.provider ⟨['+', '9', '1'] ++ rest⟩ message]))) ∧
    formatNumber "9876543210" = "+919876543210" := by
  refine ⟨?_, ?_, by decide⟩
  · obtain ⟨k, hk, hhead⟩ := stripLeadingZeros_spec p.data
    exact ⟨k, _, hk, hhead⟩
  · intro k rest hk hrest
    have hs : stripLeadingZeros p.data = rest := by
      rw [hk]; exact stripLeadingZeros_replicate rest hrest k
    have hf : formatNumber p = ⟨['+', '9', '1'] ++ rest⟩ := by
      simp [formatNumber, hplus, hs]
    refine ⟨hf, ?_, ?_⟩
    · intro tw message now htest
      simp [sendSMS, hne, htest, hf]
    · intro tw message now htest hclient
      simp [sendSMS, hne, htest, hclient, hf]

/-- Witness of `format_number_without_plus` at `0098765`: the two zeros are dropped. -/
theorem format_number_without_plus_witness :
    formatNumber "0098765" = "+9198765" :=
  ((format_number_without_plus "0098765" (by decide) (by decide)).2.1 2
    ['9', '8', '7', '6', '5'] (by decide) (by decide)).1

/-! ## C11: numbers written with a foreign country code -/

theorem formatNumber_plus_digits (digits : List Char) (hne : digits ≠ [])
    (hdigits : ∀ c ∈ digits, c.isDigit = true)
    (hforeign : ('+' :: digits).take 3 ≠ ['+', '9', '1']) :
    formatNumber ⟨'+' :: digits⟩ = "+91" := by
  cases digits with
  | nil => exact absurd rfl hne
  | cons d ds =>
    have hd : d.isDigit = true := hdigits d (List.mem_cons_self _ _)
    have hds : ds.dropWhile Char.isDigit = [] := by
      rw [List.dropWhile_eq_nil_iff]
      intro c hc
      exact hdigits c (List.mem_cons_of_mem _ hc)
    have h1 : ¬ ((⟨'+' :: d :: ds⟩ : String).data.head? ≠ some '+') := by simp
    simp only [formatNumber, h1, if_false, stripCountryCode, hd, and_self,
      hds, List.append_nil, if_true]
    rw [if_pos hforeign]

/-- C11, evaluated: `+44123` is formatted to `+91`: the pattern `^\+\d+` removes the
country code together with every digit after it, so the number itself is lost, and `+91`
is the `to` of the send. When a character that is not a digit follows the country code
(`+44 123`), the rest is kept. Every string made of `+` and digits only (not starting
with `+91`) is formatted to `+91`. -/
theorem foreign_code_number_is_lost :
    formatNumber "+44123" = "+91" ∧
      (sendSMS exTestMode (PhoneArg.str "+44123") "text" 5).2 =
        [SendEffect.simulated "+91" "text"] ∧
      formatNumber "+44 123" = "+91 123" ∧
      (∀ digits : List Char, digits ≠ [] → (∀ c ∈ digits, c.isDigit = true) →
        ('+' :: digits).take 3 ≠ ['+', '9', '1'] → formatNumber ⟨'+' :: digits⟩ = "+91") :=
  ⟨by decide, by decide, by decide, formatNumber_plus_digits⟩

/-! ## C12: phone values that are refused -/

/-- C12: for the empty string and for a phone value that is not a string, `sendSMS`
resolves to `null` and does nothing else (no call to the Twilio client, no simulated
send), whatever the module state: with a client, in test mode, or without credentials. -/
theorem invalid_phone_is_not_sent (tw : Twilio) (message : String) (now : Time) :
    sendSMS tw (PhoneArg.str "") message now = (none, []) ∧
      sendSMS tw PhoneArg.other message now = (none, []) ∧
      (∀ env : TwilioEnv,
        sendSMS (initTwilio env) (PhoneArg.str "") message now = (none, []) ∧
        sendSMS (initTwilio env) PhoneArg.other message now = (none, [])) := by
  refine ⟨by simp [sendSMS], by simp [sendSMS], fun env => ⟨by simp [sendSMS], by simp [sendSMS]⟩⟩

/-! ## C13, C14, C15: the sends of one fanout -/

theorem sendSMS_real {tw : Twilio} (hclient : tw.client = true) (htest : tw.isTestMode = false)
    {p : String} (hp : p ≠ "") (message : String) (now : Time) :
    sendSMS tw (PhoneArg.str p) message now =
      (tw.create (formatNumber p) message, [SendEffect.provider (formatNumber p) message]) := by
  simp [sendSMS, hp, hclient, htest]

theorem sends_real {tw : Twilio} (hclient : tw.client = true) (htest : tw.isTestMode = false)
    (message : String) (now : Time) :
    ∀ phones : List String, (∀ p ∈ phones, p ≠ "") →
      ((phones.map PhoneArg.str).map (fun phone => sendSMS tw phone message now)).filterMap
          (fun r => r.1) = phones.filterMap (fun p => tw.create (formatNumber p) message) ∧
      ((phones.map PhoneArg.str).map (fun phone => sendSMS tw phone message now)).flatMap
          (fun r => r.2) = phones.map (fun p => SendEffect.provider (formatNumber p) message)
  | [], _ => by simp
  | p :: ps, h => by
    have hp : p ≠ "" := h p (List.mem_cons_self _ _)
    obtain ⟨ih1, ih2⟩ := sends_real hclient htest message now ps
      (fun q hq => h q (List.mem_cons_of_mem _ hq))
    constructor
    · simp only [List.map_cons, sendSMS_real hclient htest hp, List.filterMap_cons]
      rw [ih1]
    · simp only [List.map_cons, sendSMS_real hclient htest hp, List.flatMap_cons,
        List.singleton_append]
      rw [ih2]

/-- With a client, outside test mode, for a zone with title and location and phones that
are non-empty strings: the value `sendRedZoneNotification` resolves to is the list of the
results of the accepted sends, and it calls the client once for every entry of the list,
with the formatted number and the notification text. -/
theorem sendRedZoneNotification_real {tw : Twilio} (hclient : tw.client = true)
    (htest : tw.isTestMode = false) {z : Zone} (htitle : z.title ≠ "")
    (hlocation : z.location ≠ "") (phones : List String) (hphones : ∀ p ∈ phones, p ≠ "")
    (now : Time) :
    sendRedZoneNotification tw (phones.map PhoneArg.str) z now =
      (phones.filterMap (fun p => tw.create (formatNumber p) (notificationMessage z)),
        phones.map (fun p => SendEffect.provider (formatNumber p) (notificationMessage z))) := by
  obtain ⟨h1, h2⟩ := sends_real hclient htest (notificationMessage z) now phones hphones
  cases phones with
  | nil => simp [sendRedZoneNotification]
  | cons p ps =>
    simp only [sendRedZoneNotification, hclient, htest, htitle, hlocation]
    simp only [Bool.not_true, Bool.not_false, Bool.and_true, Bool.false_eq_true, if_false,
      List.length_map, List.length_cons, Nat.add_one_ne_zero, or_self]
    rw [h1, h2]

theorem length_filterMap_eq_countP {α β : Type} (f : α → Option β) :
    ∀ l : List α, (l.filterMap f).length = l.countP (fun a => (f a).isSome)
  | [] => rfl
  | a :: as => by
    cases h : f a with
    | none => simp [List.filterMap_cons, h, length_filterMap_eq_countP f as]
    | some b => simp [List.filterMap_cons, h, length_filterMap_eq_countP f as]

theorem length_filterMap_lt {α β : Type} (f : α → Option β) :
    ∀ (l : List α) (a : α), a ∈ l → f a = none → (l.filterMap f).length < l.length
  | [], _, h, _ => by simp at h
  | b :: bs, a, h, ha => by
    rcases List.mem_cons.mp h with rfl | hmem
    · have := List.length_filterMap_le f bs
      simp only [List.filterMap_cons, ha, List.length_cons]
      omega
    · have ih := length_filterMap_lt f bs a hmem ha
      cases hb : f b with
      | none => simp only [List.filterMap_cons, hb, List.length_cons]; omega
      | some c => simp only [List.filterMap_cons, hb, List.length_cons]; omega

/-- C13: with a client (outside test mode), for every zone with a title and a location,
every non-empty list of phones (non-empty strings) and every behaviour of the client on
the recipients, `sendRedZoneNotification` returns (it is a total function: nothing is
thrown), calls the client once for every recipient, and resolves to exactly the results
of the recipients whose send was accepted: their number is the number of recipients on
which the client call succeeds. -/
theorem fanout_attempts_every_recipient (tw : Twilio) (phones : List String) (z : Zone)
    (now : Time) (hclient : tw.client = true) (htest : tw.isTestMode = false)
    (htitle : z.title ≠ "") (hlocation : z.location ≠ "") (_hne : phones ≠ [])
    (hphones : ∀ p ∈ phones, p ≠ "") :
    (sendRedZoneNotification tw (phones.map PhoneArg.str) z now).2 =
        phones.map (fun p => SendEffect.provider (formatNumber p) (notificationMessage z)) ∧
      (sendRedZoneNotification tw (phones.map PhoneArg.str) z now).2.length = phones.length ∧
      (sendRedZoneNotification tw (phones.map PhoneArg.str) z now).1.length =
        phones.countP (fun p => (tw.create (formatNumber p) (notificationMessage z)).isSome) ∧
      (∀ r, r ∈ (sendRedZoneNotification tw (phones.map PhoneArg.str) z now).1 ↔
        ∃ p ∈ phones, tw.create (formatNumber p) (notificationMessage z) = some r) := by
  rw [sendRedZoneNotification_real hclient htest htitle hlocation phones hphones now]
  refine ⟨rfl, by simp, length_filterMap_eq_countP _ phones, fun r => ?_⟩
  simp [List.mem_filterMap]

/-- Witness of `fanout_attempts_every_recipient`: for the recipients `+911`, `+912`,
`+913` and a client that rejects the send to `+912`, three sends are attempted and two
results are reported. -/
theorem fanout_attempts_every_recipient_witness :
    (sendRedZoneNotification exProvider
        (["+911", "+912", "+913"].map PhoneArg.str) (exReviewed Status.approved) 5).2.length = 3 ∧
      (sendRedZoneNotification exProvider
        (["+911", "+912", "+913"].map PhoneArg.str) (exReviewed Status.approved) 5).1.length = 2 :=
  ⟨(fanout_attempts_every_recipient exProvider ["+911", "+912", "+913"]
      (exReviewed Status.approved) 5 rfl rfl (by decide) (by decide) (by decide)
      (by decide)).2.1,
    (fanout_attempts_every_recipient exProvider ["+911", "+912", "+913"]
      (exReviewed Status.approved) 5 rfl rfl (by decide) (by decide) (by decide)
      (by decide)).2.2.1.trans (by decide)⟩

/-- C14, as stated, fails: for the recipients `+911`, `+912`, `+913` and a client that
rejects the send to `+912`, the value `sendRedZoneNotification` resolves to has two
entries, for `+911` and `+913`; no entry stands for `+912`. -/
theorem failed_recipient_has_no_entry :
    (sendRedZoneNotification exProvider
        (["+911", "+912", "+913"].map PhoneArg.str) (exReviewed Status.approved) 5).1.map
          (fun r => r.to_) = ["+911", "+913"] ∧
      (sendRedZoneNotification exProvider
        (["+911", "+912", "+913"].map PhoneArg.str) (exReviewed Status.approved) 5).1.length ≠ 3 ∧
      ∀ r ∈ (sendRedZoneNotification exProvider
        (["+911", "+912", "+913"].map PhoneArg.str) (exReviewed Status.approved) 5).1,
          r.to_ ≠ "+912" := by
  decide

/-- C14, amended: the value a fanout resolves to holds one entry for every recipient
whose send was accepted, in the order of the recipients: it is the list of the results of
the accepted sends. A recipient whose send failed has no entry, so the list has at most
as many entries as there are recipients and strictly fewer as soon as one send failed. -/
theorem fanout_result_lists_accepted_sends (tw : Twilio) (phones : List String) (z : Zone)
    (now : Time) (hclient : tw.client = true) (htest : tw.isTestMode = false)
    (htitle : z.title ≠ "") (hlocation : z.location ≠ "")
    (hphones : ∀ p ∈ phones, p ≠ "") :
    (sendRedZoneNotification tw (phones.map PhoneArg.str) z now).1 =
        phones.filterMap (fun p => tw.create (formatNumber p) (notificationMessage z)) ∧
      (sendRedZoneNotification tw (phones.map PhoneArg.str) z now).1.length ≤ phones.length ∧
      (∀ p ∈ phones, tw.create (formatNumber p) (notificationMessage z) = none →
        (sendRedZoneNotification tw (phones.map PhoneArg.str) z now).1.length
          < phones.length) := by
  rw [sendRedZoneNotification_real hclient htest htitle hlocation phones hphones now]
  exact ⟨rfl, List.length_filterMap_le _ _, fun p hp hnone => length_filterMap_lt _ phones p hp hnone⟩

/-- Witness of `fanout_result_lists_accepted_sends`: with the send to `+912` rejected,
fewer than three entries are returned for three recipients. -/
theorem fanout_result_lists_accepted_sends_witness :
    (sendRedZoneNotification exProvider
        (["+911", "+912", "+913"].map PhoneArg.str) (exReviewed Status.approved) 5).1.length < 3 :=
  (fanout_result_lists_accepted_sends exProvider ["+911", "+912", "+913"]
    (exReviewed Status.approved) 5 rfl rfl (by decide) (by decide) (by decide)).2.2
    "+912" (by decide) (by decide)

/-- C15, as stated, fails: for the recipient list `9876543210`, `09876543210` (two raw
strings of the same number) the client is called twice with `+919876543210`, and the same
happens for a list that repeats `9876543210`. -/
theorem same_number_is_sent_twice :
    (sendRedZoneNotification exProvider
        (["9876543210", "09876543210"].map PhoneArg.str) (exReviewed Status.approved) 5).2.map
          SendEffect.recipient = ["+919876543210", "+919876543210"] ∧
      (sendRedZoneNotification exProvider
        (["9876543210", "9876543210"].map PhoneArg.str) (exReviewed Status.approved) 5).2.map
          SendEffect.recipient = ["+919876543210", "+919876543210"] := by
  decide

/-- C15, amended: within one fanout the message is sent once for every entry of the
recipient list: a number receives it as many times as there are entries that are
formatted to it, hence at most once when the formatted entries are pairwise distinct. -/
theorem fanout_sends_once_per_entry (tw : Twilio) (phones : List String) (z : Zone)
    (now : Time) (hclient : tw.client = true) (htest : tw.isTestMode = false)
    (htitle : z.title ≠ "") (hlocation : z.location ≠ "")
    (hphones : ∀ p ∈ phones, p ≠ "") :
    (∀ number : String,
      (sendRedZoneNotification tw (phones.map PhoneArg.str) z now).2.countP
          (fun e => e.recipient = number) =
        phones.countP (fun p => formatNumber p = number)) ∧
      ((phones.map formatNumber).Nodup → ∀ number : String,
        (sendRedZoneNotification tw (phones.map PhoneArg.str) z now).2.countP
          (fun e => e.recipient = number) ≤ 1) := by
  rw [sendRedZoneNotification_real hclient htest htitle hlocation phones hphones now]
  have hcount : ∀ number : String,
      (phones.map (fun p => SendEffect.provider (formatNumber p)
          (notificationMessage z))).countP (fun e => e.recipient = number) =
        phones.countP (fun p => formatNumber p = number) := by
    intro number
    rw [List.countP_map]
    rfl
  refine ⟨hcount, fun hnodup number => ?_⟩
  rw [hcount number]
  have h := List.nodup_iff_count_le_one.mp hnodup number
  rw [List.count, List.countP_map] at h
  have heq : phones.countP (fun p => decide (formatNumber p = number)) =
      phones.countP ((fun x => x == number) ∘ formatNumber) := by
    apply List.countP_congr
    intro p _
    simp
  rw [heq]
  exact h

/-- Witness of `fanout_sends_once_per_entry`: in the fanout to `9876543210` and
`09876543210` the number `+919876543210` is addressed twice, once per entry. -/
theorem fanout_sends_once_per_entry_witness :
    (sendRedZoneNotification exProvider
        (["9876543210", "09876543210"].map PhoneArg.str) (exReviewed Status.approved) 5).2.countP
          (fun e => e.recipient = "+919876543210") = 2 :=
  ((fanout_sends_once_per_entry exProvider ["9876543210", "09876543210"]
    (exReviewed Status.approved) 5 rfl rfl (by decide) (by decide) (by decide)).1
    "+919876543210").trans (by decide)

/-! ## C16: the module state without credentials -/

/-- C16, as stated, fails: without any credential the module has no client and test mode
is off; `sendSMS` on the valid phone `9876543210` resolves to `null` with no simulated
send, and `sendRedZoneNotification` resolves to the empty array. -/
theorem missing_credentials_disable_sms :
    (initTwilio exNoCredentials).client = false ∧
      (initTwilio exNoCredentials).isTestMode = false ∧
      sendSMS (initTwilio exNoCredentials) (PhoneArg.str "9876543210") "text" 5 = (none, []) ∧
      sendRedZoneNotification (initTwilio exNoCredentials) [PhoneArg.str "9876543210"]
        (exReviewed Status.approved) 5 = ([], []) := by
  decide

theorem initTwilio_disabled (env : TwilioEnv)
    (hmissing : isSet env.accountSid = false ∨ isSet env.authToken = false ∨
      isSet env.messagingServiceSid = false)
    (hpair : ¬ (env.accountSid = some "AC00000000000000000000000000000000" ∧
      env.authToken = some "00000000000000000000000000000000")) :
    (initTwilio env).client = false ∧ (initTwilio env).isTestMode = false := by
  have hcomplete : (isSet env.accountSid && isSet env.authToken &&
      isSet env.messagingServiceSid) = false := by
    rcases hmissing with h | h | h <;> simp [h]
  simp only [initTwilio, hcomplete, Bool.false_and, Bool.or_false, decide_eq_false_iff_not]
  exact ⟨trivial, hpair⟩

/-- C16, amended: when a credential is missing (so that no client is initialised) and the
credentials are not the Twilio test pair, `sendSMS` resolves to `null` for every phone
value, without a send of any kind, and `sendRedZoneNotification` resolves to the empty
array. A simulated outcome (sid `TEST...`, status `delivered`, the formatted number) is
what `sendSMS` returns on a non-empty phone string exactly in test mode, which the
initialisation switches on for the test pair of credentials or when the construction of
the client throws. -/
theorem missing_credentials_return_nothing (env : TwilioEnv)
    (hmissing : isSet env.accountSid = false ∨ isSet env.authToken = false ∨
      isSet env.messagingServiceSid = false)
    (hpair : ¬ (env.accountSid = some "AC00000000000000000000000000000000" ∧
      env.authToken = some "00000000000000000000000000000000")) :
    (∀ (phone : PhoneArg) (message : String) (now : Time),
      sendSMS (initTwilio env) phone message now = (none, [])) ∧
    (∀ (phones : List PhoneArg) (z : Zone) (now : Time),
      sendRedZoneNotification (initTwilio env) phones z now = ([], [])) ∧
    (∀ (tw : Twilio) (p : String) (message : String) (now : Time), p ≠ "" →
      (tw.isTestMode = true ↔
        sendSMS tw (PhoneArg.str p) message now =
          (some ⟨"TEST" ++ toString now, "delivered", formatNumber p, message, some now⟩,
            [SendEffect.simulated (formatNumber p) message]))) ∧
    (∀ env' : TwilioEnv, (initTwilio env').isTestMode = true ↔
      ((env'.accountSid = some "AC00000000000000000000000000000000" ∧
          env'.authToken = some "00000000000000000000000000000000") ∨
        (isSet env'.accountSid = true ∧ isSet env'.authToken = true ∧
          isSet env'.messagingServiceSid = true ∧ env'.constructorThrows = true))) := by
  obtain ⟨hc, ht⟩ := initTwilio_disabled env hmissing hpair
  refine ⟨fun phone message now => ?_, fun phones z now => ?_, fun tw p message now hp => ?_,
    fun env' => ?_⟩
  · cases phone with
    | other => rfl
    | str p => simp [sendSMS, hc, ht]
  · simp [sendRedZoneNotification, hc, ht]
  · constructor
    · intro htest
      simp [sendSMS, hp, htest]
    · intro h
      cases htest : tw.isTestMode with
      | true => rfl
      | false =>
        exfalso
        cases hclient : tw.client with
        | false => simp [sendSMS, hp, htest, hclient] at h
        | true => simp [sendSMS, hp, htest, hclient] at h
  · simp [initTwilio, and_assoc]

/-- Witness of `missing_credentials_return_nothing`: an account SID and a token without a
messaging service SID. -/
theorem missing_credentials_return_nothing_witness :
    sendSMS (initTwilio ⟨some "AC123", some "secret", none, false, fun _ _ => none⟩)
        (PhoneArg.str "9876543210") "text" 5 = (none, []) :=
  (missing_credentials_return_nothing ⟨some "AC123", some "secret", none, false, fun _ _ => none⟩
    (by decide) (by decide)).1 (PhoneArg.str "9876543210") "text" 5

/-! ## C17, C18: the text of the zone notification -/

theorem severityLabel_upper (sev : Severity) : severityLabel (some sev) = sev.upper := by
  cases sev <;> decide

theorem sendSMS_text (tw : Twilio) (phone : PhoneArg) (message : String) (now : Time) :
    ∀ e ∈ (sendSMS tw phone message now).2, e.text = message := by
  intro e he
  cases phone with
  | other => simp [sendSMS] at he
  | str p =>
    by_cases hp : p = ""
    · simp [sendSMS, hp] at he
    · cases htest : tw.isTestMode with
      | true =>
        simp [sendSMS, hp, htest] at he
        rw [he]; rfl
      | false =>
        cases hclient : tw.client with
        | false => simp [sendSMS, hp, htest, hclient] at he
        | true =>
          simp [sendSMS, hp, htest, hclient] at he
          rw [he]; rfl

theorem effects_text (tw : Twilio) (phones : List PhoneArg) (z : Zone) (now : Time) :
    ∀ e ∈ (sendRedZoneNotification tw phones z now).2, e.text = notificationMessage z := by
  intro e he
  unfold sendRedZoneNotification at he
  split at he
  · simp at he
  · split at he
    · simp at he
    · split at he
      · simp at he
      · simp only [List.mem_flatMap, List.mem_map] at he
        obtain ⟨r, ⟨phone, _, rfl⟩, hr⟩ := he
        exact sendSMS_text tw phone (notificationMessage z) now e hr

/-- C17: for every zone in status `approved` (with a title and a location), the text
built by `sendRedZoneNotification` is `ALERT: RedZone "{title}" at {location} has been
verified and approved. Severity: {SEVERITY}. Please exercise caution in this area.` with
the severity written `LOW`, `MEDIUM` or `HIGH`, and every send of the fanout carries
exactly this text. -/
theorem approved_alert_text (z : Zone) (hs : z.status = Status.approved)
    (_htitle : z.title ≠ "") (_hlocation : z.location ≠ "") :
    notificationMessage z =
        "ALERT: RedZone \"" ++ z.title ++ "\" at " ++ z.location ++
          " has been verified and approved. Severity: " ++ z.severity.upper ++
          ". Please exercise caution in this area." ∧
      ∀ (tw : Twilio) (phones : List PhoneArg) (now : Time),
        ∀ e ∈ (sendRedZoneNotification tw phones z now).2,
          e.text = "ALERT: RedZone \"" ++ z.title ++ "\" at " ++ z.location ++
            " has been verified and approved. Severity: " ++ z.severity.upper ++
            ". Please exercise caution in this area." := by
  have hmsg : notificationMessage z =
      "ALERT: RedZone \"" ++ z.title ++ "\" at " ++ z.location ++
        " has been verified and approved. Severity: " ++ z.severity.upper ++
        ". Please exercise caution in this area." := by
    simp only [notificationMessage, hs, if_true, severityLabel_upper]
  exact ⟨hmsg, fun tw phones now e he => by rw [effects_text tw phones z now e he, hmsg]⟩

/-- Witness of `approved_alert_text` on the approved sample zone. -/
theorem approved_alert_text_witness :
    notificationMessage (exReviewed Status.approved) =
      "ALERT: RedZone \"Flooded Street\" at Riverside Avenue has been verified and approved. Severity: MEDIUM. Please exercise caution in this area." :=
  (approved_alert_text (exReviewed Status.approved) rfl (by decide) (by decide)).1.trans
    (by decide)

/-- C18, as stated, fails: for the pending sample zone the text is `ALERT: New RedZone
"Flooded Street" has been reported at Riverside Avenue. ...`, which is not the approved
text with `has been reported` in place of `has been verified and approved`. -/
theorem created_alert_text_differs :
    exPending.status = Status.pending ∧
      notificationMessage exPending =
        "ALERT: New RedZone \"Flooded Street\" has been reported at Riverside Avenue. Severity: MEDIUM. Please exercise caution in this area." ∧
      notificationMessage exPending ≠
        "ALERT: RedZone \"Flooded Street\" at Riverside Avenue has been reported. Severity: MEDIUM. Please exercise caution in this area." := by
  decide

/-- C18, amended: for every zone that is not approved, the text built by
`sendRedZoneNotification` is `ALERT: New RedZone "{title}" has been reported at
{location}. Severity: {SEVERITY}. Please exercise caution in this area.`, and every send
of the fanout carries exactly this text. -/
theorem created_alert_text (z : Zone) (hs : z.status ≠ Status.approved) :
    notificationMessage z =
        "ALERT: New RedZone \"" ++ z.title ++ "\" has been reported at " ++ z.location ++
          ". Severity: " ++ z.severity.upper ++ ". Please exercise caution in this area." ∧
      ∀ (tw : Twilio) (phones : List PhoneArg) (now : Time),
        ∀ e ∈ (sendRedZoneNotification tw phones z now).2,
          e.text = "ALERT: New RedZone \"" ++ z.title ++ "\" has been reported at " ++
            z.location ++ ". Severity: " ++ z.severity.upper ++
            ". Please exercise caution in this area." := by
  have hmsg : notificationMessage z =
      "ALERT: New RedZone \"" ++ z.title ++ "\" has been reported at " ++ z.location ++
        ". Severity: " ++ z.severity.upper ++ ". Please exercise caution in this area." := by
    simp only [notificationMessage, hs, if_false, severityLabel_upper]
  exact ⟨hmsg, fun tw phones now e he => by rw [effects_text tw phones z now e he, hmsg]⟩

/-- Witness of `created_alert_text` on the pending sample zone. -/
theorem created_alert_text_witness :
    notificationMessage exPending =
      "ALERT: New RedZone \"Flooded Street\" has been reported at Riverside Avenue. Severity: MEDIUM. Please exercise caution in this area." :=
  (created_alert_text exPending (by decide)).1.trans (by decide)

/-! ## C19, C20: the recipients and the text of the handlers' notifications -/

theorem phones_filter_map (db : Db) :
    (db.contacts.map (fun contact => contact.phone)).filter (fun phone => phone ≠ "") =
      fanoutPhones db := by
  unfold fanoutPhones
  rw [List.filter_map]
  rfl

theorem safeNowHandler_dispatched {db : Db} {actor : User} {id : ZoneId} {z : Zone}
    (now : Time) (hmod : actor.role = Role.admin) (hz : Zone.findById db id = some z) :
    (safeNowHandler db actor id now).dispatched =
      if db.contactsUp then
        (fanoutPhones db).map (fun p => Dispatch.sms p (safeMessage (z.markSafe now)))
      else [] := by
  rw [← phones_filter_map]
  simp only [safeNowHandler, hmod, hz, Zone.markSafe, UserContact.find, Zone.save,
    Zone.findById_cast hz]
  simp only [ne_eq, not_true_eq_false, if_false]
  cases hup : db.contactsUp
  · simp
  · cases hc : db.contacts with
    | nil => simp
    | cons c cs =>
      simp only [if_true, List.length_cons, Nat.zero_lt_succ]
      split
      · rename_i hlen
        rw [List.length_eq_zero] at hlen
        rw [hlen]
        rfl
      · rfl

theorem approveHandler_fanout_phones (db : Db) (actor : User) (id : ZoneId) (now : Time)
    (phones : List String) (zone : Zone)
    (h : Dispatch.redZoneNotification phones zone ∈ (approveHandler db actor id now).dispatched) :
    phones = fanoutPhones db := by
  rw [← phones_filter_map]
  unfold approveHandler at h
  split at h
  · simp at h
  · split at h
    · simp at h
    · split at h
      · simp at h
      · dsimp only at h
        split at h
        · simp at h
        · simp only [UserContact.find, Zone.save] at h
          split at h
          · simp at h
          · rename_i userContacts hfind
            have hcontacts : userContacts = db.contacts := by
              by_cases hup : db.contactsUp = true
              · simp [hup] at hfind
                exact hfind.symm
              · simp [hup] at hfind
            subst hcontacts
            split at h
            · simp at h
            · simp only [List.mem_append] at h
              rcases h with h | h
              · split at h
                · simp only [List.mem_singleton, Dispatch.redZoneNotification.injEq] at h
                  exact h.1
                · simp at h
              · obtain ⟨p, m, hpm⟩ := notifyReporter_calls _ _ _ _ h
                cases hpm

theorem createHandler_fanout (db : Db) (actor : User) (body : CreateBody) (newId : ZoneId)
    (now : Time) (phones : List String) (zone : Zone)
    (h : Dispatch.redZoneNotification phones zone ∈
      (createHandler db actor body newId now).dispatched) :
    phones = db.contacts.map (fun contact => contact.phone) ∧ zone.schemaValid = true := by
  unfold createHandler at h
  split at h
  · split at h
    · simp at h
    · split at h
      · simp at h
      · rename_i title description location severity _ _ _ _ _ _ sev _
        dsimp only at h
        by_cases hv : (!(buildRedZone actor body title description location sev newId
            now).schemaValid || (Zone.stored db newId).isSome) = true
        · rw [if_pos hv] at h
          simp at h
        · rw [if_neg hv] at h
          simp only [createFanout, UserContact.find] at h
          have hvalid : (buildRedZone actor body title description location sev newId
              now).schemaValid = true := by
            cases hsv : (buildRedZone actor body title description location sev newId
              now).schemaValid with
            | true => rfl
            | false => simp [hsv] at hv
          split at h
          · split at h
            · simp at h
            · rename_i userContacts hfind
              have hcontacts : userContacts = db.contacts := by
                by_cases hup : db.contactsUp = true
                · simp [hup] at hfind
                  exact hfind.symm
                · simp [hup] at hfind
              subst hcontacts
              split at h
              · simp only [List.mem_singleton, Dispatch.redZoneNotification.injEq] at h
                exact ⟨h.1, by rw [h.2]; exact hvalid⟩
              · simp at h
          · simp at h
  · simp at h

theorem sendSMS_recipient {tw : Twilio} (henabled : tw.client = true ∨ tw.isTestMode = true)
    (p : String) (message : String) (now : Time) :
    (sendSMS tw (PhoneArg.str p) message now).2.map SendEffect.recipient =
      if p ≠ "" then [formatNumber p] else [] := by
  by_cases hp : p = ""
  · simp [sendSMS, hp]
  · cases htest : tw.isTestMode with
    | true => simp [sendSMS, hp, htest, SendEffect.recipient]
    | false =>
      have hclient : tw.client = true := by
        rcases henabled with h | h
        · exact h
        · rw [htest] at h; cases h
      simp [sendSMS, hp, htest, hclient, SendEffect.recipient]

theorem sends_recipients {tw : Twilio} (henabled : tw.client = true ∨ tw.isTestMode = true)
    (message : String) (now : Time) :
    ∀ phones : List String,
      (((phones.map PhoneArg.str).map (fun phone => sendSMS tw phone message now)).flatMap
          (fun r => r.2)).map SendEffect.recipient =
        (phones.filter (fun p => p ≠ "")).map formatNumber
  | [] => rfl
  | p :: ps => by
    have ih := sends_recipients henabled message now ps
    have hp := sendSMS_recipient henabled p message now
    simp only [List.map_cons, List.flatMap_cons, List.map_append, ih, hp]
    by_cases hne : p = ""
    · simp [hne]
    · simp [hne]

/-- With sending enabled (a client or test mode) and a zone with title and location, the
numbers `sendRedZoneNotification` addresses are the formatted non-empty phones of the
array, in order. -/
theorem sendRedZoneNotification_recipients {tw : Twilio}
    (henabled : tw.client = true ∨ tw.isTestMode = true) {z : Zone}
    (htitle : z.title ≠ "") (hlocation : z.location ≠ "") (phones : List String) (now : Time) :
    (sendRedZoneNotification tw (phones.map PhoneArg.str) z now).2.map SendEffect.recipient =
      (phones.filter (fun p => p ≠ "")).map formatNumber := by
  have h := sends_recipients henabled (notificationMessage z) now phones
  have hoff : (!tw.client && !tw.isTestMode) = false := by
    rcases henabled with h | h <;> simp [h]
  cases phones with
  | nil => simp [sendRedZoneNotification]
  | cons p ps =>
    simp only [sendRedZoneNotification, hoff, htitle, hlocation]
    simp only [Bool.false_eq_true, if_false, List.length_map, List.length_cons,
      Nat.add_one_ne_zero, or_self]
    exact h

theorem schemaValid_title {z : Zone} (h : z.schemaValid = true) :
    z.title ≠ "" ∧ z.location ≠ "" := by
  simp only [Zone.schemaValid, Bool.and_eq_true, decide_eq_true_eq] at h
  exact ⟨h.1.1.1.1, h.2⟩

/-- C19: a moderator marks a stored zone safe while the contacts can be read and at
least one of them has a non-empty phone. The handler then starts one `sendSMS` call for
every non-empty phone of the contacts (at least one), each with the text `SAFETY UPDATE:
The area "{title}" at {location} is now marked as SAFE by authorities. You can resume
normal activities in this area.` for the title and location of the zone, and every send
made by these calls carries exactly this text. -/
theorem safe_update_text (db : Db) (userId : UserId) (actor : User) (id : ZoneId) (z : Zone)
    (now : Time) (hactor : User.findById db userId = some actor)
    (hmod : actor.role = Role.admin) (hz : Zone.findById db id = some z)
    (hup : db.contactsUp = true) (hphone : ∃ c ∈ db.contacts, c.phone ≠ "") :
    ∃ o : Outcome, handle db (putRequest id "safe-now" userId now) = some o ∧
      o.dispatched = (fanoutPhones db).map (fun p => Dispatch.sms p (safeText z.title z.location)) ∧
      o.dispatched ≠ [] ∧
      ∀ (tw : Twilio) (later : Time), ∀ d ∈ o.dispatched, ∀ e ∈ d.effects tw later,
        e.text = safeText z.title z.location := by
  have hd : (safeNowHandler db actor id now).dispatched =
      (fanoutPhones db).map (fun p => Dispatch.sms p (safeText z.title z.location)) := by
    rw [safeNowHandler_dispatched now hmod hz, hup]
    rfl
  refine ⟨safeNowHandler db actor id now, ?_, hd, ?_, ?_⟩
  · rw [handle_safeNow, auth_valid hactor]
  · obtain ⟨c, hc, hcp⟩ := hphone
    have hmem : c.phone ∈ fanoutPhones db := by
      simp only [fanoutPhones, List.mem_map, List.mem_filter]
      exact ⟨c, ⟨hc, by simpa using hcp⟩, rfl⟩
    rw [hd]
    intro hnil
    rw [List.map_eq_nil_iff] at hnil
    rw [hnil] at hmem
    simp at hmem
  · intro tw later d hdm e he
    rw [hd, List.mem_map] at hdm
    obtain ⟨p, _, rfl⟩ := hdm
    exact sendSMS_text tw (PhoneArg.str p) _ later e he

/-- Witness of `safe_update_text`: the approved sample zone, an active contact and a
contact whose removal was requested. -/
theorem safe_update_text_witness :
    ∃ o : Outcome,
      handle (exDb (exReviewed Status.approved)
          [exContact 2 "9876543210", exLeaving 3 "9123456780"])
        (putRequest exId "safe-now" 1 50) = some o ∧
      o.dispatched =
        [Dispatch.sms "9876543210"
            "SAFETY UPDATE: The area \"Flooded Street\" at Riverside Avenue is now marked as SAFE by authorities. You can resume normal activities in this area.",
          Dispatch.sms "9123456780"
            "SAFETY UPDATE: The area \"Flooded Street\" at Riverside Avenue is now marked as SAFE by authorities. You can resume normal activities in this area."] := by
  obtain ⟨o, ho, hd, _⟩ := safe_update_text
    (exDb (exReviewed Status.approved) [exContact 2 "9876543210", exLeaving 3 "9123456780"])
    1 exAdmin exId (exReviewed Status.approved) 50 (by decide) (by decide) (by decide)
    (by decide) ⟨exContact 2 "9876543210", by decide, by decide⟩
  exact ⟨o, ho, hd.trans (by decide)⟩

/-- A valid submission of a moderator with `status: 'approved'`, while the contacts can be
read and there is at least one: `POST /` answers 201 with the approved zone and starts one
`sendRedZoneNotification` call on the phones of all contacts. -/
theorem createHandler_dispatches (db : Db) (actor : User) (body : CreateBody) (newId : ZoneId)
    (now : Time) (hmod : actor.role = Role.admin) (hstatus : body.status = some "approved")
    (hvalid : validSubmission db body newId) (hup : db.contactsUp = true)
    (hne : db.contacts ≠ []) :
    ∃ zone, zone.status = Status.approved ∧
      (createHandler db actor body newId now).response =
        some ⟨201, true, "RedZone created and approved successfully.", some zone⟩ ∧
      (createHandler db actor body newId now).dispatched =
        [Dispatch.redZoneNotification (db.contacts.map (fun c => c.phone)) zone] := by
  obtain ⟨title, description, location, severity, sev, ht, hdsc, hl, hs, ht0, hd0, hl0, hs0,
    hsev, htt, htl, hdt, hdl, hlt, hfresh⟩ := hvalid
  have hv : (buildRedZone actor body title description location sev newId now).schemaValid
      = true := by
    simp [Zone.schemaValid, buildRedZone, htt, htl, hdt, hdl, hlt]
  have hst : (buildRedZone actor body title description location sev newId now).status =
      Status.approved := by
    simp [buildRedZone, hmod, hstatus]
  have hlen : 0 < db.contacts.length := List.length_pos.mpr hne
  refine ⟨buildRedZone actor body title description location sev newId now, hst, ?_, ?_⟩
  · simp [createHandler, ht, hdsc, hl, hs, ht0, hd0, hl0, hs0, hsev, hv, hfresh, hst]
  · simp [createHandler, ht, hdsc, hl, hs, ht0, hd0, hl0, hs0, hsev, hv, hfresh, hst,
      createFanout, hmod, UserContact.find, hup, hlen]

theorem fanoutPhones_withContactStatus (f : UserContact → ContactStatus) (db : Db) :
    fanoutPhones (withContactStatus f db) = fanoutPhones db := by
  simp only [fanoutPhones, withContactStatus, List.filter_map, List.map_map]
  rfl

/-- C20: the recipients of a fanout are the phones of all stored contacts that have a
non-empty phone, whatever the status of the contact. The phone of every such contact
(active or `pending_removal`) is in the list, and changing the statuses of the contacts
does not change the list. The safe-now handler starts its `sendSMS` calls on exactly this
list. The approve handler (the one that notifies), run by a moderator on a stored zone with
title and location while the contacts can be read and one has a phone, starts exactly one
`sendRedZoneNotification` call, on exactly this list; `POST /` by a moderator with
`status: 'approved'` and a valid submission, while the contacts can be read and there is at
least one, starts exactly one `sendRedZoneNotification` call, on the phones of all
contacts, whose non-empty entries are this list, and with sending enabled the call
addresses exactly the formatted numbers of this list. No handler starts a
`sendRedZoneNotification` call on another list. -/
theorem fanout_recipients_ignore_status (db : Db) :
    (∀ c ∈ db.contacts, c.phone ≠ "" → c.phone ∈ fanoutPhones db) ∧
    (∀ f : UserContact → ContactStatus, fanoutPhones (withContactStatus f db) = fanoutPhones db) ∧
    (∀ (actor : User) (id : ZoneId) (z : Zone) (now : Time),
      actor.role = Role.admin → Zone.findById db id = some z →
      (safeNowHandler db actor id now).dispatched =
        if db.contactsUp then
          (fanoutPhones db).map (fun p => Dispatch.sms p (safeText z.title z.location))
        else []) ∧
    (∀ (actor : User) (id : ZoneId) (now : Time) (phones : List String) (zone : Zone),
      Dispatch.redZoneNotification phones zone ∈ (approveHandler db actor id now).dispatched →
      phones = fanoutPhones db) ∧
    (∀ (actor : User) (body : CreateBody) (newId : ZoneId) (now : Time)
      (phones : List String) (zone : Zone),
      Dispatch.redZoneNotification phones zone ∈
        (createHandler db actor body newId now).dispatched →
      phones = db.contacts.map (fun c => c.phone) ∧
      phones.filter (fun p => p ≠ "") = fanoutPhones db ∧
      ∀ (tw : Twilio) (later : Time), tw.client = true ∨ tw.isTestMode = true →
        ((Dispatch.redZoneNotification phones zone).effects tw later).map SendEffect.recipient =
          (fanoutPhones db).map formatNumber) ∧
    (∀ (actor : User) (id : ZoneId) (z : Zone) (now : Time),
      actor.role = Role.admin → Zone.findById db id = some z →
      z.title ≠ "" → z.location ≠ "" → db.contactsUp = true →
      (∃ c ∈ db.contacts, c.phone ≠ "") →
      ∃ calls, (approveHandler db actor id now).dispatched =
          Dispatch.redZoneNotification (fanoutPhones db)
            (z.review Status.approved actor._id now) :: calls ∧
        ∀ d ∈ calls, ∃ p m, d = Dispatch.sms p m) ∧
    (∀ (actor : User) (body : CreateBody) (newId : ZoneId) (now : Time),
      actor.role = Role.admin → body.status = some "approved" →
      validSubmission db body newId → db.contactsUp = true → db.contacts ≠ [] →
      ∃ zone, zone.status = Status.approved ∧
        (createHandler db actor body newId now).dispatched =
          [Dispatch.redZoneNotification (db.contacts.map (fun c => c.phone)) zone] ∧
        ∀ (tw : Twilio) (later : Time), tw.client = true ∨ tw.isTestMode = true →
          ((createHandler db actor body newId now).dispatched.flatMap
              (fun d => d.effects tw later)).map SendEffect.recipient =
            (fanoutPhones db).map formatNumber) := by
  have hcreate : ∀ (actor : User) (body : CreateBody) (newId : ZoneId) (now : Time)
      (phones : List String) (zone : Zone),
      Dispatch.redZoneNotification phones zone ∈
        (createHandler db actor body newId now).dispatched →
      phones = db.contacts.map (fun c => c.phone) ∧
      phones.filter (fun p => p ≠ "") = fanoutPhones db ∧
      ∀ (tw : Twilio) (later : Time), tw.client = true ∨ tw.isTestMode = true →
        ((Dispatch.redZoneNotification phones zone).effects tw later).map SendEffect.recipient =
          (fanoutPhones db).map formatNumber := by
    intro actor body newId now phones zone h
    obtain ⟨hphones, hvalid⟩ := createHandler_fanout db actor body newId now phones zone h
    obtain ⟨htitle, hlocation⟩ := schemaValid_title hvalid
    have hfilter : phones.filter (fun p => p ≠ "") = fanoutPhones db := by
      rw [hphones]; exact phones_filter_map db
    refine ⟨hphones, hfilter, fun tw later henabled => ?_⟩
    simp only [Dispatch.effects]
    rw [sendRedZoneNotification_recipients henabled htitle hlocation phones later, hfilter]
  refine ⟨fun c hc hcp => ?_, fun f => fanoutPhones_withContactStatus f db,
    fun actor id z now hmod hz => ?_,
    fun actor id now phones zone h => approveHandler_fanout_phones db actor id now phones zone h,
    hcreate, fun actor id z now hmod hz ht hl hup hph => ?_,
    fun actor body newId now hmod hstatus hvalid hup hne => ?_⟩
  · simp only [fanoutPhones, List.mem_map, List.mem_filter]
    exact ⟨c, ⟨hc, by simpa using hcp⟩, rfl⟩
  · rw [safeNowHandler_dispatched now hmod hz]
    rfl
  · rw [← phones_filter_map]
    exact approveHandler_fanout now hmod hz ht hl hup hph
  · obtain ⟨zone, hst, _, hd⟩ :=
      createHandler_dispatches db actor body newId now hmod hstatus hvalid hup hne
    refine ⟨zone, hst, hd, fun tw later henabled => ?_⟩
    have hmem : Dispatch.redZoneNotification (db.contacts.map (fun c => c.phone)) zone ∈
        (createHandler db actor body newId now).dispatched := by
      rw [hd]; exact List.mem_singleton.mpr rfl
    rw [hd, List.flatMap_singleton]
    exact (hcreate actor body newId now _ zone hmem).2.2 tw later henabled

/-- Witness of `fanout_recipients_ignore_status` on the sample database with an active
contact and a contact whose removal was requested: the phone of the latter is a recipient;
safe-now addresses both phones; the approve handler starts `sendRedZoneNotification` on
both phones; `POST /` of a moderator with `status: 'approved'` starts
`sendRedZoneNotification` on both phones. -/
theorem fanout_recipients_ignore_status_witness :
    "9123456780" ∈ fanoutPhones exContactsDb ∧
      (safeNowHandler exContactsDb exAdmin exId 50).dispatched =
        [Dispatch.sms "9876543210" (safeText "Flooded Street" "Riverside Avenue"),
          Dispatch.sms "9123456780" (safeText "Flooded Street" "Riverside Avenue")] ∧
      (∃ calls, (approveHandler exContactsDb exAdmin exId 50).dispatched =
          Dispatch.redZoneNotification ["9876543210", "9123456780"]
            (exPending.review Status.approved 1 50) :: calls ∧
        ∀ d ∈ calls, ∃ p m, d = Dispatch.sms p m) ∧
      (∃ zone, zone.status = Status.approved ∧
        (createHandler exContactsDb exAdmin { exBody with status := some "approved" }
            exUnknownId 60).dispatched =
          [Dispatch.redZoneNotification ["9876543210", "9123456780"] zone] ∧
        ∀ (tw : Twilio) (later : Time), tw.client = true ∨ tw.isTestMode = true →
          ((createHandler exContactsDb exAdmin { exBody with status := some "approved" }
              exUnknownId 60).dispatched.flatMap
              (fun d => d.effects tw later)).map SendEffect.recipient =
            ["+919876543210", "+919123456780"]) :=
  ⟨(fanout_recipients_ignore_status exContactsDb).1
      (exLeaving 3 "9123456780") (by decide) (by decide),
    ((fanout_recipients_ignore_status exContactsDb).2.2.1
      exAdmin exId exPending 50 (by decide) (by decide)).trans (by decide),
    (fanout_recipients_ignore_status exContactsDb).2.2.2.2.2.1
      exAdmin exId exPending 50 (by decide) (by decide) (by decide) (by decide) (by decide)
      ⟨exLeaving 3 "9123456780", by decide, by decide⟩,
    (fanout_recipients_ignore_status exContactsDb).2.2.2.2.2.2
      exAdmin { exBody with status := some "approved" } exUnknownId 60 (by decide) rfl
      ⟨"Flooded Street", "Street completely flooded after heavy rainfall.", "Riverside Avenue",
        "medium", Severity.medium, rfl, rfl, rfl, rfl, by decide, by decide, by decide,
        by decide, by decide, by decide, by decide, by decide, by decide, by decide, by decide⟩
      (by decide) (by decide)⟩

/-! ## The loop and the rule of `checkCurrentStatus` -/

theorem nearest_append {Z D : Type} [LinearOrder D] (distance : Z → Option D)
    (severity : Z → String) (zones : List Z) (zone : Z) :
    nearest distance severity (zones ++ [zone]) =
      nearestStep distance severity (nearest distance severity zones) zone := by
  simp [nearest, List.foldl_append]

theorem nearestStep_nan {Z D : Type} [LinearOrder D] (distance : Z → Option D)
    (severity : Z → String) (acc : Option D × String) {zone : Z} (h : distance zone = none) :
    nearestStep distance severity acc zone = acc := by
  simp [nearestStep, h]

theorem nearestStep_first {Z D : Type} [LinearOrder D] (distance : Z → Option D)
    (severity : Z → String) (nearestSeverity : String) {zone : Z} {d : D}
    (h : distance zone = some d) :
    nearestStep distance severity (none, nearestSeverity) zone = (some d, severity zone) := by
  simp [nearestStep, h]

theorem nearestStep_lt {Z D : Type} [LinearOrder D] (distance : Z → Option D)
    (severity : Z → String) (nearestSeverity : String) {zone : Z} {d nearestDistance : D}
    (h : distance zone = some d) (hlt : d < nearestDistance) :
    nearestStep distance severity (some nearestDistance, nearestSeverity) zone =
      (some d, severity zone) := by
  simp [nearestStep, h, hlt]

theorem nearestStep_ge {Z D : Type} [LinearOrder D] (distance : Z → Option D)
    (severity : Z → String) (nearestSeverity : String) {zone : Z} {d nearestDistance : D}
    (h : distance zone = some d) (hge : ¬ d < nearestDistance) :
    nearestStep distance severity (some nearestDistance, nearestSeverity) zone =
      (some nearestDistance, nearestSeverity) := by
  simp [nearestStep, h, hge]

/-- Zones whose distance is `NaN` leave the loop of `checkCurrentStatus` where it was. -/
theorem foldl_nearestStep_filter {Z D : Type} [LinearOrder D] (distance : Z → Option D)
    (severity : Z → String) :
    ∀ (zones : List Z) (acc : Option D × String),
      zones.foldl (nearestStep distance severity) acc =
        (zones.filter (fun z => (distance z).isSome)).foldl (nearestStep distance severity) acc
  | [], _ => rfl
  | z :: zs, acc => by
    cases h : distance z with
    | none =>
      simp only [List.foldl_cons, List.filter_cons, h, Option.isSome_none, Bool.false_eq_true,
        if_false, nearestStep_nan distance severity acc h]
      exact foldl_nearestStep_filter distance severity zs acc
    | some d =>
      simp only [List.foldl_cons, List.filter_cons, h, Option.isSome_some, if_true]
      exact foldl_nearestStep_filter distance severity zs _

theorem nearest_filter {Z D : Type} [LinearOrder D] (distance : Z → Option D)
    (severity : Z → String) (zones : List Z) :
    nearest distance severity zones =
      nearest distance severity (zones.filter (fun z => (distance z).isSome)) :=
  foldl_nearestStep_filter distance severity zones _

theorem nearest_unmeasured {Z D : Type} [LinearOrder D] (distance : Z → Option D)
    (severity : Z → String) (zones : List Z) (h : ∀ z ∈ zones, distance z = none) :
    nearest distance severity zones = (none, "safe") := by
  rw [nearest_filter]
  have hnil : zones.filter (fun z => (distance z).isSome) = [] := by
    rw [List.filter_eq_nil_iff]
    intro z hz
    simp [h z hz]
  rw [hnil]
  rfl

/-- What the loop of `checkCurrentStatus` returns on a list in which some zone has a
distance that is a number: the distance and the severity of a zone that is strictly nearer
than every measured zone before it in the list and at least as near as every measured zone
after it. -/
theorem nearest_split {Z D : Type} [LinearOrder D] (distance : Z → Option D)
    (severity : Z → String) (zones : List Z)
    (hne : ∃ z ∈ zones, (distance z).isSome = true) :
    ∃ (before : List Z) (zone : Z) (after : List Z) (d : D),
      zones = before ++ zone :: after ∧ distance zone = some d ∧
      (∀ z ∈ before, ∀ dz, distance z = some dz → d < dz) ∧
      (∀ z ∈ after, ∀ dz, distance z = some dz → d ≤ dz) ∧
      nearest distance severity zones = (some d, severity zone) := by
  induction zones using List.reverseRecOn with
  | nil =>
    obtain ⟨z, hz, _⟩ := hne
    simp at hz
  | append_singleton l a ih =>
    rw [nearest_append]
    by_cases hl : ∃ z ∈ l, (distance z).isSome = true
    · obtain ⟨before, zone, after, d, hsplit, hd, hbefore, hafter, hnear⟩ := ih hl
      rw [hnear]
      cases ha : distance a with
      | none =>
        refine ⟨before, zone, after ++ [a], d, by simp [hsplit], hd, hbefore, ?_,
          nearestStep_nan distance severity _ ha⟩
        intro z hz dz hdz
        rcases List.mem_append.mp hz with hz | hz
        · exact hafter z hz dz hdz
        · rw [List.mem_singleton] at hz
          rw [hz, ha] at hdz
          cases hdz
      | some da =>
        by_cases hlt : da < d
        · refine ⟨l, a, [], da, rfl, ha, ?_, by simp,
            nearestStep_lt distance severity _ ha hlt⟩
          intro z hz dz hdz
          rw [hsplit] at hz
          rcases List.mem_append.mp hz with hz | hz
          · exact lt_trans hlt (hbefore z hz dz hdz)
          · rcases List.mem_cons.mp hz with rfl | hz
            · rw [hd] at hdz
              cases hdz
              exact hlt
            · exact lt_of_lt_of_le hlt (hafter z hz dz hdz)
        · refine ⟨before, zone, after ++ [a], d, by simp [hsplit], hd, hbefore, ?_,
            nearestStep_ge distance severity _ ha hlt⟩
          intro z hz dz hdz
          rcases List.mem_append.mp hz with hz | hz
          · exact hafter z hz dz hdz
          · rw [List.mem_singleton] at hz
            rw [hz, ha] at hdz
            cases hdz
            exact not_lt.mp hlt
    · have hnone : ∀ z ∈ l, distance z = none := by
        intro z hz
        cases hdz : distance z with
        | none => rfl
        | some dz => exact absurd ⟨z, hz, by simp [hdz]⟩ hl
      obtain ⟨z, hz, hzs⟩ := hne
      have hza : z = a := by
        rcases List.mem_append.mp hz with hz | hz
        · rw [hnone z hz] at hzs
          cases hzs
        · exact List.mem_singleton.mp hz
      subst hza
      obtain ⟨da, ha⟩ := Option.isSome_iff_exists.mp hzs
      rw [nearest_unmeasured distance severity l hnone]
      refine ⟨l, z, [], da, rfl, ha, ?_, by simp, nearestStep_first distance severity _ ha⟩
      intro y hy dy hdy
      rw [hnone y hy] at hdy
      cases hdy

theorem statusOf_eq_referenceTier {D : Type} [LinearOrderedField D] (d : D)
    (severity : String) : statusOf (some d) severity = referenceTier d severity := by
  unfold statusOf referenceTier
  by_cases h1 : d < 1 / 2
  · by_cases h2 : severity = "high"
    · simp only [if_pos h1, if_pos h2, if_pos (And.intro h1 h2)]
    · simp only [if_pos h1, if_neg h2, if_neg (fun h : d < 1 / 2 ∧ severity = "high" => h2 h.2),
        if_pos (And.intro h1 h2)]
  · have h1' : 1 / 2 ≤ d := not_lt.mp h1
    by_cases h3 : d < 2
    · simp only [if_neg h1, if_pos h3,
        if_neg (fun h : d < 1 / 2 ∧ severity = "high" => h1 h.1),
        if_neg (fun h : d < 1 / 2 ∧ severity ≠ "high" => h1 h.1), if_pos (And.intro h1' h3)]
    · simp only [if_neg h1, if_neg h3,
        if_neg (fun h : d < 1 / 2 ∧ severity = "high" => h1 h.1),
        if_neg (fun h : d < 1 / 2 ∧ severity ≠ "high" => h1 h.1),
        if_neg (fun h : 1 / 2 ≤ d ∧ d < 2 => h3 h.2)]

theorem calculateDistance_self (lat lng : ℝ) : calculateDistance lat lng lat lng = 0 := by
  have h : (⟨1, 0⟩ : ℂ) = 1 := rfl
  simp [calculateDistance, atan2, h]

theorem calculateDistance_nonneg (lat1 lng1 lat2 lng2 : ℝ) :
    0 ≤ calculateDistance lat1 lng1 lat2 lng2 := by
  unfold calculateDistance atan2
  have harg : ∀ x y : ℝ, 0 ≤ y → 0 ≤ Complex.arg ⟨x, y⟩ := fun x y hy =>
    Complex.arg_nonneg_iff.mpr hy
  have := harg (Real.sqrt (1 - (Real.sin ((lat2 - lat1) * Real.pi / 180 / 2) *
      Real.sin ((lat2 - lat1) * Real.pi / 180 / 2) +
    Real.cos (lat1 * Real.pi / 180) * Real.cos (lat2 * Real.pi / 180) *
      Real.sin ((lng2 - lng1) * Real.pi / 180 / 2) *
      Real.sin ((lng2 - lng1) * Real.pi / 180 / 2))))
    (Real.sqrt (Real.sin ((lat2 - lat1) * Real.pi / 180 / 2) *
      Real.sin ((lat2 - lat1) * Real.pi / 180 / 2) +
    Real.cos (lat1 * Real.pi / 180) * Real.cos (lat2 * Real.pi / 180) *
      Real.sin ((lng2 - lng1) * Real.pi / 180 / 2) *
      Real.sin ((lng2 - lng1) * Real.pi / 180 / 2))) (Real.sqrt_nonneg _)
  simp only
  positivity

theorem statusOf_near_high {D : Type} [LinearOrderedField D] {d : D} (h : d < 1 / 2) :
    statusOf (some d) "high" = Tier.danger := by
  unfold statusOf
  simp only [if_pos h, if_true]

theorem statusOf_near_other {D : Type} [LinearOrderedField D] {d : D} (h : d < 1 / 2)
    {severity : String} (hs : severity ≠ "high") :
    statusOf (some d) severity = Tier.warning := by
  unfold statusOf
  simp only [if_pos h, if_neg hs]

theorem statusOf_middle {D : Type} [LinearOrderedField D] {d : D} (h1 : ¬ d < 1 / 2)
    (h2 : d < 2) (severity : String) : statusOf (some d) severity = Tier.warning := by
  unfold statusOf
  simp only [if_neg h1, if_pos h2]

theorem statusOf_far {D : Type} [LinearOrderedField D] {d : D} (h1 : ¬ d < 1 / 2)
    (h2 : ¬ d < 2) (severity : String) : statusOf (some d) severity = Tier.safe := by
  unfold statusOf
  simp only [if_neg h1, if_neg h2]

theorem zoneDistance_numbers (lat lng : ℝ) (zone : MapZone) {la ln : ℝ}
    (hlat : zone.position.lat = Coord.number la) (hlng : zone.position.lng = Coord.number ln) :
    zoneDistance lat lng zone = some (calculateDistance lat lng la ln) := by
  simp [zoneDistance, hlat, hlng, toNumber]

theorem zoneDistance_of_hasCoordinates (lat lng : ℝ) (zone : MapZone)
    (h : zone.hasCoordinates = true) :
    ∃ la ln, zone.position = ⟨Coord.number la, Coord.number ln⟩ ∧
      zoneDistance lat lng zone = some (calculateDistance lat lng la ln) := by
  obtain ⟨id, name, ⟨la, ln⟩, severity, description⟩ := zone
  cases la <;> cases ln <;> simp [MapZone.hasCoordinates, Coord.isNumber] at h
  exact ⟨_, _, rfl, zoneDistance_numbers lat lng _ rfl rfl⟩

/-- The distance to a zone of which a coordinate is absent is `NaN`. -/
theorem zoneDistance_undefined (lat lng : ℝ) (zone : MapZone)
    (h : zone.position.lat = Coord.undefined ∨ zone.position.lng = Coord.undefined) :
    zoneDistance lat lng zone = none := by
  obtain ⟨id, name, ⟨la, ln⟩, severity, description⟩ := zone
  rcases h with h | h
  · simp only at h
    subst h
    cases ln <;> rfl
  · simp only at h
    subst h
    cases la <;> rfl

/-- The distance to a zone whose coordinates are `null` is the distance to the point
`(0, 0)`. -/
theorem zoneDistance_null (lat lng : ℝ) (zone : MapZone)
    (hlat : zone.position.lat = Coord.null) (hlng : zone.position.lng = Coord.null) :
    zoneDistance lat lng zone = some (calculateDistance lat lng 0 0) := by
  simp [zoneDistance, hlat, hlng, toNumber]

/-- For a zone with no `null` coordinate, to have a distance that is a number is to have
coordinates. -/
theorem isSome_zoneDistance (lat lng : ℝ) (zone : MapZone)
    (hnull : zone.position.lat ≠ Coord.null ∧ zone.position.lng ≠ Coord.null) :
    (zoneDistance lat lng zone).isSome = zone.hasCoordinates := by
  obtain ⟨id, name, ⟨la, ln⟩, severity, description⟩ := zone
  obtain ⟨h1, h2⟩ := hnull
  cases la <;> cases ln <;>
    first
    | exact absurd rfl h1
    | exact absurd rfl h2
    | rfl

theorem checkCurrentStatus_singleton (zone : MapZone) (lat lng : ℝ) {d : ℝ}
    (h : zoneDistance lat lng zone = some d) :
    checkCurrentStatus [zone] lat lng = statusOf (some d) zone.severity := by
  unfold checkCurrentStatus checkWith nearest
  simp only [List.foldl, nearestStep_first _ _ _ h]

theorem checkCurrentStatus_pair_tie (first second : MapZone) (lat lng : ℝ) {d1 d2 : ℝ}
    (h1 : zoneDistance lat lng first = some d1) (h2 : zoneDistance lat lng second = some d2)
    (h : ¬ d2 < d1) :
    checkCurrentStatus [first, second] lat lng = statusOf (some d1) first.severity := by
  unfold checkCurrentStatus checkWith nearest
  simp only [List.foldl, nearestStep_first _ _ _ h1, nearestStep_ge _ _ _ h2 h]

/-! ## C21: the tier and the reference rule -/

/-- C21: for every point and every list of zones with coordinates, the status set by
`checkCurrentStatus` is `safe` when the list is empty, and otherwise it is the reference
rule applied to the distance `d` and the severity `s` of a zone of the list whose
(haversine) distance to the point is minimal over the list; the distance of every zone of
the list is `calculateDistance` from the point to its coordinates. -/
theorem tier_follows_reference_rule (redZones : List MapZone) (lat lng : ℝ)
    (hcoords : ∀ z ∈ redZones, z.hasCoordinates = true) :
    (redZones = [] → checkCurrentStatus redZones lat lng = Tier.safe) ∧
    (redZones ≠ [] → ∃ zone ∈ redZones, ∃ d, zoneDistance lat lng zone = some d ∧
      (∀ z ∈ redZones, ∃ dz, zoneDistance lat lng z = some dz ∧ d ≤ dz) ∧
      checkCurrentStatus redZones lat lng = referenceTier d zone.severity) ∧
    (∀ z ∈ redZones, ∃ la ln, z.position = ⟨Coord.number la, Coord.number ln⟩ ∧
      zoneDistance lat lng z = some (calculateDistance lat lng la ln)) := by
  have hdist : ∀ z ∈ redZones, ∃ la ln, z.position = ⟨Coord.number la, Coord.number ln⟩ ∧
      zoneDistance lat lng z = some (calculateDistance lat lng la ln) :=
    fun z hz => zoneDistance_of_hasCoordinates lat lng z (hcoords z hz)
  refine ⟨?_, ?_, hdist⟩
  · intro h
    rw [h]
    rfl
  · intro hne
    have hsome : ∃ z ∈ redZones, (zoneDistance lat lng z).isSome = true := by
      obtain ⟨z, hz⟩ := List.exists_mem_of_ne_nil redZones hne
      obtain ⟨la, ln, _, hd⟩ := hdist z hz
      exact ⟨z, hz, by rw [hd]; rfl⟩
    obtain ⟨before, zone, after, d, hsplit, hd, hbefore, hafter, hnear⟩ :=
      nearest_split (zoneDistance lat lng) (fun zone => zone.severity) redZones hsome
    refine ⟨zone, by rw [hsplit]; simp, d, hd, ?_, ?_⟩
    · intro z hz
      obtain ⟨la, ln, _, hdz⟩ := hdist z hz
      refine ⟨_, hdz, ?_⟩
      rw [hsplit] at hz
      rcases List.mem_append.mp hz with hz | hz
      · exact le_of_lt (hbefore z hz _ hdz)
      · rcases List.mem_cons.mp hz with rfl | hz
        · rw [hd] at hdz
          cases hdz
          exact le_refl _
        · exact hafter z hz _ hdz
    · unfold checkCurrentStatus checkWith
      rw [hnear]
      exact statusOf_eq_referenceTier _ _

/-- Witness of `tier_follows_reference_rule` on the zones `mockRedZones` of the page and
the point of the first of them. -/
theorem tier_follows_reference_rule_witness :
    ∃ zone ∈ mockRedZones, ∃ d, zoneDistance 19.0769 83.7603 zone = some d ∧
      (∀ z ∈ mockRedZones, ∃ dz, zoneDistance 19.0769 83.7603 z = some dz ∧ d ≤ dz) ∧
      checkCurrentStatus mockRedZones 19.0769 83.7603 = referenceTier d zone.severity :=
  (tier_follows_reference_rule mockRedZones 19.0769 83.7603 (by simp [mockRedZones,
    MapZone.hasCoordinates, Coord.isNumber])).2.1 (by simp [mockRedZones])

/-! ## C22: a zone at the point itself -/

/-- C22: over the real numbers `calculateDistance(p, p)` is 0 for every point `p`, and
for a list made of one zone of severity `high` located at `p` the status set for `p` is
`danger`; so it is for `p = (19.0769, 83.7603)` and the first zone of `mockRedZones`. -/
theorem same_point_is_danger (lat lng : ℝ) :
    calculateDistance lat lng lat lng = 0 ∧
    (∀ zone : MapZone, zone.position.lat = Coord.number lat →
      zone.position.lng = Coord.number lng →
      zone.severity = "high" → checkCurrentStatus [zone] lat lng = Tier.danger) ∧
    checkCurrentStatus
      [⟨1, "Gunpur Market Area", ⟨Coord.number 19.0769, Coord.number 83.7603⟩, "high",
        "High crime area reported near market"⟩] 19.0769 83.7603 = Tier.danger := by
  have hzone : ∀ (la ln : ℝ) (zone : MapZone), zone.position.lat = Coord.number la →
      zone.position.lng = Coord.number ln → zone.severity = "high" →
      checkCurrentStatus [zone] la ln = Tier.danger := by
    intro la ln zone hlat hlng hsev
    have hd : zoneDistance la ln zone = some 0 := by
      rw [zoneDistance_numbers la ln zone hlat hlng, calculateDistance_self]
    rw [checkCurrentStatus_singleton zone la ln hd, hsev]
    exact statusOf_near_high (by norm_num)
  exact ⟨calculateDistance_self lat lng, hzone lat lng, hzone _ _ _ rfl rfl rfl⟩

/-- Witness of `same_point_is_danger` at `p = (19.0769, 83.7603)`. -/
theorem same_point_is_danger_witness :
    calculateDistance 19.0769 83.7603 19.0769 83.7603 = 0 ∧
      checkCurrentStatus
        [⟨1, "Gunpur Market Area", ⟨Coord.number 19.0769, Coord.number 83.7603⟩, "high",
          "High crime area reported near market"⟩] 19.0769 83.7603 = Tier.danger :=
  ⟨(same_point_is_danger 19.0769 83.7603).1,
    (same_point_is_danger 19.0769 83.7603).2.1 _ rfl rfl rfl⟩

/-! ## C23: zones without coordinates -/

/-- The status set by `checkCurrentStatus` is the one set for the sub-list of the zones
whose distance is a number. -/
theorem checkCurrentStatus_filter (redZones : List MapZone) (lat lng : ℝ) :
    checkCurrentStatus redZones lat lng =
      checkCurrentStatus (redZones.filter (fun z => (zoneDistance lat lng z).isSome))
        lat lng := by
  unfold checkCurrentStatus checkWith
  rw [← nearest_filter]

/-- C23: a zone lacks coordinates when its `position` has no `lat` or no `lng`. For every
point and every zone list (no coordinate of which is `null`), the distance computed for a
zone lacking coordinates is `NaN`, which the loop of `checkCurrentStatus` skips: the status
set equals the status set for the sub-list of the zones that have coordinates, and a list
in which no zone has coordinates gives `safe`. -/
theorem zones_without_coordinates_are_skipped (redZones : List MapZone) (lat lng : ℝ)
    (hnull : ∀ z ∈ redZones, z.position.lat ≠ Coord.null ∧ z.position.lng ≠ Coord.null) :
    checkCurrentStatus redZones lat lng =
        checkCurrentStatus (redZones.filter MapZone.hasCoordinates) lat lng ∧
    ((∀ z ∈ redZones, z.hasCoordinates = false) →
      checkCurrentStatus redZones lat lng = Tier.safe) ∧
    (∀ z ∈ redZones, z.hasCoordinates = false → zoneDistance lat lng z = none) ∧
    (∀ z ∈ redZones, z.hasCoordinates = true →
      ∃ la ln, z.position = ⟨Coord.number la, Coord.number ln⟩ ∧
        zoneDistance lat lng z = some (calculateDistance lat lng la ln)) := by
  have hfilter : redZones.filter (fun z => (zoneDistance lat lng z).isSome) =
      redZones.filter MapZone.hasCoordinates := by
    apply List.filter_congr
    intro z hz
    exact isSome_zoneDistance lat lng z (hnull z hz)
  have hnone : ∀ z ∈ redZones, z.hasCoordinates = false → zoneDistance lat lng z = none := by
    intro z hz hc
    have h := isSome_zoneDistance lat lng z (hnull z hz)
    rw [hc] at h
    cases hd : zoneDistance lat lng z with
    | none => rfl
    | some d => rw [hd] at h; cases h
  refine ⟨?_, ?_, hnone, fun z _ hc => zoneDistance_of_hasCoordinates lat lng z hc⟩
  · rw [checkCurrentStatus_filter, hfilter]
  · intro hall
    unfold checkCurrentStatus checkWith
    rw [nearest_unmeasured _ _ redZones (fun z hz => hnone z hz (hall z hz))]
    rfl

/-- Witness of `zones_without_coordinates_are_skipped`: with a high-severity zone without
coordinates put before the zones of the page, the status is the one set for the zones of
the page alone; and the list made of that zone alone gives `safe` at the point
`(0, 0)`. -/
theorem zones_without_coordinates_are_skipped_witness :
    checkCurrentStatus (exUnplaced :: mockRedZones) 19.0769 83.7603 =
        checkCurrentStatus ((exUnplaced :: mockRedZones).filter MapZone.hasCoordinates)
          19.0769 83.7603 ∧
      checkCurrentStatus [exUnplaced] 0 0 = Tier.safe :=
  ⟨(zones_without_coordinates_are_skipped (exUnplaced :: mockRedZones) 19.0769 83.7603
      (by simp [exUnplaced, mockRedZones])).1,
    (zones_without_coordinates_are_skipped [exUnplaced] 0 0
      (by simp [exUnplaced])).2.1 (by simp [exUnplaced, MapZone.hasCoordinates,
        Coord.isNumber])⟩

/-! ## C29: the rule along the distance -/

/-- C29: for a fixed severity and distances `d1 ≤ d2`, the status assigned at `d2` is not
more severe than the status assigned at `d1` in the order `safe < warning < danger`; the
status assigned at `Infinity` (no zone) is the least severe. -/
theorem tier_is_monotone_in_distance {D : Type} [LinearOrderedField D] (severity : String)
    (d1 d2 : D) (h : d1 ≤ d2) :
    (statusOf (some d2) severity).rank ≤ (statusOf (some d1) severity).rank ∧
      (statusOf (none : Option D) severity).rank ≤ (statusOf (some d2) severity).rank := by
  constructor
  · by_cases h1 : d2 < 1 / 2
    · have h0 : d1 < 1 / 2 := lt_of_le_of_lt h h1
      by_cases hs : severity = "high"
      · rw [hs, statusOf_near_high h1, statusOf_near_high h0]
      · rw [statusOf_near_other h1 hs, statusOf_near_other h0 hs]
    · by_cases h2 : d2 < 2
      · rw [statusOf_middle h1 h2]
        have h3 : d1 < 2 := lt_of_le_of_lt h h2
        by_cases h0 : d1 < 1 / 2
        · by_cases hs : severity = "high"
          · rw [hs, statusOf_near_high h0]
            decide
          · rw [statusOf_near_other h0 hs]
        · rw [statusOf_middle h0 h3]
      · rw [statusOf_far h1 h2]
        exact Nat.zero_le _
  · exact Nat.zero_le _

/-- Witness of `tier_is_monotone_in_distance` for the severity `high` at 0.1 km and
1 km. -/
theorem tier_is_monotone_in_distance_witness :
    (statusOf (some (1 : ℚ)) "high").rank ≤ (statusOf (some (1 / 10 : ℚ)) "high").rank :=
  (tier_is_monotone_in_distance "high" (1 / 10 : ℚ) 1 (by norm_num)).1

/-! ## C30: zones at the same distance -/

/-- C30: on a list in which some zone has a distance that is a number (every zone with
coordinates has one), `checkCurrentStatus` uses the severity of the zone `zone` that splits
the list into `before`, `zone`, `after` with every measured zone of `before` strictly
farther from the point than `zone` and no measured zone of `after` nearer than `zone`: the
first zone in list order among those at the minimum distance. -/
theorem first_nearest_zone_decides (redZones : List MapZone) (lat lng : ℝ)
    (hne : ∃ z ∈ redZones, (zoneDistance lat lng z).isSome = true) :
    ∃ (before : List MapZone) (zone : MapZone) (after : List MapZone) (d : ℝ),
      redZones = before ++ zone :: after ∧ zoneDistance lat lng zone = some d ∧
      (∀ z ∈ before, ∀ dz, zoneDistance lat lng z = some dz → d < dz) ∧
      (∀ z ∈ after, ∀ dz, zoneDistance lat lng z = some dz → d ≤ dz) ∧
      (nearest (zoneDistance lat lng) (fun z => z.severity) redZones).2 = zone.severity ∧
      checkCurrentStatus redZones lat lng = statusOf (some d) zone.severity := by
  obtain ⟨before, zone, after, d, hsplit, hd, hbefore, hafter, hnear⟩ :=
    nearest_split (zoneDistance lat lng) (fun zone => zone.severity) redZones hne
  refine ⟨before, zone, after, d, hsplit, hd, hbefore, hafter, by rw [hnear], ?_⟩
  unfold checkCurrentStatus checkWith
  rw [hnear]

theorem zoneDistance_exZoneAt (id : Nat) (severity : String) :
    zoneDistance 19.0769 83.7603 (exZoneAt id severity) = some 0 := by
  rw [zoneDistance_numbers 19.0769 83.7603 (exZoneAt id severity) rfl rfl,
    calculateDistance_self]

/-- Two zones at the point itself, one of severity `high` and one of severity `low`: the
status is `danger` when the `high` zone comes first and `warning` when the `low` zone
comes first. -/
theorem tie_uses_first_zone :
    checkCurrentStatus [exZoneAt 1 "high", exZoneAt 2 "low"] 19.0769 83.7603 = Tier.danger ∧
      checkCurrentStatus [exZoneAt 2 "low", exZoneAt 1 "high"] 19.0769 83.7603 =
        Tier.warning := by
  constructor
  · rw [checkCurrentStatus_pair_tie _ _ _ _ (zoneDistance_exZoneAt 1 "high")
      (zoneDistance_exZoneAt 2 "low") (lt_irrefl _)]
    exact statusOf_near_high (by norm_num)
  · rw [checkCurrentStatus_pair_tie _ _ _ _ (zoneDistance_exZoneAt 2 "low")
      (zoneDistance_exZoneAt 1 "high") (lt_irrefl _)]
    exact statusOf_near_other (by norm_num) (by decide)

/-- Witness of `first_nearest_zone_decides` on the two zones at the same point. -/
theorem first_nearest_zone_decides_witness :
    ∃ (before : List MapZone) (zone : MapZone) (after : List MapZone) (d : ℝ),
      [exZoneAt 1 "high", exZoneAt 2 "low"] = before ++ zone :: after ∧
      zoneDistance 19.0769 83.7603 zone = some d ∧
      (∀ z ∈ before, ∀ dz, zoneDistance 19.0769 83.7603 z = some dz → d < dz) ∧
      (∀ z ∈ after, ∀ dz, zoneDistance 19.0769 83.7603 z = some dz → d ≤ dz) ∧
      (nearest (zoneDistance 19.0769 83.7603) (fun z => z.severity)
        [exZoneAt 1 "high", exZoneAt 2 "low"]).2 = zone.severity ∧
      checkCurrentStatus [exZoneAt 1 "high", exZoneAt 2 "low"] 19.0769 83.7603 =
        statusOf (some d) zone.severity :=
  first_nearest_zone_decides [exZoneAt 1 "high", exZoneAt 2 "low"] 19.0769 83.7603
    ⟨exZoneAt 1 "high", by simp, by rw [zoneDistance_exZoneAt]; rfl⟩

/-! ## C24: the status of a created zone -/

theorem buildRedZone_status (user : User) (body : CreateBody)
    (title description location : String) (sev : Severity) (newId : ZoneId) (now : Time) :
    (buildRedZone user body title description location sev newId now).reportedBy = user._id ∧
    ((buildRedZone user body title description location sev newId now).status = Status.approved ↔
      (user.role = Role.admin ∧ body.status = some "approved")) ∧
    (¬ (user.role = Role.admin ∧ body.status = some "approved") →
      (buildRedZone user body title description location sev newId now).status =
        Status.pending) := by
  by_cases hd : user.role = Role.admin ∧ body.status = some "approved"
  · simp [buildRedZone, hd]
  · simp [buildRedZone, hd]

theorem createHandler_created (db : Db) (user : User) (body : CreateBody) (newId : ZoneId)
    (now : Time) (r : Response)
    (hr : (createHandler db user body newId now).response = some r) (h201 : r.status = 201) :
    ∃ title description location sev,
      r.redZone = some (buildRedZone user body title description location sev newId now) ∧
      buildRedZone user body title description location sev newId now ∈
        (createHandler db user body newId now).db.zones := by
  unfold createHandler at hr ⊢
  split at hr
  · rename_i title description location severity _ _ _ _
    split at hr
    · simp only [Option.some.injEq] at hr
      rw [← hr] at h201
      simp [badRequest] at h201
    · split at hr
      · simp only [Option.some.injEq] at hr
        rw [← hr] at h201
        simp [badRequest] at h201
      · rename_i sev _
        dsimp only at hr ⊢
        by_cases hv : (!(buildRedZone user body title description location sev newId
            now).schemaValid || (Zone.stored db newId).isSome) = true
        · rw [if_pos hv] at hr
          simp only [Option.some.injEq] at hr
          rw [← hr] at h201
          simp [serverError] at h201
        · rw [if_neg hv] at hr ⊢
          simp only [Option.some.injEq] at hr
          refine ⟨title, description, location, sev, ?_, ?_⟩
          · rw [← hr]
          · rw [if_neg (by assumption)]
            simp
  · simp only [Option.some.injEq] at hr
    rw [← hr] at h201
    simp [badRequest] at h201

theorem createHandler_valid (db : Db) (user : User) (body : CreateBody) (newId : ZoneId)
    (now : Time) (hvalid : validSubmission db body newId) :
    ∃ r z, (createHandler db user body newId now).response = some r ∧ r.status = 201 ∧
      r.success = true ∧ r.redZone = some z := by
  obtain ⟨title, description, location, severity, sev, ht, hdsc, hl, hs, ht0, hd0, hl0, hs0,
    hsev, htt, htl, hdt, hdl, hlt, hfresh⟩ := hvalid
  have hv : (buildRedZone user body title description location sev newId now).schemaValid
      = true := by
    simp [Zone.schemaValid, buildRedZone, htt, htl, hdt, hdl, hlt]
  simp [createHandler, ht, hdsc, hl, hs, ht0, hd0, hl0, hs0, hsev, hv, hfresh]

/-- C24: whenever `POST /` answers 201, the created zone (the one in the answer, which is
stored) has `reportedBy` equal to the user of the request, and its status is `approved`
if and only if that user is an admin and the body has `status` equal to `'approved'`;
in every other case (a non-admin sending `status: 'approved'` included) its status is
`pending`. Every valid submission is answered 201. -/
theorem created_zone_status (db : Db) (user : User) (body : CreateBody) (newId : ZoneId)
    (now : Time) (hvalid : validSubmission db body newId) :
    ∃ r z, (createHandler db user body newId now).response = some r ∧ r.status = 201 ∧
      r.redZone = some z ∧ z ∈ (createHandler db user body newId now).db.zones ∧
      z.reportedBy = user._id ∧
      (z.status = Status.approved ↔ (user.role = Role.admin ∧ body.status = some "approved")) ∧
      (¬ (user.role = Role.admin ∧ body.status = some "approved") →
        z.status = Status.pending) := by
  obtain ⟨r, z, hr, h201, _, hz⟩ := createHandler_valid db user body newId now hvalid
  obtain ⟨title, description, location, sev, hrz, hmem⟩ :=
    createHandler_created db user body newId now r hr h201
  obtain ⟨h1, h2, h3⟩ := buildRedZone_status user body title description location sev newId now
  exact ⟨r, _, hr, h201, hrz, hmem, h1, h2, h3⟩

/-- Witness of `created_zone_status`: the reporter of the sample data (not an admin)
submits the sample report with `status: 'approved'`; the answer is 201. -/
theorem created_zone_status_witness :
    ∃ r z, (createHandler (emptyDb [exAdmin, exUser] [] true) exUser
        { exBody with status := some "approved" } exId 10).response = some r ∧
      r.status = 201 ∧ r.redZone = some z ∧
      z ∈ (createHandler (emptyDb [exAdmin, exUser] [] true) exUser
        { exBody with status := some "approved" } exId 10).db.zones ∧
      z.reportedBy = exUser._id ∧
      (z.status = Status.approved ↔
        (exUser.role = Role.admin ∧
          ({ exBody with status := some "approved" } : CreateBody).status = some "approved")) ∧
      (¬ (exUser.role = Role.admin ∧
          ({ exBody with status := some "approved" } : CreateBody).status = some "approved") →
        z.status = Status.pending) :=
  created_zone_status (emptyDb [exAdmin, exUser] [] true) exUser
    { exBody with status := some "approved" } exId 10
    ⟨"Flooded Street", "Street completely flooded after heavy rainfall.", "Riverside Avenue",
      "medium", Severity.medium, rfl, rfl, rfl, rfl, by decide, by decide, by decide,
      by decide, by decide, by decide, by decide, by decide, by decide, by decide, by decide⟩

/-! ## C28: formatting a formatted number -/

theorem formatNumber_start (x : String) : (formatNumber x).data.take 3 = ['+', '9', '1'] := by
  unfold formatNumber
  by_cases h1 : x.data.head? ≠ some '+'
  · simp [if_pos h1]
  · by_cases h2 : x.data.take 3 ≠ ['+', '9', '1']
    · simp [if_neg h1, if_pos h2]
    · rw [if_neg h1, if_neg h2]
      exact not_not.mp h2

theorem formatNumber_fixed (y : String) (h : y.data.take 3 = ['+', '9', '1']) :
    formatNumber y = y := by
  have hhead : ¬ (y.data.head? ≠ some '+') := by
    cases hy : y.data with
    | nil => rw [hy] at h; simp at h
    | cons c cs =>
      rw [hy] at h
      simp only [List.take_succ_cons, List.cons.injEq] at h
      simp [h.1]
  unfold formatNumber
  rw [if_neg hhead, if_neg (not_not.mpr h)]

/-- C28: the formatting of `sendSMS` is idempotent: for every non-empty string `x`,
formatting the formatted form of `x` gives the formatted form of `x` again (the formatted
form always starts with `+91`, and a string that starts with `+91` is left as it is). -/
theorem format_number_is_idempotent (x : String) (_hne : x ≠ "") :
    formatNumber (formatNumber x) = formatNumber x ∧
      (formatNumber x).data.take 3 = ['+', '9', '1'] :=
  ⟨formatNumber_fixed _ (formatNumber_start x), formatNumber_start x⟩

/-- Witness of `format_number_is_idempotent` at `09876543210`. -/
theorem format_number_is_idempotent_witness :
    formatNumber (formatNumber "09876543210") = formatNumber "09876543210" :=
  (format_number_is_idempotent "09876543210" (by decide)).1

/-! ## C25: approving the removal of a contact -/

theorem statusUpdate_phones (contacts : List UserContact) (id : Nat) (status : ContactStatus) :
    ((contacts.map (fun c => if c._id == id then { c with status := status } else c)).filter
        (fun c => c.phone ≠ "")).map (fun c => c.phone) =
      (contacts.filter (fun c => c.phone ≠ "")).map (fun c => c.phone) := by
  induction contacts with
  | nil => rfl
  | cons c cs ih =>
    have hphone : (if c._id == id then { c with status := status } else c).phone = c.phone := by
      split <;> rfl
    simp only [List.map_cons, List.filter_cons, hphone]
    split
    · simp only [List.map_cons, hphone, ih]
    · exact ih

/-- The handler of `approve-removal` removes no contact: the stored `_id`s and the fanout
recipients are the same before and after it. -/
theorem approveRemoval_keeps_contacts (db : Db) (token : Token) (id : Nat) :
    fanoutPhones (approveRemoval db token id).db = fanoutPhones db ∧
      (approveRemoval db token id).db.contacts.map (fun c => c._id) =
        db.contacts.map (fun c => c._id) := by
  unfold approveRemoval
  split
  · exact ⟨rfl, rfl⟩
  · split
    · exact ⟨rfl, rfl⟩
    · unfold UserContact.findByIdAndUpdate
      split
      · exact ⟨rfl, rfl⟩
      · rename_i contact contacts heq
        split at heq
        · simp at heq
        · simp only [Prod.mk.injEq] at heq
          obtain ⟨_, hcontacts⟩ := heq
          subst hcontacts
          constructor
          · exact statusUpdate_phones db.contacts id ContactStatus.active
          · simp only [List.map_map]
            apply List.map_congr_left
            intro c _
            by_cases hid : c._id = id <;> simp [hid]

/-- C25, evaluated: the database holds the contact 3 with phone `9123456780` in status
`pending_removal`. The request `PUT /user-contacts/3/approve-removal` of moderator 1 is
answered 200 with the message `Contact removal request approved, status set to active`;
the contact is still stored, now in status `active`, and its phone is still a fanout
recipient. The database afterwards is the one `reject-removal` produces; the route
`DELETE /user-contacts/3` is the one that removes the contact. -/
theorem approved_removal_keeps_contact :
    approveRemoval exContactsDb (Token.valid 1) 3 =
        ⟨⟨200, "Contact removal request approved, status set to active",
            some (exContact 3 "9123456780"), []⟩,
          exDb exPending [exContact 2 "9876543210", exContact 3 "9123456780"]⟩ ∧
      "9123456780" ∈ fanoutPhones (approveRemoval exContactsDb (Token.valid 1) 3).db ∧
      (approveRemoval exContactsDb (Token.valid 1) 3).db =
        (rejectRemoval exContactsDb (Token.valid 1) 3).db ∧
      (deleteContact exContactsDb (Token.valid 1) 3).db.contacts =
        [exContact 2 "9876543210"] := by
  decide

/-! ## C26: one contact per user -/

/-- The three things `POST /notify` can do: leave the collection as it is (with an answer
that is neither 200 nor 201), update the contact of the caller in place (200), or add a
contact for a caller who has none under an unused `_id` (201). -/
theorem notify_cases (rules : EmailRules) (db : Db) (token : Token) (body : NotifyBody)
    (newId : Nat) :
    ((notify rules db token body newId).db = db ∧
        (notify rules db token body newId).response.status ≠ 200 ∧
        (notify rules db token body newId).response.status ≠ 201) ∨
    (∃ user existing updated, authenticateToken db token = Except.ok user ∧
        db.contacts.find? (fun c => c.userId == user._id) = some existing ∧
        updated = { existing with
          phone := trim (body.phone.getD "")
          email := trim (toLowerCase (notifyEmail rules body user)) } ∧
        (notify rules db token body newId).response =
          ⟨200, "Contact information updated successfully", some updated, []⟩ ∧
        (notify rules db token body newId).db.contacts =
          db.contacts.map (fun c => if c._id == existing._id then updated else c)) ∨
    (∃ user created, authenticateToken db token = Except.ok user ∧
        db.contacts.find? (fun c => c.userId == user._id) = none ∧
        db.contacts.find? (fun c => c._id == newId) = none ∧
        created = ⟨newId, trim user.name, trim (toLowerCase (notifyEmail rules body user)),
          trim (body.phone.getD ""), user._id, ContactStatus.active⟩ ∧
        (notify rules db token body newId).response =
          ⟨201, "Contact information saved successfully", some created, []⟩ ∧
        (notify rules db token body newId).db.contacts = db.contacts ++ [created]) := by
  unfold notify
  split
  · left; simp
    rename_i resp heq
    unfold authenticateToken at heq
    split at heq
    · simp only [Except.error.injEq] at heq; rw [← heq]; simp
    · simp only [Except.error.injEq] at heq; rw [← heq]; simp
    · simp only [Except.error.injEq] at heq; rw [← heq]; simp
    · split at heq
      · simp only [Except.error.injEq] at heq; rw [← heq]; simp
      · split at heq
        · simp only [Except.error.injEq] at heq; rw [← heq]; simp
        · simp at heq
  · rename_i user hauth
    split
    · left; simp
    · dsimp only
      unfold UserContact.findOne
      by_cases hup : db.contactsUp = true
      · simp only [hup, if_true]
        cases hfind : db.contacts.find? (fun c => c.userId == user._id) with
        | none =>
          simp only
          split
          · left; simp
          · rename_i hcond
            right; right
            simp only [not_or] at hcond
            refine ⟨user, _, hauth, hfind, ?_, rfl, rfl, rfl⟩
            have := hcond.2.2.2
            simpa using this
        | some existing =>
          simp only
          split
          · left; simp
          · right; left
            exact ⟨user, existing, _, hauth, hfind, rfl, rfl, rfl⟩
      · left
        simp [hup]

theorem update_keeps_keys (contacts : List UserContact) (existing updated : UserContact)
    (hmem : existing ∈ contacts) (hids : (contacts.map (fun c => c._id)).Nodup)
    (hid : updated._id = existing._id) (huser : updated.userId = existing.userId) :
    (contacts.map (fun c => if c._id == existing._id then updated else c)).map
        (fun c => c._id) = contacts.map (fun c => c._id) ∧
      (contacts.map (fun c => if c._id == existing._id then updated else c)).map
        (fun c => c.userId) = contacts.map (fun c => c.userId) := by
  simp only [List.map_map]
  constructor
  · apply List.map_congr_left
    intro c _
    by_cases h : c._id = existing._id <;> simp [h, hid]
  · apply List.map_congr_left
    intro c hc
    by_cases h : c._id = existing._id
    · have hce : c = existing := List.inj_on_of_nodup_map hids hc hmem h
      simp [h, huser, hce]
    · simp [h]

theorem notify_invariant (rules : EmailRules) (db : Db) (token : Token) (body : NotifyBody)
    (newId : Nat) (hids : uniqueContactIds db) (hone : oneContactPerUser db) :
    uniqueContactIds (notify rules db token body newId).db ∧
      oneContactPerUser (notify rules db token body newId).db := by
  rcases notify_cases rules db token body newId with
    ⟨hdb, _, _⟩ | ⟨user, existing, updated, _, hfind, hupd, _, hcontacts⟩ |
    ⟨user, created, _, hnone, hfresh, hcr, _, hcontacts⟩
  · rw [hdb]
    exact ⟨hids, hone⟩
  · have hmem : existing ∈ db.contacts := List.mem_of_find?_eq_some hfind
    obtain ⟨h1, h2⟩ := update_keeps_keys db.contacts existing updated hmem hids
      (by rw [hupd]) (by rw [hupd])
    unfold uniqueContactIds oneContactPerUser
    rw [hcontacts, h1, h2]
    exact ⟨hids, hone⟩
  · unfold uniqueContactIds oneContactPerUser
    rw [hcontacts]
    simp only [List.map_append, List.map_cons, List.map_nil]
    rw [List.find?_eq_none] at hnone hfresh
    constructor
    · rw [List.nodup_append]
      refine ⟨hids, List.nodup_singleton _, ?_⟩
      intro a ha hb
      rw [List.mem_singleton] at hb
      obtain ⟨c, hc, rfl⟩ := List.mem_map.mp ha
      have := hfresh c hc
      rw [hcr] at hb
      simp [hb] at this
    · rw [List.nodup_append]
      refine ⟨hone, List.nodup_singleton _, ?_⟩
      intro a ha hb
      rw [List.mem_singleton] at hb
      obtain ⟨c, hc, rfl⟩ := List.mem_map.mp ha
      have := hnone c hc
      rw [hcr] at hb
      simp [hb] at this

theorem runNotify_invariant (rules : EmailRules) (requests : List NotifyRequest) :
    ∀ db : Db, uniqueContactIds db → oneContactPerUser db →
      uniqueContactIds (runNotify rules db requests) ∧
        oneContactPerUser (runNotify rules db requests) := by
  induction requests with
  | nil => intro db h1 h2; exact ⟨h1, h2⟩
  | cons req reqs ih =>
    intro db h1 h2
    obtain ⟨h1', h2'⟩ := notify_invariant rules db req.token req.body req.newId h1 h2
    exact ih _ h1' h2'

theorem notify_answers (rules : EmailRules) (db : Db) (token : Token) (body : NotifyBody)
    (newId : Nat) (user : User) (hauth : authenticateToken db token = Except.ok user)
    (hvalid : notifyErrors rules body = []) (hup : db.contactsUp = true)
    (hphone : trim (body.phone.getD "") ≠ "")
    (hemail : trim (toLowerCase (notifyEmail rules body user)) ≠ "")
    (hname : trim user.name ≠ "")
    (hfresh : db.contacts.find? (fun c => c._id == newId) = none) :
    (notify rules db token body newId).response.status =
      if (db.contacts.find? (fun c => c.userId == user._id)).isSome then 200 else 201 := by
  unfold notify
  simp only [hauth, hvalid, ne_eq, not_true_eq_false, if_false, UserContact.findOne, hup,
    if_true]
  cases hfind : db.contacts.find? (fun c => c.userId == user._id) with
  | none => simp [hphone, hemail, hname, hfresh]
  | some existing => simp [hphone, hemail]

/-- C26: start from a contact collection with distinct `_id`s and at most one contact per
user. A `POST /notify` request keeps both properties, and so does every sequence of such
requests handled one after the other. When the request is answered 201 the caller had no
contact and exactly one contact, of the caller, is added; when it is answered 200 the
contact of the caller is replaced in place by the same contact with the new phone and
email, every other contact and the number of contacts being unchanged; with any other
answer the collection is unchanged. A request of an active user with a valid body is
answered 200 when the caller has a contact and 201 otherwise. -/
theorem notify_keeps_one_contact_per_user (rules : EmailRules) (db : Db) (token : Token)
    (body : NotifyBody) (newId : Nat) (hids : uniqueContactIds db)
    (hone : oneContactPerUser db) :
    (uniqueContactIds (notify rules db token body newId).db ∧
      oneContactPerUser (notify rules db token body newId).db) ∧
    (∀ requests : List NotifyRequest,
      uniqueContactIds (runNotify rules db requests) ∧
        oneContactPerUser (runNotify rules db requests)) ∧
    ((notify rules db token body newId).response.status = 201 →
      ∃ user created, authenticateToken db token = Except.ok user ∧
        db.contacts.find? (fun c => c.userId == user._id) = none ∧
        created.userId = user._id ∧ created.phone = trim (body.phone.getD "") ∧
        (notify rules db token body newId).db.contacts = db.contacts ++ [created]) ∧
    ((notify rules db token body newId).response.status = 200 →
      ∃ user existing, authenticateToken db token = Except.ok user ∧
        db.contacts.find? (fun c => c.userId == user._id) = some existing ∧
        (notify rules db token body newId).db.contacts =
          db.contacts.map (fun c => if c._id == existing._id then
            { existing with
              phone := trim (body.phone.getD "")
              email := trim (toLowerCase (notifyEmail rules body user)) } else c) ∧
        (notify rules db token body newId).db.contacts.length = db.contacts.length) ∧
    ((notify rules db token body newId).response.status ≠ 200 →
      (notify rules db token body newId).response.status ≠ 201 →
      (notify rules db token body newId).db = db) ∧
    (∀ user, authenticateToken db token = Except.ok user →
      notifyErrors rules body = [] → db.contactsUp = true →
      trim (body.phone.getD "") ≠ "" →
      trim (toLowerCase (notifyEmail rules body user)) ≠ "" → trim user.name ≠ "" →
      db.contacts.find? (fun c => c._id == newId) = none →
      (notify rules db token body newId).response.status =
        if (db.contacts.find? (fun c => c.userId == user._id)).isSome then 200 else 201) := by
  refine ⟨notify_invariant rules db token body newId hids hone,
    fun requests => runNotify_invariant rules requests db hids hone, ?_, ?_, ?_,
    fun user hauth hvalid hup hphone hemail hname hfresh =>
      notify_answers rules db token body newId user hauth hvalid hup hphone hemail hname hfresh⟩
  · intro h201
    rcases notify_cases rules db token body newId with
      ⟨_, _, h⟩ | ⟨_, _, _, _, _, _, hresp, _⟩ |
      ⟨user, created, hauth, hnone, _, hcr, _, hcontacts⟩
    · exact absurd h201 h
    · rw [hresp] at h201
      simp at h201
    · exact ⟨user, created, hauth, hnone, by rw [hcr], by rw [hcr], hcontacts⟩
  · intro h200
    rcases notify_cases rules db token body newId with
      ⟨_, h, _⟩ | ⟨user, existing, updated, hauth, hfind, hupd, _, hcontacts⟩ |
      ⟨_, _, _, _, _, _, hresp, _⟩
    · exact absurd h200 h
    · subst hupd
      exact ⟨user, existing, hauth, hfind, hcontacts, by rw [hcontacts, List.length_map]⟩
    · rw [hresp] at h200
      simp at h200
  · intro h200 h201
    rcases notify_cases rules db token body newId with
      ⟨hdb, _, _⟩ | ⟨_, _, _, _, _, _, hresp, _⟩ | ⟨_, _, _, _, _, _, hresp, _⟩
    · exact hdb
    · rw [hresp] at h200
      exact absurd rfl h200
    · rw [hresp] at h201
      exact absurd rfl h201

/-- Witness of `notify_keeps_one_contact_per_user`: user 2, who has a contact, sends a
new phone; user 1, who has none, sends a phone afterwards. -/
theorem notify_keeps_one_contact_per_user_witness :
    oneContactPerUser (notify exRules exContactsDb (Token.valid 2)
        ⟨some "9000000001", none⟩ 10).db ∧
      oneContactPerUser (runNotify exRules exContactsDb
        [⟨Token.valid 2, ⟨some "9000000001", none⟩, 10⟩,
          ⟨Token.valid 1, ⟨some "9000000002", some "admin@redzone.com"⟩, 11⟩]) :=
  ⟨(notify_keeps_one_contact_per_user exRules exContactsDb (Token.valid 2)
      ⟨some "9000000001", none⟩ 10 (by unfold uniqueContactIds; decide)
      (by unfold oneContactPerUser; decide)).1.2,
    ((notify_keeps_one_contact_per_user exRules exContactsDb (Token.valid 2)
      ⟨some "9000000001", none⟩ 10 (by unfold uniqueContactIds; decide)
      (by unfold oneContactPerUser; decide)).2.1 _).2⟩

theorem notify_sample_run :
    ((runNotify exRules exContactsDb
        [⟨Token.valid 2, ⟨some "9000000001", none⟩, 10⟩,
          ⟨Token.valid 1, ⟨some "9000000002", some "admin@redzone.com"⟩, 11⟩]).contacts.map
      (fun c => (c.userId, c.phone))) =
      [(2, "9000000001"), (3, "9123456780"), (1, "9000000002")] := by
  decide

/-! ## The stored phones -/

theorem statusUpdate_keeps_phones (contacts : List UserContact) (id : Nat)
    (status : ContactStatus) (h : ∀ c ∈ contacts, c.phone ≠ "") :
    ∀ c ∈ (UserContact.findByIdAndUpdate contacts id status).2, c.phone ≠ "" := by
  intro c hc
  unfold UserContact.findByIdAndUpdate at hc
  split at hc
  · exact h c hc
  · simp only [List.mem_map] at hc
    obtain ⟨a, ha, rfl⟩ := hc
    split
    · exact h a ha
    · exact h a ha

/-- The writers of the contact collection keep every stored phone non-empty, as the
`required` rule of `UserContact.js` demands: `POST /notify` refuses an empty phone, and the
removal routes do not write the phone. -/
theorem contact_writers_keep_phones (rules : EmailRules) (db : Db) (token : Token)
    (body : NotifyBody) (newId id : Nat) (h : ∀ c ∈ db.contacts, c.phone ≠ "") :
    (∀ c ∈ (notify rules db token body newId).db.contacts, c.phone ≠ "") ∧
    (∀ c ∈ (approveRemoval db token id).db.contacts, c.phone ≠ "") ∧
    (∀ c ∈ (rejectRemoval db token id).db.contacts, c.phone ≠ "") ∧
    (∀ c ∈ (deleteContact db token id).db.contacts, c.phone ≠ "") := by
  refine ⟨?_, ?_, ?_, ?_⟩
  · intro c hc
    unfold notify at hc
    split at hc
    · exact h c hc
    · split at hc
      · exact h c hc
      · dsimp only at hc
        split at hc
        · exact h c hc
        · split at hc
          · exact h c hc
          · rename_i hcond
            simp only [List.mem_map] at hc
            obtain ⟨a, ha, rfl⟩ := hc
            split
            · exact fun hp => hcond (Or.inl hp)
            · exact h a ha
        · split at hc
          · exact h c hc
          · rename_i hcond
            simp only [List.mem_append, List.mem_singleton] at hc
            rcases hc with hc | rfl
            · exact h c hc
            · exact fun hp => hcond (Or.inr (Or.inl hp))
  · intro c hc
    have hk := statusUpdate_keeps_phones db.contacts id ContactStatus.active h
    unfold approveRemoval at hc
    split at hc
    · exact h c hc
    · split at hc
      · exact h c hc
      · split at hc
        · exact h c hc
        · rename_i heq
          rw [heq] at hk
          exact hk c hc
  · intro c hc
    have hk := statusUpdate_keeps_phones db.contacts id ContactStatus.active h
    unfold rejectRemoval at hc
    split at hc
    · exact h c hc
    · split at hc
      · exact h c hc
      · split at hc
        · exact h c hc
        · rename_i heq
          rw [heq] at hk
          exact hk c hc
  · intro c hc
    unfold deleteContact at hc
    split at hc
    · exact h c hc
    · split at hc
      · exact h c hc
      · split at hc
        · exact h c hc
        · exact h c (List.mem_of_mem_erase hc)

/-- The handlers of `redzones.js` do not write the contact collection. -/
theorem handle_keeps_contacts (db : Db) (req : Request) (o : Outcome)
    (h : handle db req = some o) : o.db.contacts = db.contacts := by
  rcases handle_cases h with hdb | ⟨name, user, rfl⟩
  · rw [hdb]
  · cases name
    · simp only [runHandler]
      unfold createHandler
      split
      · split
        · rfl
        · split
          · rfl
          · dsimp only
            split <;> rfl
      · rfl
    · simp only [runHandler]
      unfold approvePlaceholder
      split
      · rfl
      · split
        · rfl
        · split <;> rfl
    · simp only [runHandler]
      unfold rejectPlaceholder
      split
      · rfl
      · split
        · rfl
        · split <;> rfl
    · simp only [runHandler]
      rw [approveHandler_db]
      unfold approvePlaceholder
      split
      · rfl
      · split
        · rfl
        · split <;> rfl
    · simp only [runHandler]
      rw [rejectHandler_db]
      unfold rejectPlaceholder
      split
      · rfl
      · split
        · rfl
        · split <;> rfl
    · simp only [runHandler]
      by_cases hrole : user.role = Role.admin
      · by_cases hcast : castObjectId req.id = none
        · simp [safeNowHandler, hrole, hcast]
        · cases hfound : Zone.findById db req.id with
          | none => simp [safeNowHandler, hrole, hcast, hfound]
          | some found =>
            rw [safeNowHandler_db req.now hrole hfound]
            rfl
      · simp [safeNowHandler, hrole]

/-! ## C27: an approve and a reject request racing on one zone -/

/-- The first handler registered for approve is its read part followed by its write
part. -/
theorem approvePlaceholder_read_write (db : Db) (user : User) (id : ZoneId) (now : Time) :
    approvePlaceholder db user id now =
      match reviewRead Review.approve db user id with
      | Except.error resp => ⟨some resp, db, []⟩
      | Except.ok doc => reviewWrite Review.approve db user doc now := by
  unfold approvePlaceholder reviewRead
  split
  · rfl
  · split
    · rfl
    · split <;> rfl

/-- The first handler registered for reject is its read part followed by its write
part. -/
theorem rejectPlaceholder_read_write (db : Db) (user : User) (id : ZoneId) (now : Time) :
    rejectPlaceholder db user id now =
      match reviewRead Review.reject db user id with
      | Except.error resp => ⟨some resp, db, []⟩
      | Except.ok doc => reviewWrite Review.reject db user doc now := by
  unfold rejectPlaceholder reviewRead
  split
  · rfl
  · split
    · rfl
    · split <;> rfl

theorem reviewRead_ok (kind : Review) {db : Db} {user : User} {id : ZoneId} {z : Zone}
    (hmod : user.role = Role.admin) (hz : Zone.findById db id = some z) :
    reviewRead kind db user id = Except.ok z := by
  simp [reviewRead, hmod, hz, Zone.findById_cast hz]

theorem reviewWrite_eq (kind : Review) (db : Db) (user : User) (doc : Zone) (now : Time) :
    reviewWrite kind db user doc now =
      ⟨some (okZone kind.message (doc.review kind.status user._id now)),
        Zone.save db (doc.review kind.status user._id now), []⟩ := rfl

theorem review_review (z : Zone) (s1 s2 : Status) (a1 a2 : UserId) (t1 t2 : Time) :
    (z.review s1 a1 t1).review s2 a2 t2 = z.review s2 a2 t2 := rfl

theorem review_id (z : Zone) (s : Status) (a : UserId) (t : Time) :
    (z.review s a t)._id = z._id := rfl

/-- C27, as stated, fails: the pending sample zone, an approve request of moderator 1 at
time 50 and a reject request of moderator 7 at time 51, both reading the zone before
either writes. Both requests are answered 200 with `success: true` (there are two
winners), and the stored zone ends `rejected` with the stamp of moderator 7, whose write
came last. -/
theorem race_has_two_winners :
    (Race.run exAdmin exAdmin2 exId 50 51 (exDb exPending [])
        [Moment.readA, Moment.readB, Moment.writeA, Moment.writeB]).answerA =
      some ⟨200, true, "RedZone approved successfully",
        some (exPending.review Status.approved 1 50)⟩ ∧
    (Race.run exAdmin exAdmin2 exId 50 51 (exDb exPending [])
        [Moment.readA, Moment.readB, Moment.writeA, Moment.writeB]).answerB =
      some ⟨200, true, "RedZone rejected successfully",
        some (exPending.review Status.rejected 7 51)⟩ ∧
    Zone.findById (Race.run exAdmin exAdmin2 exId 50 51 (exDb exPending [])
        [Moment.readA, Moment.readB, Moment.writeA, Moment.writeB]).db exId =
      some (exPending.review Status.rejected 7 51) := by
  decide

/-- C27, amended: an approve request and a reject request of two moderators race on a
stored pending zone. In each of the six orders in which their reads and writes can
happen, both requests succeed: the approve request is answered 200 with the zone approved
and stamped by its moderator, the reject request is answered 200 with the zone rejected
and stamped by its moderator. The stored zone ends with the status and the reviewer stamp
of the request whose write came last, never with a mix of the two. -/
theorem race_last_write_wins (db : Db) (userA userB : User) (id : ZoneId) (z : Zone)
    (nowA nowB : Time) (hA : userA.role = Role.admin) (hB : userB.role = Role.admin)
    (hz : Zone.findById db id = some z) (_hp : z.status = Status.pending) :
    ∀ schedule ∈ schedules,
      (Race.run userA userB id nowA nowB db schedule).answerA =
        some (okZone "RedZone approved successfully"
          (z.review Status.approved userA._id nowA)) ∧
      (Race.run userA userB id nowA nowB db schedule).answerB =
        some (okZone "RedZone rejected successfully"
          (z.review Status.rejected userB._id nowB)) ∧
      (schedule.getLast? = some Moment.writeA →
        Zone.findById (Race.run userA userB id nowA nowB db schedule).db id =
          some (z.review Status.approved userA._id nowA)) ∧
      (schedule.getLast? = some Moment.writeB →
        Zone.findById (Race.run userA userB id nowA nowB db schedule).db id =
          some (z.review Status.rejected userB._id nowB)) := by
  have hrA := reviewRead_ok Review.approve hA hz
  have hrB := reviewRead_ok Review.reject hB hz
  have hsA : Zone.findById (Zone.save db (z.review Status.approved userA._id nowA)) id =
      some (z.review Status.approved userA._id nowA) := Zone.findById_save _ hz rfl
  have hsB : Zone.findById (Zone.save db (z.review Status.rejected userB._id nowB)) id =
      some (z.review Status.rejected userB._id nowB) := Zone.findById_save _ hz rfl
  have hrAB := reviewRead_ok Review.reject hB hsA
  have hrBA := reviewRead_ok Review.approve hA hsB
  have hsAB : Zone.findById (Zone.save (Zone.save db (z.review Status.approved userA._id nowA))
      (z.review Status.rejected userB._id nowB)) id =
      some (z.review Status.rejected userB._id nowB) := Zone.findById_save _ hsA rfl
  have hsBA : Zone.findById (Zone.save (Zone.save db (z.review Status.rejected userB._id nowB))
      (z.review Status.approved userA._id nowA)) id =
      some (z.review Status.approved userA._id nowA) := Zone.findById_save _ hsB rfl
  intro schedule hmem
  simp only [schedules, List.mem_cons, List.mem_singleton, List.not_mem_nil, or_false] at hmem
  rcases hmem with rfl | rfl | rfl | rfl | rfl | rfl <;>
    simp [Race.run, Race.step, hrA, hrB, hrAB, hrBA, reviewWrite_eq, review_review,
      Review.status, Review.message, hsAB, hsBA]

/-- Witness of `race_last_write_wins`: on the pending sample zone, in the order in which
the reject request writes first and the approve request writes last, the zone ends
`approved`. -/
theorem race_last_write_wins_witness :
    Zone.findById (Race.run exAdmin exAdmin2 exId 50 51 (exDb exPending [])
        [Moment.readA, Moment.readB, Moment.writeB, Moment.writeA]).db exId =
      some (exPending.review Status.approved exAdmin._id 50) :=
  (race_last_write_wins (exDb exPending []) exAdmin exAdmin2 exId exPending 50 51
    (by decide) (by decide) (by decide) (by decide)
    [Moment.readA, Moment.readB, Moment.writeB, Moment.writeA] (by decide)).2.2.1
    (by decide)

end RedZone
